import Mathlib

/-!
Sunshine multi-display capture / encode core

A shallow embedding of `src/display_control.cpp` (and the parts of `src/video.cpp`
it relies on) together with machine-checked statements about it.

Conventions of the embedding

* C++ `int` values are `Int`.  Where the source computes in 32-bit arithmetic (the
  bitrate products, the sums and differences of screen coordinates) the result is
  wrapped explicitly with `wrap32`, the two's complement behaviour of the compiled
  code.
* C++ `float` values live in an abstract carrier `F` with the operations the source
  uses (`float_ops`); no property of IEEE rounding is assumed.
* `std::map` is a key-sorted association list.
* Calls that leave the repository (the codec library, the platform display backend)
  are fields of explicit environment records; every statement quantifies over them.
-/

namespace video

/-! ## Touch ports (`input.h` types, `DisplayControl::makePort` / `removePort`) -/

/-- The float operations used by `DisplayControl::makePort`. -/
structure float_ops (F : Type) where
  /-- Conversion `int → float`. -/
  ofInt : Int → F
  /-- Float division. -/
  div : F → F → F
  /-- Float multiplication. -/
  mul : F → F → F
  /-- Float subtraction. -/
  sub : F → F → F
  /-- The C library function `fminf`. -/
  fminf : F → F → F
  /-- The literal `0.5f`. -/
  half : F
  /-- The literal `1.0f`. -/
  one : F

/-- Exact rational arithmetic, used to run the float code on concrete inputs. -/
def exact_floats : float_ops ℚ where
  ofInt := fun i => (i : ℚ)
  div := fun a b => a / b
  mul := fun a b => a * b
  sub := fun a b => a - b
  fminf := fun a b => min a b
  half := 1 / 2
  one := 1

/-- Modelled from the spec: `input::touch_port_t` is declared in `input.h`, which is
not among the sources.  The field list is the spec's
`Port{offset_x, offset_y, width, height, env_width, env_height, scale_offset_x,
scale_offset_y, inverse_scalar}`, in the order of the brace initialiser in
`makePort`. -/
structure touch_port_t (F : Type) where
  offset_x : Int
  offset_y : Int
  width : Int
  height : Int
  env_width : Int
  env_height : Int
  scale_offset_x : F
  scale_offset_y : F
  inverse_scalar : F
deriving DecidableEq, Repr

/-- Modelled from the spec: `input::touch_ports` (declared in `input.h`) is the map
`displayIndex → Port` plus the "full touch port".  The `std::map` is a list of
bindings in increasing key order. -/
structure touch_ports (F : Type) where
  ports : List (Int × touch_port_t F)
  full_touch_port : touch_port_t F
deriving DecidableEq, Repr

/-- The value-initialised port. -/
def touch_port_t.zero {F : Type} (z : F) : touch_port_t F :=
  ⟨0, 0, 0, 0, 0, 0, z, z, z⟩

/-- The state before any call: an empty map. -/
def touch_ports.empty {F : Type} (z : F) : touch_ports F :=
  ⟨[], touch_port_t.zero z⟩

/-- Lookup, `std::map::find`. -/
def map_find {α : Type} (k : Int) : List (Int × α) → Option α
  | [] => none
  | (k', v) :: rest => if k = k' then some v else map_find k rest

/-- Membership test, `std::map::contains`. -/
def map_contains {α : Type} (k : Int) (m : List (Int × α)) : Bool :=
  (map_find k m).isSome

/-- Removal, `std::map::erase(key)`. -/
def map_erase {α : Type} (k : Int) : List (Int × α) → List (Int × α)
  | [] => []
  | (k', v) :: rest => if k = k' then rest else (k', v) :: map_erase k rest

/-- Insert-or-assign, `m[k] = v`, keeping the bindings in key order. -/
def map_assign {α : Type} (k : Int) (v : α) : List (Int × α) → List (Int × α)
  | [] => [(k, v)]
  | (k', v') :: rest =>
    if k < k' then (k, v) :: (k', v') :: rest
    else if k = k' then (k, v) :: rest
    else (k', v') :: map_assign k v rest

/-- The part of `platf::display_t` read by `makePort`. -/
structure display_geometry where
  width : Int
  height : Int
  env_width : Int
  env_height : Int
  offset_x : Int
  offset_y : Int
deriving DecidableEq, Repr

/-- Conversion to the 32-bit two's complement `int` range. -/
def wrap32 (x : Int) : Int :=
  (x + 2147483648) % 4294967296 - 2147483648

/-- The rectangle update shared by `makePort` (lines 261-268) and the loop body of
`removePort` (lines 281-288): grow `full` so that it also covers `port`; the other
fields of `full` are kept.  The sums and differences are `int` operations. -/
def merge_port {F : Type} (full port : touch_port_t F) : touch_port_t F :=
  let x := min port.offset_x full.offset_x
  let y := min port.offset_y full.offset_y
  let right :=
    max (wrap32 (port.offset_x + port.width)) (wrap32 (full.offset_x + full.width))
  let bottom :=
    max (wrap32 (port.offset_y + port.height)) (wrap32 (full.offset_y + full.height))
  { full with
    offset_x := x, offset_y := y, width := wrap32 (right - x), height := wrap32 (bottom - y) }

/-- The value lies in the range of a 32-bit `int`. -/
def fits_int (x : Int) : Prop :=
  -2147483648 ≤ x ∧ x ≤ 2147483647

instance (x : Int) : Decidable (fits_int x) := by
  unfold fits_int
  exact inferInstance

/-- None of the `int` operations of `merge_port` overflows: the right and bottom edges
of both rectangles and the width and height of the merged rectangle fit in an `int`. -/
def merge_fits {F : Type} (full port : touch_port_t F) : Prop :=
  fits_int (port.offset_x + port.width) ∧ fits_int (full.offset_x + full.width) ∧
  fits_int (port.offset_y + port.height) ∧ fits_int (full.offset_y + full.height) ∧
  fits_int (max (port.offset_x + port.width) (full.offset_x + full.width)
    - min port.offset_x full.offset_x) ∧
  fits_int (max (port.offset_y + port.height) (full.offset_y + full.height)
    - min port.offset_y full.offset_y)

instance {F : Type} (full port : touch_port_t F) : Decidable (merge_fits full port) := by
  unfold merge_fits
  exact inferInstance

/-- The port value built by `makePort` (lines 230-256). -/
def make_port_value {F : Type} (fl : float_ops F) (display : display_geometry)
    (cfg_width cfg_height : Int) : touch_port_t F :=
  let wd := fl.ofInt display.width
  let hd := fl.ofInt display.height
  let wt := cfg_width
  let ht := cfg_height
  let scalar := fl.fminf (fl.div (fl.ofInt wt) wd) (fl.div (fl.ofInt ht) hd)
  let w2 := fl.mul scalar wd
  let h2 := fl.mul scalar hd
  let offsetX := fl.mul (fl.sub (fl.ofInt wt) w2) fl.half
  let offsetY := fl.mul (fl.sub (fl.ofInt ht) h2) fl.half
  { offset_x := display.offset_x
    offset_y := display.offset_y
    width := cfg_width
    height := cfg_height
    env_width := display.env_width
    env_height := display.env_height
    scale_offset_x := offsetX
    scale_offset_y := offsetY
    inverse_scalar := fl.div fl.one scalar }

/-- The function `DisplayControl::makePort`; the config enters through its `width`,
`height` and `displayIndex`. -/
def makePort {F : Type} (fl : float_ops F) (touchPorts : touch_ports F)
    (display : display_geometry) (cfg_width cfg_height displayIndex : Int) : touch_ports F :=
  let port := make_port_value fl display cfg_width cfg_height
  let full :=
    if touchPorts.ports.isEmpty then port
    else merge_port touchPorts.full_touch_port port
  { ports := map_assign displayIndex port touchPorts.ports, full_touch_port := full }

/-- The function `DisplayControl::removePort`.  The `for` loop starts at the second
binding and stops when `std::next(it)` is `end()`, so it visits every binding except
the first and the last. -/
def removePort {F : Type} (touchPorts : touch_ports F) (displayIndex : Int) : touch_ports F :=
  if map_contains displayIndex touchPorts.ports then
    let ports := map_erase displayIndex touchPorts.ports
    match ports with
    | [] =>
      { ports := ports
        full_touch_port :=
          { touchPorts.full_touch_port with offset_x := 0, offset_y := 0, width := 0, height := 0 } }
    | first :: rest =>
      let visited := rest.dropLast
      { ports := ports
        full_touch_port := visited.foldl (fun full b => merge_port full b.2) first.2 }
  else touchPorts

/-- The rectangle of a port: `(offset_x, offset_y, width, height)`. -/
def rect_of {F : Type} (p : touch_port_t F) : Int × Int × Int × Int :=
  (p.offset_x, p.offset_y, p.width, p.height)

/-- The minimum axis-aligned bounding rectangle of a family of ports, as a predicate
on `(x, y, w, h)`: every port lies inside, and each of the four sides is touched by
some port; for the empty family the rectangle is `(0, 0, 0, 0)`. -/
def is_bounding_rect {F : Type} (r : Int × Int × Int × Int) (ps : List (touch_port_t F)) : Prop :=
  if ps.isEmpty then r = (0, 0, 0, 0)
  else
    (∀ p ∈ ps, r.1 ≤ p.offset_x ∧ r.2.1 ≤ p.offset_y ∧
        p.offset_x + p.width ≤ r.1 + r.2.2.1 ∧ p.offset_y + p.height ≤ r.2.1 + r.2.2.2) ∧
    (∃ p ∈ ps, p.offset_x = r.1) ∧ (∃ p ∈ ps, p.offset_y = r.2.1) ∧
    (∃ p ∈ ps, p.offset_x + p.width = r.1 + r.2.2.1) ∧
    (∃ p ∈ ps, p.offset_y + p.height = r.2.1 + r.2.2.2)

instance {F : Type} [DecidableEq F] (r : Int × Int × Int × Int) (ps : List (touch_port_t F)) :
    Decidable (is_bounding_rect r ps) := by
  unfold is_bounding_rect
  exact inferInstance

/-- The ports held by a state, in map order. -/
def touch_ports.values {F : Type} (t : touch_ports F) : List (touch_port_t F) :=
  t.ports.map Prod.snd

/-- One call on the shared `touch_ports` value. -/
inductive port_op where
  | make (display : display_geometry) (cfg_width cfg_height displayIndex : Int)
  | remove (displayIndex : Int)

/-- Run a sequence of `makePort` / `removePort` calls, oldest first. -/
def run_ops {F : Type} (fl : float_ops F) (t : touch_ports F) : List port_op → touch_ports F
  | [] => t
  | .make d w h i :: rest => run_ops fl (makePort fl t d w h i) rest
  | .remove i :: rest => run_ops fl (removePort t i) rest

/-! ## Configuration and encoder descriptors (`video.h`, `config.h`, `display_control.h`) -/

/-- Modelled from the spec: `video::config_t` is declared in `video.h`, which is not
among the sources.  The fields are the spec's ClientConfig; the first ten stand in the
order of the positional initialisers of `validateEncoder`
(`{1920, 1080, 60, 1000, 1, 1, 1, 0, 0, 0}`), the fields those initialisers leave
out are value-initialised to zero. -/
structure config_t where
  width : Int
  height : Int
  framerate : Int
  bitrate : Int
  slicesPerFrame : Int
  numRefFrames : Int
  encoderCscMode : Int
  videoFormat : Int
  dynamicRange : Int
  chromaSamplingType : Int
  framerateX100 : Int
  displayIndex : Int
deriving DecidableEq, Repr

/-- The values of `config::video` (and of `config::sunshine.flags`) read by the code;
`config.h` is not among the sources, so they are a parameter of every function. -/
structure global_config where
  min_threads : Int
  max_bitrate : Int
  vbv_percentage_increase : Int
  hevc_mode : Int
  av1_mode : Int
  encoder : String
  output_name : String
  force_video_header_replace : Bool
  sw_preset : String
  sw_tune : String
  svtav1_preset : Option Int
  /-- The value `config::video.qsv.qsv_preset`. -/
  qsv_preset : Option Int := none
  /-- The value `config::video.qsv.qsv_slow_hevc`. -/
  qsv_slow_hevc : Bool := false
deriving DecidableEq, Repr

/-- The value `std::numeric_limits<int>::max()`. -/
def INT_MAX : Int := 2147483647

/-- The value `std::numeric_limits<std::int16_t>::max()`. -/
def INT16_MAX : Int := 32767

/-- The value `flag_e::PARALLEL_ENCODING`. -/
def PARALLEL_ENCODING : Nat := 1 <<< 1
/-- The value `flag_e::H264_ONLY`. -/
def H264_ONLY : Nat := 1 <<< 2
/-- The value `flag_e::LIMITED_GOP_SIZE`. -/
def LIMITED_GOP_SIZE : Nat := 1 <<< 3
/-- The value `flag_e::SINGLE_SLICE_ONLY`. -/
def SINGLE_SLICE_ONLY : Nat := 1 <<< 4
/-- The value `flag_e::CBR_WITH_VBR`. -/
def CBR_WITH_VBR : Nat := 1 <<< 5
/-- The value `flag_e::RELAXED_COMPLIANCE`. -/
def RELAXED_COMPLIANCE : Nat := 1 <<< 6
/-- The value `flag_e::NO_RC_BUF_LIMIT`. -/
def NO_RC_BUF_LIMIT : Nat := 1 <<< 7
/-- The value `flag_e::REF_FRAMES_INVALIDATION`. -/
def REF_FRAMES_INVALIDATION : Nat := 1 <<< 8
/-- The value `flag_e::ALWAYS_REPROBE`. -/
def ALWAYS_REPROBE : Nat := 1 <<< 9
/-- The value `flag_e::YUV444_SUPPORT`. -/
def YUV444_SUPPORT : Nat := 1 <<< 10
/-- The value `flag_e::ASYNC_TEARDOWN`. -/
def ASYNC_TEARDOWN : Nat := 1 <<< 11

/-- The test `flags & f` of a flag word against one flag. -/
def has_flag (flags f : Nat) : Bool :=
  flags &&& f != 0

/-- The value `validate_flag_e::VUI_PARAMS`. -/
def VUI_PARAMS : Int := 1

/-- The capability indices `encoder_t::flag_e` (declared in `video.h`; the spec lists
the set). -/
inductive flag_e where
  | PASSED
  | REF_FRAMES_RESTRICT
  | DYNAMIC_RANGE
  | YUV444
  | VUI_PARAMETERS
deriving DecidableEq, Repr

/-- The per-codec capability bitset. -/
structure capabilities_t where
  passed : Bool
  ref_frames_restrict : Bool
  dynamic_range : Bool
  yuv444 : Bool
  vui_parameters : Bool
deriving DecidableEq, Repr

/-- Read one capability bit. -/
def capabilities_t.get (c : capabilities_t) : flag_e → Bool
  | .PASSED => c.passed
  | .REF_FRAMES_RESTRICT => c.ref_frames_restrict
  | .DYNAMIC_RANGE => c.dynamic_range
  | .YUV444 => c.yuv444
  | .VUI_PARAMETERS => c.vui_parameters

/-- Write one capability bit. -/
def capabilities_t.assign (c : capabilities_t) (f : flag_e) (b : Bool) : capabilities_t :=
  match f with
  | .PASSED => { c with passed := b }
  | .REF_FRAMES_RESTRICT => { c with ref_frames_restrict := b }
  | .DYNAMIC_RANGE => { c with dynamic_range := b }
  | .YUV444 => { c with yuv444 := b }
  | .VUI_PARAMETERS => { c with vui_parameters := b }

/-- The bitset with every bit set, `capabilities.set()`. -/
def capabilities_t.all : capabilities_t := ⟨true, true, true, true, true⟩

/-- The bitset with every bit clear, `capabilities.reset()`. -/
def capabilities_t.none : capabilities_t := ⟨false, false, false, false, false⟩

/-- The value variant of `encoder_t::option_t`, in the order of the visitor of
`handle_option`.  Pointers into `config::video` are selectors on `global_config`. -/
inductive option_value where
  | int (v : Int)
  | int_ptr (v : global_config → Int)
  | optional_int_ptr (v : global_config → Option Int)
  | int_fn (v : global_config → Int)
  | string (v : String)
  | string_ptr (v : global_config → String)
  | string_fn (v : global_config → config_t → String)

/-- One entry of an option list: `encoder_t::option_t`. -/
structure option_t where
  name : String
  value : option_value

/-- One codec of an encoder, `encoder_t::codec_t`: the six option lists, the codec
name and the capability bitset. -/
structure codec_t where
  common_options : List option_t
  sdr_options : List option_t
  hdr_options : List option_t
  sdr444_options : List option_t
  hdr444_options : List option_t
  fallback_options : List option_t
  name : String
  capabilities : capabilities_t

/-! ## Codec library and platform types -/

/-- The hardware device types of the codec library that the encoder table names. -/
inductive AVHWDeviceType where
  | AV_HWDEVICE_TYPE_NONE
  | AV_HWDEVICE_TYPE_VAAPI
  | AV_HWDEVICE_TYPE_CUDA
  | AV_HWDEVICE_TYPE_D3D11VA
  | AV_HWDEVICE_TYPE_QSV
  | AV_HWDEVICE_TYPE_VIDEOTOOLBOX
deriving DecidableEq, Repr

/-- The pixel formats of the codec library that the encoder table names. -/
inductive AVPixelFormat where
  | AV_PIX_FMT_NONE
  | AV_PIX_FMT_YUV420P
  | AV_PIX_FMT_YUV420P10
  | AV_PIX_FMT_YUV444P
  | AV_PIX_FMT_YUV444P10
  | AV_PIX_FMT_NV12
  | AV_PIX_FMT_P010
  | AV_PIX_FMT_VUYX
  | AV_PIX_FMT_XV30
  | AV_PIX_FMT_BGR0
  | AV_PIX_FMT_D3D11
  | AV_PIX_FMT_CUDA
  | AV_PIX_FMT_QSV
  | AV_PIX_FMT_VAAPI
  | AV_PIX_FMT_VIDEOTOOLBOX
deriving DecidableEq, Repr

/-- The capture memory types `platf::mem_type_e`. -/
inductive mem_type_e where
  | system
  | vaapi
  | dxgi
  | cuda
  | videotoolbox
  | unknown
deriving DecidableEq, Repr

/-- The capture pixel formats `platf::pix_fmt_e`. -/
inductive pix_fmt_e where
  | yuv420p
  | yuv420p10
  | nv12
  | p010
  | ayuv
  | yuv444p16
  | y410
  | unknown
deriving DecidableEq, Repr

/-- The function `map_base_dev_type` of `video.cpp`. -/
def map_base_dev_type : AVHWDeviceType → mem_type_e
  | .AV_HWDEVICE_TYPE_D3D11VA => .dxgi
  | .AV_HWDEVICE_TYPE_VAAPI => .vaapi
  | .AV_HWDEVICE_TYPE_CUDA => .cuda
  | .AV_HWDEVICE_TYPE_NONE => .system
  | .AV_HWDEVICE_TYPE_VIDEOTOOLBOX => .videotoolbox
  | _ => .unknown

/-- The function `map_pix_fmt` of `video.cpp`. -/
def map_pix_fmt : AVPixelFormat → pix_fmt_e
  | .AV_PIX_FMT_VUYX => .ayuv
  | .AV_PIX_FMT_XV30 => .y410
  | .AV_PIX_FMT_YUV420P10 => .yuv420p10
  | .AV_PIX_FMT_YUV420P => .yuv420p
  | .AV_PIX_FMT_NV12 => .nv12
  | .AV_PIX_FMT_P010 => .p010
  | _ => .unknown

/-- The codec-context profiles assigned by `make_avcodec_encode_session`. -/
inductive AVProfile where
  | AV_PROFILE_H264_HIGH
  | AV_PROFILE_H264_HIGH_444_PREDICTIVE
  | AV_PROFILE_HEVC_MAIN
  | AV_PROFILE_HEVC_MAIN_10
  | AV_PROFILE_HEVC_REXT
  | AV_PROFILE_AV1_MAIN
  | AV_PROFILE_AV1_HIGH
deriving DecidableEq, Repr

/-- The colorspace kinds `colorspace_e`. -/
inductive colorspace_e where
  | rec601
  | rec709
  | bt2020sdr
  | bt2020
deriving DecidableEq, Repr

/-- The Sunshine colorspace `sunshine_colorspace_t`. -/
structure sunshine_colorspace_t where
  colorspace : colorspace_e
  full_range : Bool
  bit_depth : Int
deriving DecidableEq, Repr

/-- The codec-library colour description `avcodec_colorspace_t`. -/
structure avcodec_colorspace_t where
  primaries : Int
  transfer_function : Int
  matrix : Int
  range : Int
  software_format : Int
deriving DecidableEq, Repr

/-- The display HDR metadata `SS_HDR_METADATA`. -/
structure SS_HDR_METADATA where
  displayPrimaries : List (Int × Int)
  whitePoint : Int × Int
  maxDisplayLuminance : Int
  minDisplayLuminance : Int
  maxContentLightLevel : Int
  maxFrameAverageLightLevel : Int
deriving DecidableEq, Repr

/-- A value stored in an `AVDictionary`: set by `av_dict_set_int` or `av_dict_set`. -/
inductive dict_value where
  | int (v : Int)
  | str (v : String)
deriving DecidableEq, Repr

/-- The option dictionary `AVDictionary`, oldest entry first. -/
abbrev AVDictionary := List (String × dict_value)

/-- The library call `av_dict_set` / `av_dict_set_int` with flags `0`: an entry with
the same key is replaced.  (The library matches keys without regard to case; all
option names of the encoder table are lower case.) -/
def av_dict_set (d : AVDictionary) (key : String) (v : dict_value) : AVDictionary :=
  d.filter (fun e => e.1 != key) ++ [(key, v)]

/-- The hardware frame pool parameters `AVHWFramesContext`. -/
structure AVHWFramesContext where
  format : AVPixelFormat
  sw_format : AVPixelFormat
  height : Int
  width : Int
  initial_pool_size : Int
deriving DecidableEq, Repr

/-- The fields of `AVCodecContext` written by `make_avcodec_encode_session`.  A field
of type `Option` is `none` while the session factory has not assigned it (it keeps
the default of `avcodec_alloc_context3`). -/
structure AVCodecContext where
  width : Int
  height : Int
  time_base : Int × Int
  framerate : Int × Int
  profile : Option AVProfile
  max_b_frames : Int
  gop_size : Int
  keyint_min : Int
  refs : Option Int
  flags : Nat
  flags2 : Nat
  color_range : Int
  color_primaries : Int
  color_trc : Int
  colorspace : Int
  sw_pix_fmt : AVPixelFormat
  pix_fmt : AVPixelFormat
  hw_frames_ctx : Option AVHWFramesContext
  slices : Int
  thread_type : Int
  thread_count : Int
  rc_max_rate : Int
  bit_rate : Int
  rc_min_rate : Option Int
  strict_std_compliance : Option Int
  rc_buffer_size : Option Int
  chroma_sample_location : Int
deriving DecidableEq, Repr

/-- The value `AV_CODEC_FLAG_CLOSED_GOP`. -/
def AV_CODEC_FLAG_CLOSED_GOP : Nat := 1 <<< 31
/-- The value `AV_CODEC_FLAG_LOW_DELAY`. -/
def AV_CODEC_FLAG_LOW_DELAY : Nat := 1 <<< 19
/-- The value `AV_CODEC_FLAG2_FAST`. -/
def AV_CODEC_FLAG2_FAST : Nat := 1 <<< 0
/-- The value `FF_THREAD_SLICE`. -/
def FF_THREAD_SLICE : Int := 2
/-- The value `FF_COMPLIANCE_UNOFFICIAL`. -/
def FF_COMPLIANCE_UNOFFICIAL : Int := -1

/-- The platform encode device handed to the AVCODEC session factory,
`platf::avcodec_encode_device_t`: its `data` pointer (non-null or null), its
colorspace and its virtual methods, which belong to the platform layer. -/
structure avcodec_encode_device_t where
  data : Bool
  colorspace : sunshine_colorspace_t
  prepare_to_derive_context : AVHWDeviceType → Int
  init_hwframes : AVHWFramesContext → AVHWFramesContext
  init_codec_options : AVCodecContext → AVDictionary → AVCodecContext × AVDictionary
  set_frame : Bool → Int

/-- The platform encode device of the native NVENC path,
`platf::nvenc_encode_device_t`. -/
structure nvenc_encode_device_t where
  colorspace : sunshine_colorspace_t
  init_encoder : config_t → sunshine_colorspace_t → Bool
  /-- Whether the member `nvenc` (the native encoder) is non-null. -/
  nvenc : Bool

/-- The dynamic type of a `platf::encode_device_t`. -/
inductive encode_device_t where
  | avcodec (d : avcodec_encode_device_t)
  | nvenc (d : nvenc_encode_device_t)

/-- The statement `result->colorspace = colorspace` of `makeEncodeDevice`. -/
def encode_device_t.set_colorspace (c : sunshine_colorspace_t) : encode_device_t → encode_device_t
  | .avcodec d => .avcodec { d with colorspace := c }
  | .nvenc d => .nvenc { d with colorspace := c }

/-- The colorspace carried by an encode device. -/
def encode_device_t.colorspace : encode_device_t → sunshine_colorspace_t
  | .avcodec d => d.colorspace
  | .nvenc d => d.colorspace

/-- The display handle `platf::display_t`: geometry plus the methods of the platform
layer that the core calls. -/
structure display_t extends display_geometry where
  is_hdr : Bool
  get_hdr_metadata : Option SS_HDR_METADATA
  is_codec_supported : String → config_t → Bool
  make_avcodec_encode_device : pix_fmt_e → Option avcodec_encode_device_t
  make_nvenc_encode_device : pix_fmt_e → Option nvenc_encode_device_t

/-- The AVCODEC members of a platform format bundle,
`encoder_platform_formats_avcodec`, in constructor order. -/
structure encoder_platform_formats_avcodec where
  avcodec_base_dev_type : AVHWDeviceType
  avcodec_derived_dev_type : AVHWDeviceType
  avcodec_dev_pix_fmt : AVPixelFormat
  avcodec_pix_fmt_8bit : AVPixelFormat
  avcodec_pix_fmt_10bit : AVPixelFormat
  avcodec_pix_fmt_yuv444_8bit : AVPixelFormat
  avcodec_pix_fmt_yuv444_10bit : AVPixelFormat
deriving DecidableEq, Repr

/-- The dynamic type of a platform format bundle. -/
inductive platform_kind where
  | avcodec (f : encoder_platform_formats_avcodec)
  | nvenc
deriving DecidableEq, Repr

/-- The platform format bundle `encoder_platform_formats_t`: the members of the base
class and the dynamic type. -/
structure encoder_platform_formats_t where
  dev_type : mem_type_e
  pix_fmt_8bit : pix_fmt_e
  pix_fmt_10bit : pix_fmt_e
  pix_fmt_yuv444_8bit : pix_fmt_e
  pix_fmt_yuv444_10bit : pix_fmt_e
  kind : platform_kind
deriving DecidableEq, Repr

/-- The AVCODEC bundle built from codec-library formats: the base members are the
images of the codec-library values under `map_base_dev_type` and `map_pix_fmt`. -/
def encoder_platform_formats_t.of_avcodec (f : encoder_platform_formats_avcodec) :
    encoder_platform_formats_t where
  dev_type := map_base_dev_type f.avcodec_base_dev_type
  pix_fmt_8bit := map_pix_fmt f.avcodec_pix_fmt_8bit
  pix_fmt_10bit := map_pix_fmt f.avcodec_pix_fmt_10bit
  pix_fmt_yuv444_8bit := map_pix_fmt f.avcodec_pix_fmt_yuv444_8bit
  pix_fmt_yuv444_10bit := map_pix_fmt f.avcodec_pix_fmt_yuv444_10bit
  kind := .avcodec f

/-- An encoder descriptor `encoder_t`, members in the order of the initialisers in
`video.cpp`. -/
structure encoder_t where
  name : String
  platform_formats : encoder_platform_formats_t
  av1 : codec_t
  hevc : codec_t
  h264 : codec_t
  flags : Nat

/-- Modelled from the spec: `encoder_t::codec_from_config` is declared in `video.h`,
which is not among the sources.  The spec fixes `videoFormat ∈ {0 = H264, 1 = HEVC,
2 = AV1}`; any other value is given the H.264 codec here. -/
def encoder_t.codec_from_config (encoder : encoder_t) (config : config_t) : codec_t :=
  if config.videoFormat = 1 then encoder.hevc
  else if config.videoFormat = 2 then encoder.av1
  else encoder.h264

/-- Read access `codec[flag]`. -/
def codec_t.get (c : codec_t) (f : flag_e) : Bool :=
  c.capabilities.get f

/-- Replace the whole capability bitset of a codec. -/
def codec_t.set_capabilities (c : codec_t) (caps : capabilities_t) : codec_t :=
  { c with capabilities := caps }

/-- Write access `codec[flag] = b`. -/
def codec_t.assign (c : codec_t) (f : flag_e) (b : Bool) : codec_t :=
  c.set_capabilities (c.capabilities.assign f b)

/-- How an execution can end without a value. -/
inductive failure where
  /-- The function returned `nullptr` (or an empty pointer). -/
  | null
  /-- The execution left defined behaviour: a failed `assert`, or an integer division
  by zero. -/
  | undefined
deriving DecidableEq, Repr

/-- Everything outside the repository that the session factory calls: the codec
library, helper functions of files that are not among the sources, and the build
mode.  Calls inside the retry loop receive the value of `retries`. -/
structure environment where
  /-- Whether `NDEBUG` is defined, i.e. `assert` is compiled out. -/
  NDEBUG : Bool
  /-- Whether `__APPLE__` is defined. -/
  APPLE : Bool
  /-- Whether `avcodec_find_encoder_by_name` finds the codec. -/
  avcodec_find_encoder_by_name : String → Bool
  /-- The helper `video::framerateX100_to_rational`, as `(num, den)`. -/
  framerateX100_to_rational : Int → Int × Int
  /-- The helper `colorspace_from_client_config(config, hdr_display)`. -/
  colorspace_from_client_config : config_t → Bool → sunshine_colorspace_t
  /-- The helper `avcodec_colorspace_from_sunshine_colorspace`. -/
  avcodec_colorspace_from_sunshine_colorspace : sunshine_colorspace_t → avcodec_colorspace_t
  /-- The helper `colorspace_is_hdr`. -/
  colorspace_is_hdr : sunshine_colorspace_t → Bool
  /-- Whether `init_avcodec_hardware_input_buffer` yields a buffer (`has_left`). -/
  init_avcodec_hardware_input_buffer : Nat → avcodec_encode_device_t → Bool
  /-- The error code of `av_hwdevice_ctx_create_derived`. -/
  av_hwdevice_ctx_create_derived : Nat → AVHWDeviceType → Int
  /-- The error code of `av_hwframe_ctx_init`. -/
  av_hwframe_ctx_init : Nat → AVHWFramesContext → Int
  /-- The status of `avcodec_open2`. -/
  avcodec_open2 : Nat → AVCodecContext → AVDictionary → Int
  /-- The status of `avcodec_software_encode_device_t::init`. -/
  software_encode_device_init : Int → Int → AVPixelFormat → Bool → Int
  /-- The status of `av_hwframe_get_buffer`. -/
  av_hwframe_get_buffer : AVHWFramesContext → Int

/-! ## The AVCODEC session factory (`DisplayControl::make_avcodec_encode_session`) -/

/-- The context returned by `avcodec_alloc_context3`, before any assignment. -/
def avcodec_alloc_context3 : AVCodecContext where
  width := 0
  height := 0
  time_base := (0, 1)
  framerate := (0, 1)
  profile := none
  max_b_frames := 0
  gop_size := 0
  keyint_min := 0
  refs := none
  flags := 0
  flags2 := 0
  color_range := 0
  color_primaries := 0
  color_trc := 0
  colorspace := 0
  sw_pix_fmt := .AV_PIX_FMT_NONE
  pix_fmt := .AV_PIX_FMT_NONE
  hw_frames_ctx := none
  slices := 0
  thread_type := 0
  thread_count := 0
  rc_max_rate := 0
  bit_rate := 0
  rc_min_rate := none
  strict_std_compliance := none
  rc_buffer_size := none
  chroma_sample_location := 0

/-- The software pixel format `sw_fmt` (lines 339-343). -/
def select_sw_fmt (platform_formats : encoder_platform_formats_avcodec)
    (colorspace : sunshine_colorspace_t) (config : config_t) : AVPixelFormat :=
  if colorspace.bit_depth = 8 ∧ config.chromaSamplingType = 0 then
    platform_formats.avcodec_pix_fmt_8bit
  else if colorspace.bit_depth = 8 ∧ config.chromaSamplingType = 1 then
    platform_formats.avcodec_pix_fmt_yuv444_8bit
  else if colorspace.bit_depth = 10 ∧ config.chromaSamplingType = 0 then
    platform_formats.avcodec_pix_fmt_10bit
  else if colorspace.bit_depth = 10 ∧ config.chromaSamplingType = 1 then
    platform_formats.avcodec_pix_fmt_yuv444_10bit
  else .AV_PIX_FMT_NONE

/-- The `switch (config.videoFormat)` of lines 364-385: the value assigned to
`ctx->profile`, `none` when no case matches.  The `assert` of case 0 ends the
execution when assertions are compiled in. -/
def select_profile (env : environment) (config : config_t) : Except failure (Option AVProfile) :=
  if config.videoFormat = 0 then
    if !env.NDEBUG && config.dynamicRange != 0 then .error .undefined
    else
      .ok (some (if config.chromaSamplingType = 1 then .AV_PROFILE_H264_HIGH_444_PREDICTIVE
        else .AV_PROFILE_H264_HIGH))
  else if config.videoFormat = 1 then
    if config.chromaSamplingType = 1 then .ok (some .AV_PROFILE_HEVC_REXT)
    else .ok (some (if config.dynamicRange != 0 then .AV_PROFILE_HEVC_MAIN_10
      else .AV_PROFILE_HEVC_MAIN))
  else if config.videoFormat = 2 then
    .ok (some (if config.chromaSamplingType = 1 then .AV_PROFILE_AV1_HIGH
      else .AV_PROFILE_AV1_MAIN))
  else .ok none

/-- Lines 352-420: the assignments up to `sw_pix_fmt`. -/
def base_context (env : environment) (encoder : encoder_t) (video_format : codec_t)
    (config : config_t) (colorspace : sunshine_colorspace_t) (sw_fmt : AVPixelFormat)
    (profile : Option AVProfile) : AVCodecContext :=
  let ctx := avcodec_alloc_context3
  let fps := env.framerateX100_to_rational config.framerateX100
  let avcodec_colorspace := env.avcodec_colorspace_from_sunshine_colorspace colorspace
  { ctx with
    width := config.width
    height := config.height
    time_base := if config.framerateX100 > 0 then (fps.2, fps.1) else (1, config.framerate)
    framerate := if config.framerateX100 > 0 then fps else (config.framerate, 1)
    profile := profile
    max_b_frames := 0
    gop_size := if has_flag encoder.flags LIMITED_GOP_SIZE then INT16_MAX else INT_MAX
    keyint_min := INT_MAX
    refs :=
      if config.numRefFrames != 0 && video_format.get .REF_FRAMES_RESTRICT then
        some config.numRefFrames
      else ctx.refs
    flags := 0 ||| (AV_CODEC_FLAG_CLOSED_GOP ||| AV_CODEC_FLAG_LOW_DELAY)
    flags2 := ctx.flags2 ||| AV_CODEC_FLAG2_FAST
    color_range := avcodec_colorspace.range
    color_primaries := avcodec_colorspace.primaries
    color_trc := avcodec_colorspace.transfer_function
    colorspace := avcodec_colorspace.matrix
    sw_pix_fmt := sw_fmt }

/-- Lines 422-476: the hardware branch.  Each failed library or device call returns
`nullptr`. -/
def hardware_setup (env : environment) (platform_formats : encoder_platform_formats_avcodec)
    (encode_device : avcodec_encode_device_t) (config : config_t) (sw_fmt : AVPixelFormat)
    (retries : Nat) (ctx : AVCodecContext) : Except failure AVCodecContext :=
  let ctx := { ctx with pix_fmt := platform_formats.avcodec_dev_pix_fmt }
  let derived := platform_formats.avcodec_derived_dev_type
  if !env.init_avcodec_hardware_input_buffer retries encode_device then .error .null
  else if derived != .AV_HWDEVICE_TYPE_NONE &&
      encode_device.prepare_to_derive_context derived != 0 then .error .null
  else if derived != .AV_HWDEVICE_TYPE_NONE &&
      env.av_hwdevice_ctx_create_derived retries derived != 0 then .error .null
  else
    let frame_ctx := encode_device.init_hwframes
      { format := ctx.pix_fmt, sw_format := sw_fmt, height := ctx.height, width := ctx.width
        initial_pool_size := 0 }
    if env.av_hwframe_ctx_init retries frame_ctx < 0 then .error .null
    else .ok { ctx with hw_frames_ctx := some frame_ctx, slices := config.slicesPerFrame }

/-- Lines 422-490: pixel format, hardware frames and the slice / thread layout. -/
def slice_layout (env : environment) (g : global_config) (encoder : encoder_t)
    (platform_formats : encoder_platform_formats_avcodec)
    (encode_device : avcodec_encode_device_t) (config : config_t) (sw_fmt : AVPixelFormat)
    (retries : Nat) (ctx : AVCodecContext) : Except failure AVCodecContext :=
  let hardware := platform_formats.avcodec_base_dev_type != .AV_HWDEVICE_TYPE_NONE
  let branch : Except failure AVCodecContext :=
    if hardware then hardware_setup env platform_formats encode_device config sw_fmt retries ctx
    else .ok { ctx with pix_fmt := sw_fmt, slices := max config.slicesPerFrame g.min_threads }
  match branch with
  | .error e => .error e
  | .ok ctx =>
    let ctx := if has_flag encoder.flags SINGLE_SLICE_ONLY then { ctx with slices := 1 } else ctx
    let ctx := { ctx with thread_type := FF_THREAD_SLICE }
    .ok { ctx with thread_count := ctx.slices }

/-- The lambda `handle_option` (lines 493-524): one option applied to the
dictionary. -/
def handle_option (g : global_config) (config : config_t) (options : AVDictionary)
    (option : option_t) : AVDictionary :=
  match option.value with
  | .int v => av_dict_set options option.name (.int v)
  | .int_ptr v => av_dict_set options option.name (.int (v g))
  | .optional_int_ptr v =>
    match v g with
    | some x => av_dict_set options option.name (.int x)
    | none => options
  | .int_fn v => av_dict_set options option.name (.int (v g))
  | .string v => av_dict_set options option.name (.str v)
  | .string_ptr v =>
    if !(v g).isEmpty then av_dict_set options option.name (.str (v g)) else options
  | .string_fn v => av_dict_set options option.name (.str (v g config))

/-- Lines 492-542: the option dictionary of one attempt. -/
def build_options (g : global_config) (video_format : codec_t) (config : config_t)
    (retries : Nat) : AVDictionary :=
  let options : AVDictionary := []
  let options := video_format.common_options.foldl (handle_option g config) options
  let options :=
    (if config.dynamicRange != 0 then video_format.hdr_options
      else video_format.sdr_options).foldl (handle_option g config) options
  let options :=
    if config.chromaSamplingType = 1 then
      (if config.dynamicRange != 0 then video_format.hdr444_options
        else video_format.sdr444_options).foldl (handle_option g config) options
    else options
  if retries > 0 then video_format.fallback_options.foldl (handle_option g config) options
  else options

/-- C++ `int` division: truncating, and without defined behaviour for a zero divisor
or for `INT_MIN / -1`. -/
def int_div (a b : Int) : Except failure Int :=
  if b = 0 ∨ (a = -2147483648 ∧ b = -1) then .error .undefined else .ok (Int.tdiv a b)

/-- The value `bitrate` of line 544, computed in `int`. -/
def effective_bitrate (g : global_config) (config : config_t) : Int :=
  wrap32 ((if g.max_bitrate > 0 then min config.bitrate g.max_bitrate else config.bitrate) * 1000)

/-- Lines 544-576: rate control. -/
def rate_control (env : environment) (g : global_config) (encoder : encoder_t)
    (hardware : Bool) (config : config_t) (ctx : AVCodecContext) :
    Except failure AVCodecContext :=
  let bitrate := effective_bitrate g config
  let ctx := { ctx with rc_max_rate := bitrate }
  let ctx := { ctx with bit_rate := bitrate }
  let ctx :=
    if has_flag encoder.flags CBR_WITH_VBR then { ctx with bit_rate := ctx.bit_rate - 1 }
    else { ctx with rc_min_rate := some bitrate }
  let ctx :=
    if has_flag encoder.flags RELAXED_COMPLIANCE then
      { ctx with strict_std_compliance := some FF_COMPLIANCE_UNOFFICIAL }
    else ctx
  if !has_flag encoder.flags NO_RC_BUF_LIMIT then
    if !hardware && (decide (ctx.slices > (1 : Int)) || decide (config.videoFormat = 1)) then
      match int_div bitrate (Int.tdiv (wrap32 (config.framerate * 10)) 15) with
      | .error e => .error e
      | .ok size => .ok { ctx with rc_buffer_size := some size }
    else
      match int_div bitrate config.framerate with
      | .error e => .error e
      | .ok size =>
        let size :=
          if !env.APPLE && encoder.name == "nvenc" && decide (g.vbv_percentage_increase > 0) then
            wrap32 (size + Int.tdiv (wrap32 (size * g.vbv_percentage_increase)) 100)
          else size
        .ok { ctx with rc_buffer_size := some size }
  else .ok ctx

/-- Lines 352-576: one pass of the retry loop up to (not including) the device's
final option pass: the codec context and the option dictionary as the session
factory sets them. -/
def setup_codec_context (env : environment) (g : global_config) (encoder : encoder_t)
    (platform_formats : encoder_platform_formats_avcodec) (video_format : codec_t)
    (config : config_t) (encode_device : avcodec_encode_device_t) (sw_fmt : AVPixelFormat)
    (retries : Nat) : Except failure (AVCodecContext × AVDictionary) :=
  let hardware := platform_formats.avcodec_base_dev_type != .AV_HWDEVICE_TYPE_NONE
  match select_profile env config with
  | .error e => .error e
  | .ok profile =>
    let ctx := base_context env encoder video_format config encode_device.colorspace sw_fmt profile
    match slice_layout env g encoder platform_formats encode_device config sw_fmt retries ctx with
    | .error e => .error e
    | .ok ctx =>
      let options := build_options g video_format config retries
      match rate_control env g encoder hardware config ctx with
      | .error e => .error e
      | .ok ctx => .ok (ctx, options)

/-- How one pass of the retry loop ends when it does not return `nullptr`. -/
inductive attempt_t where
  /-- The codec opened: `break`. -/
  | opened (ctx : AVCodecContext)
  /-- The first open failed and fallback options exist: `continue`. -/
  | again (ctx : AVCodecContext)

/-- Lines 352-601: one pass of the retry loop. -/
def codec_attempt (env : environment) (g : global_config) (encoder : encoder_t)
    (platform_formats : encoder_platform_formats_avcodec) (video_format : codec_t)
    (config : config_t) (encode_device : avcodec_encode_device_t) (sw_fmt : AVPixelFormat)
    (retries : Nat) : Except failure attempt_t :=
  match setup_codec_context env g encoder platform_formats video_format config encode_device
      sw_fmt retries with
  | .error e => .error e
  | .ok (ctx, options) =>
    let final := encode_device.init_codec_options ctx options
    if env.avcodec_open2 retries final.1 final.2 != 0 then
      if !video_format.fallback_options.isEmpty && retries == 0 then .ok (.again final.1)
      else .error .null
    else .ok (.opened final.1)

/-- Lines 350-602: the loop `for (int retries = 0; retries < 2; retries++)`, unrolled. -/
def open_codec (env : environment) (g : global_config) (encoder : encoder_t)
    (platform_formats : encoder_platform_formats_avcodec) (video_format : codec_t)
    (config : config_t) (encode_device : avcodec_encode_device_t) (sw_fmt : AVPixelFormat) :
    Except failure AVCodecContext :=
  match codec_attempt env g encoder platform_formats video_format config encode_device sw_fmt 0 with
  | .error e => .error e
  | .ok (.opened ctx) => .ok ctx
  | .ok (.again _) =>
    match codec_attempt env g encoder platform_formats video_format config encode_device
      sw_fmt 1 with
    | .error e => .error e
    | .ok (.opened ctx) => .ok ctx
    | .ok (.again ctx) => .ok ctx

/-- The side data `AVMasteringDisplayMetadata`; rationals are `(num, den)`. -/
structure AVMasteringDisplayMetadata where
  display_primaries : List ((Int × Int) × (Int × Int))
  white_point : (Int × Int) × (Int × Int)
  min_luminance : Int × Int
  max_luminance : Int × Int
  has_luminance : Int
  has_primaries : Int
deriving DecidableEq, Repr

/-- The fields of `AVFrame` that the core writes. -/
structure AVFrame where
  format : AVPixelFormat
  width : Int
  height : Int
  color_range : Int
  color_primaries : Int
  color_trc : Int
  colorspace : Int
  chroma_location : Int
  mastering_display : Option AVMasteringDisplayMetadata
  content_light : Option (Int × Int)
  pts : Int
  pict_type : Int
  flags : Nat
deriving DecidableEq, Repr

/-- Lines 618-634: the mastering display side data built from the display metadata. -/
def mastering_display_of (m : SS_HDR_METADATA) : AVMasteringDisplayMetadata where
  display_primaries := m.displayPrimaries.map (fun p => ((p.1, 50000), (p.2, 50000)))
  white_point := ((m.whitePoint.1, 50000), (m.whitePoint.2, 50000))
  min_luminance := (m.minDisplayLuminance, 10000)
  max_luminance := (m.maxDisplayLuminance, 1)
  has_luminance := if m.maxDisplayLuminance != 0 then 1 else 0
  has_primaries := if (m.displayPrimaries.map Prod.fst).head? != some 0 then 1 else 0

/-- Lines 604-645: the frame allocated for the opened context, with the HDR side
data. -/
def make_frame (env : environment) (disp : display_t) (colorspace : sunshine_colorspace_t)
    (ctx : AVCodecContext) : AVFrame :=
  let metadata := if env.colorspace_is_hdr colorspace then disp.get_hdr_metadata else none
  { format := ctx.pix_fmt
    width := ctx.width
    height := ctx.height
    color_range := ctx.color_range
    color_primaries := ctx.color_primaries
    color_trc := ctx.color_trc
    colorspace := ctx.colorspace
    chroma_location := ctx.chroma_sample_location
    mastering_display := metadata.map mastering_display_of
    content_light :=
      match metadata with
      | some m =>
        if m.maxContentLightLevel != 0 || m.maxFrameAverageLightLevel != 0 then
          some (m.maxContentLightLevel, m.maxFrameAverageLightLevel)
        else none
      | none => none
    pts := 0
    pict_type := 0
    flags := 0 }

/-- The device owned by a finished AVCODEC session: the internal software device
(`avcodec_software_encode_device_t`) or the platform device. -/
inductive final_device_t where
  | software (colorspace : sunshine_colorspace_t)
  | platform (d : avcodec_encode_device_t)

/-- A header rewrite `cbs::nal_t`: the bytes found in the stream and the bytes that
replace them. -/
structure nal_t where
  _new : List Nat
  old : List Nat
deriving DecidableEq, Repr

/-- The AVCODEC session `avcodec_encode_session_t`; `replacements` holds
`(old, new)` byte strings. -/
structure avcodec_encode_session_t where
  avcodec_ctx : AVCodecContext
  device : final_device_t
  frame : AVFrame
  replacements : List (List Nat × List Nat)
  inject : Int
  displayIndex : Int
  sps : nal_t := ⟨[], []⟩
  vps : nal_t := ⟨[], []⟩

/-- The initial inject mode (line 673). -/
def initial_inject (video_format : codec_t) (config : config_t) : Int :=
  if config.videoFormat ≤ 1 then
    (1 - (if video_format.get .VUI_PARAMETERS then 1 else 0)) * (1 + config.videoFormat)
  else 0

/-- Lines 604-676: what follows the retry loop. -/
def finish_session (env : environment) (disp : display_t) (video_format : codec_t)
    (config : config_t) (width height : Int) (encode_device : avcodec_encode_device_t)
    (sw_fmt : AVPixelFormat) (hardware : Bool) (ctx : AVCodecContext) :
    Except failure avcodec_encode_session_t :=
  let colorspace := encode_device.colorspace
  let frame := make_frame env disp colorspace ctx
  if !encode_device.data then
    if env.software_encode_device_init width height sw_fmt hardware != 0 then .error .null
    else
      let set_frame : Int :=
        match ctx.hw_frames_ctx with
        | some hw => if env.av_hwframe_get_buffer hw != 0 then -1 else 0
        | none => 0
      if set_frame != 0 then .error .null
      else
        .ok { avcodec_ctx := ctx, device := .software colorspace, frame := frame
              replacements := [], inject := initial_inject video_format config
              displayIndex := config.displayIndex }
  else if encode_device.set_frame ctx.hw_frames_ctx.isSome != 0 then .error .null
  else
    .ok { avcodec_ctx := ctx, device := .platform encode_device, frame := frame
          replacements := [], inject := initial_inject video_format config
          displayIndex := config.displayIndex }

/-- The function `DisplayControl::make_avcodec_encode_session`. -/
def make_avcodec_encode_session (env : environment) (g : global_config) (disp : display_t)
    (encoder : encoder_t) (config : config_t) (width height : Int)
    (encode_device : avcodec_encode_device_t) : Except failure avcodec_encode_session_t :=
  match encoder.platform_formats.kind with
  | .nvenc => .error .null
  | .avcodec platform_formats =>
    let hardware := platform_formats.avcodec_base_dev_type != .AV_HWDEVICE_TYPE_NONE
    let video_format := encoder.codec_from_config config
    if !video_format.get .PASSED || !disp.is_codec_supported video_format.name config then
      .error .null
    else if config.dynamicRange != 0 && !video_format.get .DYNAMIC_RANGE then .error .null
    else if config.chromaSamplingType == 1 && !video_format.get .YUV444 then .error .null
    else if !env.avcodec_find_encoder_by_name video_format.name then .error .null
    else
      let sw_fmt := select_sw_fmt platform_formats encode_device.colorspace config
      match open_codec env g encoder platform_formats video_format config encode_device sw_fmt with
      | .error e => .error e
      | .ok ctx =>
        finish_session env disp video_format config width height encode_device sw_fmt hardware ctx

/-! ## Encode devices, sessions and the probe (`makeEncodeDevice`, `makeEncodeSession`,
`validate_config`, `validateEncoder`) -/

/-- The NVENC session `nvenc_encode_session_t`. -/
structure nvenc_encode_session_t where
  device : nvenc_encode_device_t
  force_idr : Bool
  displayIndex : Int

/-- The dynamic type of an `encode_session_t`. -/
inductive encode_session_t where
  | avcodec (s : avcodec_encode_session_t)
  | nvenc (s : nvenc_encode_session_t)

/-- The function `DisplayControl::make_nvenc_encode_session`. -/
def make_nvenc_encode_session (client_config : config_t) (encode_device : nvenc_encode_device_t) :
    Except failure nvenc_encode_session_t :=
  if !encode_device.init_encoder client_config encode_device.colorspace then .error .null
  else .ok { device := encode_device, force_idr := false, displayIndex := client_config.displayIndex }

/-- The function `DisplayControl::makeEncodeSession`. -/
def makeEncodeSession (env : environment) (g : global_config) (disp : display_t)
    (encoder : encoder_t) (config : config_t) (width height : Int)
    (encode_device : encode_device_t) : Except failure encode_session_t :=
  match encode_device with
  | .avcodec d =>
    (make_avcodec_encode_session env g disp encoder config width height d).map .avcodec
  | .nvenc d => (make_nvenc_encode_session config d).map .nvenc

/-- The function `DisplayControl::makeEncodeDevice`; `none` is the empty pointer. -/
def makeEncodeDevice (env : environment) (disp : display_t) (encoder : encoder_t)
    (config : config_t) : Option encode_device_t :=
  let colorspace := env.colorspace_from_client_config config disp.is_hdr
  if config.chromaSamplingType = 1 ∧ !has_flag encoder.flags YUV444_SUPPORT then none
  else
    let pix_fmt :=
      if config.chromaSamplingType = 1 then
        (if colorspace.bit_depth = 10 then encoder.platform_formats.pix_fmt_yuv444_10bit
          else encoder.platform_formats.pix_fmt_yuv444_8bit)
      else
        (if colorspace.bit_depth = 10 then encoder.platform_formats.pix_fmt_10bit
          else encoder.platform_formats.pix_fmt_8bit)
    let result : Option encode_device_t :=
      match encoder.platform_formats.kind with
      | .avcodec _ => (disp.make_avcodec_encode_device pix_fmt).map .avcodec
      | .nvenc => (disp.make_nvenc_encode_device pix_fmt).map .nvenc
    result.map (encode_device_t.set_colorspace colorspace)

/-- The first packet of a trial encode as `validate_config` inspects it. -/
structure trial_packet where
  /-- The result of `packet->is_idr()`. -/
  is_idr : Bool
  /-- Whether the packet is a `packet_raw_avcodec`. -/
  avcodec : Bool
  /-- The result of `cbs::validate_sps` on the packet. -/
  validate_sps : Bool
deriving DecidableEq, Repr

/-- The platform and codec behaviour observed by the probe. -/
structure probe_environment where
  /-- The call `platf::display(type, name, config)`; the last argument counts the
  attempts of one `resetDisplay`. -/
  display : mem_type_e → String → config_t → Nat → Option display_t
  /-- The helper `display_device::map_output_name`. -/
  map_output_name : String → String
  /-- Lines 710-727 of `validate_config`: the dummy image, the IDR request and the
  encode loop up to the first packet; `none` when one of these steps fails. (A run in
  which the encoder never yields a packet does not return and has no value here.) -/
  trial : encode_session_t → config_t → Option trial_packet

/-- The function `DisplayControl::resetDisplay`: up to two attempts. -/
def resetDisplay (penv : probe_environment) (type : mem_type_e) (display_name : String)
    (config : config_t) : Option display_t :=
  match penv.display type display_name config 0 with
  | some disp => some disp
  | none => penv.display type display_name config 1

/-- The function `DisplayControl::validate_config`: `-1`, or the flag word. -/
def validate_config (env : environment) (penv : probe_environment) (g : global_config)
    (disp : display_t) (encoder : encoder_t) (config : config_t) : Except failure Int :=
  match makeEncodeDevice env disp encoder config with
  | none => .ok (-1)
  | some encode_device =>
    match makeEncodeSession env g disp encoder config disp.width disp.height encode_device with
    | .error .undefined => .error .undefined
    | .error .null => .ok (-1)
    | .ok session =>
      match penv.trial session config with
      | none => .ok (-1)
      | some packet =>
        if !packet.is_idr then .ok (-1)
        else if config.videoFormat ≤ 1 then
          if packet.avcodec then .ok (if packet.validate_sps then VUI_PARAMS else 0)
          else .ok VUI_PARAMS
        else .ok 0

/-- The test `value & validate_flag` for `validate_flag = VUI_PARAMS = 0x01` on a
two's complement `int`: bit 0 of the value (set in `-1`). -/
def test_vui_params (value : Int) : Bool :=
  value % 2 != 0

/-- The pattern `disp->is_codec_supported(...) && validate_config(...) >= 0`: the
trial runs only when the display supports the codec. -/
def supported_and_valid (supported : Bool) (trial : Except failure Int) : Except failure Bool :=
  if supported then trial.map (fun r => decide (r ≥ 0)) else .ok false

/-- Lines 804-830 (HEVC) and 832-858 (AV1), which differ only in the codec member:
`get` / `set` access that member, the two configs already carry its `videoFormat`. -/
def probe_codec (env : environment) (penv : probe_environment) (g : global_config)
    (disp : display_t) (test : Bool) (get : encoder_t → codec_t)
    (set : encoder_t → codec_t → encoder_t) (config_max_ref_frames config_autoselect : config_t)
    (max_ref_frames_h264 : Int) (encoder : encoder_t) : Except failure encoder_t :=
  if test then
    if disp.is_codec_supported (get encoder).name config_autoselect then
      match validate_config env penv g disp encoder config_max_ref_frames with
      | .error e => .error e
      | .ok max_ref_frames =>
        let second : Except failure Int :=
          if max_ref_frames ≥ 0 ∨ max_ref_frames_h264 ≥ 0 then .ok max_ref_frames
          else validate_config env penv g disp encoder config_autoselect
        match second with
        | .error e => .error e
        | .ok autoselect =>
          let encoder := set encoder ((get encoder).assign .VUI_PARAMETERS
            (test_vui_params max_ref_frames && test_vui_params autoselect))
          let encoder := set encoder ((get encoder).assign .REF_FRAMES_RESTRICT
            (decide (max_ref_frames ≥ 0)))
          .ok (set encoder ((get encoder).assign .PASSED
            (decide (max_ref_frames ≥ 0) || decide (autoselect ≥ 0))))
    else .ok (set encoder ((get encoder).set_capabilities capabilities_t.none))
  else .ok (set encoder ((get encoder).set_capabilities capabilities_t.none))

/-- The lambda `test_hdr_and_yuv444` (lines 879-909); `get` / `set` access the
`flag_map` argument. -/
def test_hdr_and_yuv444 (env : environment) (penv : probe_environment) (g : global_config)
    (disp : display_t) (generic_hdr_config : config_t) (get : encoder_t → codec_t)
    (set : encoder_t → codec_t → encoder_t) (video_format : Int) (encoder : encoder_t) :
    Except failure encoder_t :=
  let config := { generic_hdr_config with videoFormat := video_format }
  if !(get encoder).get .PASSED then .ok encoder
  else
    let encoder_codec_name := (encoder.codec_from_config config).name
    let config444 := { config with chromaSamplingType := 1 }
    match supported_and_valid
        (has_flag encoder.flags YUV444_SUPPORT && disp.is_codec_supported encoder_codec_name config444)
        (validate_config env penv g disp encoder config444) with
    | .error e => .error e
    | .ok true =>
      let encoder := set encoder ((get encoder).assign .DYNAMIC_RANGE true)
      .ok (set encoder ((get encoder).assign .YUV444 true))
    | .ok false =>
      let encoder := set encoder ((get encoder).assign .YUV444 false)
      let config420 := { config444 with chromaSamplingType := 0 }
      match supported_and_valid (disp.is_codec_supported encoder_codec_name config420)
          (validate_config env penv g disp encoder config420) with
      | .error e => .error e
      | .ok b => .ok (set encoder ((get encoder).assign .DYNAMIC_RANGE b))

/-- Write access to the HEVC member of an encoder. -/
def encoder_t.set_hevc (encoder : encoder_t) (c : codec_t) : encoder_t :=
  { encoder with hevc := c }

/-- Write access to the AV1 member of an encoder. -/
def encoder_t.set_av1 (encoder : encoder_t) (c : codec_t) : encoder_t :=
  { encoder with av1 := c }

/-- Write access to the H.264 member of an encoder. -/
def encoder_t.set_h264 (encoder : encoder_t) (c : codec_t) : encoder_t :=
  { encoder with h264 := c }

/-- Lines 860-929 of `validateEncoder`: the HDR and YUV 4:4:4 tests and the final
VUI adjustment. -/
def validate_hdr_and_yuv444 (env : environment) (penv : probe_environment) (g : global_config)
    (output_name : String) (disp : display_t) (encoder : encoder_t) :
    Except failure (Bool × encoder_t) :=
  let config_h264_yuv444 : config_t := ⟨1920, 1080, 60, 1000, 1, 0, 1, 0, 0, 1, 0, 0⟩
  let h264_yuv444 : Except failure Bool :=
    if has_flag encoder.flags YUV444_SUPPORT then
      supported_and_valid (disp.is_codec_supported encoder.h264.name config_h264_yuv444)
        (validate_config env penv g disp encoder config_h264_yuv444)
    else .ok false
  match h264_yuv444 with
  | .error e => .error e
  | .ok yuv444 =>
    let encoder := encoder.set_h264 (encoder.h264.assign .YUV444 yuv444)
    let generic_hdr_config : config_t := ⟨1920, 1080, 60, 1000, 1, 0, 3, 1, 1, 0, 0, 0⟩
    match resetDisplay penv encoder.platform_formats.dev_type output_name generic_hdr_config with
    | none => .ok (false, encoder)
    | some disp =>
      let encoder := encoder.set_h264 (encoder.h264.assign .DYNAMIC_RANGE false)
      match test_hdr_and_yuv444 env penv g disp generic_hdr_config encoder_t.hevc
          encoder_t.set_hevc 1 encoder with
      | .error e => .error e
      | .ok encoder =>
        match test_hdr_and_yuv444 env penv g disp generic_hdr_config encoder_t.av1
            encoder_t.set_av1 2 encoder with
        | .error e => .error e
        | .ok encoder =>
          let encoder := encoder.set_h264 (encoder.h264.assign .VUI_PARAMETERS
            (encoder.h264.get .VUI_PARAMETERS && !g.force_video_header_replace))
          let encoder := encoder.set_hevc (encoder.hevc.assign .VUI_PARAMETERS
            (encoder.hevc.get .VUI_PARAMETERS && !g.force_video_header_replace))
          .ok (true, encoder)

/-- Lines 793-929 of `validateEncoder`: what follows the two H.264 trials. -/
def validate_codecs (env : environment) (penv : probe_environment) (g : global_config)
    (test_hevc test_av1 : Bool) (output_name : String) (disp : display_t)
    (config_max_ref_frames config_autoselect : config_t)
    (max_ref_frames_h264 autoselect_h264 : Int) (encoder : encoder_t) :
    Except failure (Bool × encoder_t) :=
  let encoder := encoder.set_h264 (encoder.h264.assign .VUI_PARAMETERS
    (test_vui_params max_ref_frames_h264 && test_vui_params autoselect_h264))
  let encoder := encoder.set_h264 (encoder.h264.assign .REF_FRAMES_RESTRICT
    (decide (max_ref_frames_h264 ≥ 0)))
  let encoder := encoder.set_h264 (encoder.h264.assign .PASSED true)
  match probe_codec env penv g disp test_hevc encoder_t.hevc encoder_t.set_hevc
      { config_max_ref_frames with videoFormat := 1 } { config_autoselect with videoFormat := 1 }
      max_ref_frames_h264 encoder with
  | .error e => .error e
  | .ok encoder =>
    match probe_codec env penv g disp test_av1 encoder_t.av1 encoder_t.set_av1
        { config_max_ref_frames with videoFormat := 2 } { config_autoselect with videoFormat := 2 }
        max_ref_frames_h264 encoder with
    | .error e => .error e
    | .ok encoder => validate_hdr_and_yuv444 env penv g output_name disp encoder

/-- Lines 767-929 of `validateEncoder`: everything after the capability bits have
been set (line 765). -/
def validate_h264 (env : environment) (penv : probe_environment) (g : global_config)
    (test_hevc test_av1 : Bool) (output_name : String) (encoder : encoder_t)
    (expect_failure : Bool) : Except failure (Bool × encoder_t) :=
  let config_max_ref_frames : config_t := ⟨1920, 1080, 60, 1000, 1, 1, 1, 0, 0, 0, 0, 0⟩
  let config_autoselect : config_t := ⟨1920, 1080, 60, 1000, 1, 0, 1, 0, 0, 0, 0, 0⟩
  match resetDisplay penv encoder.platform_formats.dev_type output_name config_autoselect with
  | none => .ok (false, encoder)
  | some disp =>
    if !disp.is_codec_supported encoder.h264.name config_autoselect then .ok (false, encoder)
    else
      let first : Except failure Int :=
        if expect_failure then .ok (-1)
        else validate_config env penv g disp encoder config_max_ref_frames
      match first with
      | .error e => .error e
      | .ok max_ref_frames_h264 =>
        let second : Except failure Int :=
          if max_ref_frames_h264 ≥ 0 then .ok max_ref_frames_h264
          else validate_config env penv g disp encoder config_autoselect
        match second with
        | .error e => .error e
        | .ok autoselect_h264 =>
          if autoselect_h264 < 0 then .ok (false, encoder)
          else
            let third : Except failure Int :=
              if expect_failure then
                validate_config env penv g disp encoder config_max_ref_frames
              else .ok max_ref_frames_h264
            match third with
            | .error e => .error e
            | .ok max_ref_frames_h264 =>
              validate_codecs env penv g test_hevc test_av1 output_name disp
                config_max_ref_frames config_autoselect max_ref_frames_h264 autoselect_h264
                encoder

/-- The function `DisplayControl::validateEncoder`: the returned flag and the
encoder with its capability matrix as the call leaves it.  `active_hevc_mode` and
`active_av1_mode` are the globals of `video.cpp`. -/
def validateEncoder (env : environment) (penv : probe_environment) (g : global_config)
    (active_hevc_mode active_av1_mode : Int) (encoder : encoder_t) (expect_failure : Bool) :
    Except failure (Bool × encoder_t) :=
  let output_name := penv.map_output_name g.output_name
  let test_hevc := decide (active_hevc_mode ≥ 2) ||
    (decide (active_hevc_mode = 0) && !has_flag encoder.flags H264_ONLY)
  let test_av1 := decide (active_av1_mode ≥ 2) ||
    (decide (active_av1_mode = 0) && !has_flag encoder.flags H264_ONLY)
  let encoder := encoder.set_h264 (encoder.h264.set_capabilities capabilities_t.all)
  let encoder := encoder.set_hevc (encoder.hevc.set_capabilities capabilities_t.all)
  let encoder := encoder.set_av1 (encoder.av1.set_capabilities capabilities_t.all)
  validate_h264 env penv g test_hevc test_av1 output_name encoder expect_failure

/-! ## The `software` encoder of `video.cpp` and concrete inputs -/

/-- The AVCODEC format bundle of `software`. -/
def software_formats : encoder_platform_formats_avcodec :=
  { avcodec_base_dev_type := .AV_HWDEVICE_TYPE_NONE
    avcodec_derived_dev_type := .AV_HWDEVICE_TYPE_NONE
    avcodec_dev_pix_fmt := .AV_PIX_FMT_NONE
    avcodec_pix_fmt_8bit := .AV_PIX_FMT_YUV420P
    avcodec_pix_fmt_10bit := .AV_PIX_FMT_YUV420P10
    avcodec_pix_fmt_yuv444_8bit := .AV_PIX_FMT_YUV444P
    avcodec_pix_fmt_yuv444_10bit := .AV_PIX_FMT_YUV444P10 }

/-- The descriptor `software` of `video.cpp` (lines 479-547), built without
`ENABLE_BROKEN_AV1_ENCODER`; capability bits start clear. -/
def software : encoder_t where
  name := "software"
  platform_formats := encoder_platform_formats_t.of_avcodec software_formats
  av1 :=
    { common_options :=
        [⟨"svtav1-params", .string "keyint=-1:pred-struct=1:force-key-frames=1:mbr=0"⟩,
         ⟨"preset", .optional_int_ptr (fun g => g.svtav1_preset)⟩]
      sdr_options := []
      hdr_options := []
      sdr444_options := []
      hdr444_options := []
      fallback_options := []
      name := ""
      capabilities := capabilities_t.none }
  hevc :=
    { common_options :=
        [⟨"forced-idr", .int 1⟩,
         ⟨"x265-params", .string "info=0:keyint=-1"⟩,
         ⟨"preset", .string_ptr (fun g => g.sw_preset)⟩,
         ⟨"tune", .string_ptr (fun g => g.sw_tune)⟩]
      sdr_options := []
      hdr_options := []
      sdr444_options := []
      hdr444_options := []
      fallback_options := []
      name := "libx265"
      capabilities := capabilities_t.none }
  h264 :=
    { common_options :=
        [⟨"preset", .string_ptr (fun g => g.sw_preset)⟩,
         ⟨"tune", .string_ptr (fun g => g.sw_tune)⟩]
      sdr_options := []
      hdr_options := []
      sdr444_options := []
      hdr444_options := []
      fallback_options := []
      name := "libx264"
      capabilities := capabilities_t.none }
  flags := H264_ONLY ||| PARALLEL_ENCODING ||| ALWAYS_REPROBE ||| YUV444_SUPPORT

/-- The descriptor `vaapi` of `video.cpp` (lines 550-605): a hardware encoder
without `YUV444_SUPPORT`; capability bits start clear. -/
def vaapi : encoder_t where
  name := "vaapi"
  platform_formats := encoder_platform_formats_t.of_avcodec
    { avcodec_base_dev_type := .AV_HWDEVICE_TYPE_VAAPI
      avcodec_derived_dev_type := .AV_HWDEVICE_TYPE_NONE
      avcodec_dev_pix_fmt := .AV_PIX_FMT_VAAPI
      avcodec_pix_fmt_8bit := .AV_PIX_FMT_NV12
      avcodec_pix_fmt_10bit := .AV_PIX_FMT_P010
      avcodec_pix_fmt_yuv444_8bit := .AV_PIX_FMT_NONE
      avcodec_pix_fmt_yuv444_10bit := .AV_PIX_FMT_NONE }
  av1 :=
    { common_options := [⟨"async_depth", .int 1⟩, ⟨"idr_interval", .int INT_MAX⟩]
      sdr_options := []
      hdr_options := []
      sdr444_options := []
      hdr444_options := []
      fallback_options := []
      name := "av1_vaapi"
      capabilities := capabilities_t.none }
  hevc :=
    { common_options :=
        [⟨"async_depth", .int 1⟩, ⟨"sei", .int 0⟩, ⟨"idr_interval", .int INT_MAX⟩]
      sdr_options := []
      hdr_options := []
      sdr444_options := []
      hdr444_options := []
      fallback_options := []
      name := "hevc_vaapi"
      capabilities := capabilities_t.none }
  h264 :=
    { common_options :=
        [⟨"async_depth", .int 1⟩, ⟨"sei", .int 0⟩, ⟨"idr_interval", .int INT_MAX⟩]
      sdr_options := []
      hdr_options := []
      sdr444_options := []
      hdr444_options := []
      fallback_options := []
      name := "h264_vaapi"
      capabilities := capabilities_t.none }
  flags := LIMITED_GOP_SIZE ||| PARALLEL_ENCODING ||| NO_RC_BUF_LIMIT

/-- A global configuration: two worker threads, no bitrate cap, codec modes on
auto. -/
def sample_globals : global_config where
  min_threads := 2
  max_bitrate := 0
  vbv_percentage_increase := 0
  hevc_mode := 0
  av1_mode := 0
  encoder := ""
  output_name := ""
  force_video_header_replace := false
  sw_preset := "superfast"
  sw_tune := "zerolatency"
  svtav1_preset := none

/-- An SDR colorspace with 8 bits per sample. -/
def sample_colorspace : sunshine_colorspace_t :=
  ⟨.rec709, false, 8⟩

/-- An environment in which every library call succeeds. -/
def sample_environment : environment where
  NDEBUG := true
  APPLE := false
  avcodec_find_encoder_by_name := fun _ => true
  framerateX100_to_rational := fun x => (x, 100)
  colorspace_from_client_config := fun config _ =>
    if config.dynamicRange != 0 then ⟨.bt2020, false, 10⟩ else sample_colorspace
  avcodec_colorspace_from_sunshine_colorspace := fun _ => ⟨1, 1, 1, 1, 1⟩
  colorspace_is_hdr := fun c => c.colorspace == .bt2020
  init_avcodec_hardware_input_buffer := fun _ _ => true
  av_hwdevice_ctx_create_derived := fun _ _ => 0
  av_hwframe_ctx_init := fun _ _ => 0
  avcodec_open2 := fun _ _ _ => 0
  software_encode_device_init := fun _ _ _ _ => 0
  av_hwframe_get_buffer := fun _ => 0

/-- A platform device that keeps the image in system memory (`data` is null) and
leaves context and options as they are. -/
def sample_device : avcodec_encode_device_t where
  data := false
  colorspace := sample_colorspace
  prepare_to_derive_context := fun _ => 0
  init_hwframes := fun f => f
  init_codec_options := fun ctx options => (ctx, options)
  set_frame := fun _ => 0

/-- A 1920x1080 SDR display at the origin that supports every codec. -/
def sample_display : display_t where
  width := 1920
  height := 1080
  env_width := 1920
  env_height := 1080
  offset_x := 0
  offset_y := 0
  is_hdr := false
  get_hdr_metadata := none
  is_codec_supported := fun _ _ => true
  make_avcodec_encode_device := fun _ => some sample_device
  make_nvenc_encode_device := fun _ => none

/-- A probe environment: the sample display is always there, and every trial yields
an IDR packet with valid VUI parameters. -/
def sample_probe : probe_environment where
  display := fun _ _ _ _ => some sample_display
  map_output_name := fun name => name
  trial := fun _ _ => some ⟨true, true, true⟩

/-- The `software` encoder after a successful probe with HEVC requested
(`active_hevc_mode = 2`) in the sample environment. -/
def probed_software : encoder_t :=
  match validateEncoder sample_environment sample_probe sample_globals 2 0 software false with
  | .ok (_, encoder) => encoder
  | .error _ => software

/-- The client config of the spec's software HEVC scenario: 1920x1080 at 60 fps,
10000 kbit/s, four slices, HEVC, SDR, 4:2:0. -/
def hevc_scenario_config : config_t :=
  ⟨1920, 1080, 60, 10000, 4, 0, 1, 1, 0, 0, 0, 0⟩

/-- Three displays side by side, each 1920x1080. -/
def display_at (offset_x : Int) : display_geometry :=
  ⟨1920, 1080, 5760, 1080, offset_x, 0⟩

/-- The context and the options that one pass of the retry loop sets up for the
software HEVC scenario in the sample environment. -/
def hevc_scenario_setup : AVCodecContext × AVDictionary :=
  match setup_codec_context sample_environment sample_globals software software_formats
      software.hevc hevc_scenario_config sample_device .AV_PIX_FMT_YUV420P 0 with
  | .ok r => r
  | .error _ => (avcodec_alloc_context3, [])

/-- A client config asking for H.264 with HDR: 1920x1080 at 60 fps, `videoFormat = 0`,
`dynamicRange = 1`. -/
def h264_hdr_config : config_t :=
  ⟨1920, 1080, 60, 10000, 1, 0, 1, 0, 1, 0, 0, 0⟩

/-- A client config asking for HEVC with 4:4:4 chroma sampling. -/
def hevc_yuv444_config : config_t :=
  ⟨1920, 1080, 60, 10000, 1, 0, 1, 1, 0, 1, 0, 0⟩

/-- The state after one `makePort` call for display 0 at the origin. -/
def one_port : touch_ports ℚ :=
  makePort exact_floats (touch_ports.empty 0) (display_at 0) 1920 1080 0

/-- Three ports are made for displays 0, 1 and 2, then the port of display 0 is
removed. -/
def three_then_remove : List port_op :=
  [.make (display_at 0) 1920 1080 0, .make (display_at 1920) 1920 1080 1,
   .make (display_at 3840) 1920 1080 2, .remove 0]

/-- The config on which `validateEncoder` probes HDR (line 871):
`{1920, 1080, 60, 1000, 1, 0, 3, 1, 1, 0}`. -/
def generic_hdr_config : config_t :=
  ⟨1920, 1080, 60, 1000, 1, 0, 3, 1, 1, 0, 0, 0⟩

/-! ## Display selection (`DisplayControl::refreshDisplays`, `captureThread`) -/

/-- The loop `for (int x = 0; x < names.size(); ++x) if (names[x] == name) ...`: the
index of the first element equal to `name`. -/
def first_index (name : String) : List String → Option Nat
  | [] => none
  | n :: rest => if n = name then some 0 else (first_index name rest).map (· + 1)

/-- The function `DisplayControl::refreshDisplays`.  `enumerated` is what
`platf::display_names(dev_type)` returns during the call and `output_name` is
`display_device::map_output_name(config::video.output_name)`; the result is the pair
of the two reference parameters after the call. -/
def refreshDisplays (enumerated : List String) (output_name : String)
    (display_names : List String) (current_display_index : Int) : List String × Int :=
  let current_display_name : String :=
    if current_display_index ≥ 0 ∧ current_display_index < display_names.length then
      display_names.getD current_display_index.toNat ""
    else ""
  let old_display_names := display_names
  let display_names := enumerated
  if display_names.isEmpty && !old_display_names.isEmpty then
    (old_display_names, current_display_index)
  else
    let display_names := if display_names.isEmpty then [output_name] else display_names
    let current_display_index : Int := 0
    if current_display_name ≠ "" then
      match first_index current_display_name display_names with
      | some x => (display_names, x)
      | none => (display_names, current_display_index)
    else
      match first_index output_name display_names with
      | some x => (display_names, x)
      | none => (display_names, current_display_index)

/-- The element access `names[index]` of a `std::vector`: without defined behaviour
outside the bounds. -/
def vector_at (names : List String) (index : Int) : Except failure String :=
  if index ≥ 0 ∧ index < names.length then .ok (names.getD index.toNat "") else .error .undefined

/-- The call `std::clamp(v, lo, hi)`. -/
def clamp (v lo hi : Int) : Int :=
  if v < lo then lo else if hi < v then hi else v

/-- What one round of the reinit loop (lines 237-273 of `captureThread`) observes. -/
structure reinit_observation where
  /-- The list with which the enumeration of lines 243-247 ends: the first non-empty
  result of `platf::display_names`, or the empty list when the queue was stopped. -/
  new_display_names : List String
  /-- What `platf::display_names` returns inside `refreshDisplays` (line 257). -/
  refreshed_display_names : List String
  /-- The pending switch-display request, if any (lines 260-261). -/
  switch_display : Option Int
deriving DecidableEq, Repr

/-- The variables of `captureThread` that name the captured display. -/
structure capture_state where
  display_names : List String
  current_display_name : String
deriving DecidableEq, Repr

/-- Lines 243-266 of `captureThread`: the display name chosen in one round of the
reinit loop, together with the updated `display_names`. -/
def reinit_select (obs : reinit_observation) (output_name : String) (s : capture_state) :
    Except failure capture_state :=
  let new_display_index : Int :=
    match first_index s.current_display_name obs.new_display_names with
    | some i => i
    | none => -1
  let refreshed : List String × Int :=
    if new_display_index = -1 then
      refreshDisplays obs.refreshed_display_names output_name s.display_names new_display_index
    else (s.display_names, new_display_index)
  let display_names := refreshed.1
  let new_display_index : Int :=
    match obs.switch_display with
    | some newDisplayIndex => clamp newDisplayIndex 0 ((display_names.length : Int) - 1)
    | none => refreshed.2
  match vector_at display_names new_display_index with
  | .error e => .error e
  | .ok name => .ok { display_names := display_names, current_display_name := name }

/-- The capture status `platf::capture_e`; `other` is any value outside the
enumeration. -/
inductive capture_e where
  | ok
  | reinit
  | timeout
  | interrupted
  | error
  | other (code : Int)
deriving DecidableEq, Repr

/-- One round of the reinit loop. -/
structure reinit_round where
  /-- The test `capture_ctx_queue->running()` of line 237. -/
  queue_running : Bool
  obs : reinit_observation
  /-- Whether `resetDisplay` (line 269) yields a display. -/
  display_acquired : Bool
deriving DecidableEq, Repr

/-- One round of the main loop of `captureThread` (lines 162-292). -/
structure capture_round where
  /-- The test `capture_ctx_queue->running()` of line 162. -/
  queue_running : Bool
  /-- The value returned by `disp->capture`. -/
  status : capture_e
  /-- Whether the push callback saw a pending switch-display event during the call
  (lines 186-189). -/
  artificial_reinit : Bool
  /-- The rounds of the reinit loop, used when the status leads to a reinit. -/
  reinit_rounds : List reinit_round
deriving DecidableEq, Repr

/-- What the capture task does with displays, in order. -/
inductive capture_event where
  /-- A call of `disp->capture` on the display of the given name. -/
  | capture (name : String)
  /-- A call of `resetDisplay` (or `platf::display`) for the given name. -/
  | request_display (name : String)
deriving DecidableEq, Repr

/-- Lines 237-276: the reinit loop.  `have_display` tells whether `disp` still holds a
display (true on entry, false once line 240 has run).  The result is the log of
display requests and the state with which capturing resumes (`none` when the task
returns at line 275).  A script that ends stands for a stopped queue. -/
def reinit_loop (output_name : String) :
    List reinit_round → Bool → capture_state →
      Except failure (List capture_event × Option capture_state)
  | [], have_display, s => .ok ([], if have_display then some s else none)
  | round :: rest, have_display, s =>
    if !round.queue_running then .ok ([], if have_display then some s else none)
    else
      match reinit_select round.obs output_name s with
      | .error e => .error e
      | .ok s' =>
        if round.display_acquired then
          .ok ([.request_display s'.current_display_name], some s')
        else
          match reinit_loop output_name rest false s' with
          | .error e => .error e
          | .ok (log, final) => .ok (.request_display s'.current_display_name :: log, final)

/-- The status on which the `switch` of line 202 acts (lines 196-200). -/
def effective_status (round : capture_round) : capture_e :=
  if round.artificial_reinit && round.status != .error then .reinit else round.status

/-- Lines 162-292: the main loop of `captureThread`, as the log of its capture calls
and display requests.  A script that ends stands for a stopped queue. -/
def capture_loop (output_name : String) :
    List capture_round → capture_state → Except failure (List capture_event)
  | [], _ => .ok []
  | round :: rest, s =>
    if !round.queue_running then .ok []
    else
      match effective_status round with
      | .reinit =>
        match reinit_loop output_name round.reinit_rounds true s with
        | .error e => .error e
        | .ok (log, none) => .ok (.capture s.current_display_name :: log)
        | .ok (log, some s') =>
          match capture_loop output_name rest s' with
          | .error e => .error e
          | .ok more => .ok (.capture s.current_display_name :: log ++ more)
      | _ => .ok [.capture s.current_display_name]

/-- What `captureThread` observes before its main loop (lines 43-57). -/
structure capture_start where
  /-- Whether the queue yields an initial capture context (line 43). -/
  initial_capture_ctx : Bool
  /-- The list returned by `platf::display_names` at line 53. -/
  display_names : List String
  /-- The list returned by `platf::display_names` inside `refreshDisplays` (line 54). -/
  refreshed_display_names : List String
  /-- Whether `platf::display` (line 56) yields a display. -/
  display_acquired : Bool
deriving DecidableEq, Repr

/-- The function `captureThread`, as the log of its display requests and capture
calls. -/
def captureThread (output_name : String) (start : capture_start) (displayIndex : Int)
    (rounds : List capture_round) : Except failure (List capture_event) :=
  if !start.initial_capture_ctx then .ok []
  else
    let refreshed :=
      refreshDisplays start.refreshed_display_names output_name start.display_names displayIndex
    match vector_at refreshed.1 refreshed.2 with
    | .error e => .error e
    | .ok current_display_name =>
      if !start.display_acquired then .ok [.request_display current_display_name]
      else
        match capture_loop output_name rounds
            { display_names := refreshed.1, current_display_name := current_display_name } with
        | .error e => .error e
        | .ok log => .ok (.request_display current_display_name :: log)

/-- Two rounds in which `capture` returns ok while the queue keeps running. -/
def two_ok_rounds : List capture_round :=
  [⟨true, .ok, false, []⟩, ⟨true, .ok, false, []⟩]

/-- Display `C`, third of `[A, B, C]`, is being captured when a reinit occurs; display
`B` has been unplugged, so the displays are enumerated as `[A, C]`; no switch is
pending and the requested display is acquired. -/
def unplugged_reinit : List capture_round :=
  [⟨true, .reinit, false, [⟨true, ⟨["A", "C"], [], none⟩, true⟩]⟩]

/-- The session that the probed `software` encoder builds for the HEVC scenario in
the sample environment. -/
def hevc_scenario_session : avcodec_encode_session_t :=
  match make_avcodec_encode_session sample_environment sample_globals sample_display
      probed_software hevc_scenario_config 1920 1080 sample_device with
  | .ok session => session
  | .error _ =>
    { avcodec_ctx := avcodec_alloc_context3
      device := .software sample_colorspace
      frame := make_frame sample_environment sample_display sample_colorspace
        avcodec_alloc_context3
      replacements := []
      inject := 0
      displayIndex := 0 }

/-! ## Encoding one frame (`DisplayControl::encode`, `encode_avcodec`, `encode_nvenc`) -/

/-- The fields of an `AVPacket` that the core reads. -/
structure AVPacket where
  flags : Nat
  pts : Int
deriving DecidableEq, Repr

/-- The value `AV_PKT_FLAG_KEY`. -/
def AV_PKT_FLAG_KEY : Nat := 1

/-- The value `AV_FRAME_FLAG_KEY`. -/
def AV_FRAME_FLAG_KEY : Nat := 1 <<< 1

/-- The value `AV_PICTURE_TYPE_I`. -/
def AV_PICTURE_TYPE_I : Int := 1

/-- The value `AV_PICTURE_TYPE_NONE`. -/
def AV_PICTURE_TYPE_NONE : Int := 0

/-- The first result of `avcodec_receive_packet` that is not a packet. -/
inductive receive_end where
  /-- The value `AVERROR(EAGAIN)`. -/
  | again
  /-- The value `AVERROR_EOF`. -/
  | eof
  /-- Another negative error code. -/
  | error (code : Int)
deriving DecidableEq, Repr

/-- The frame returned by the native encoder, `nvenc::nvenc_encoded_frame`. -/
structure nvenc_encoded_frame where
  data : List Nat
  frame_index : Int
  idr : Bool
  after_ref_frame_invalidation : Bool
deriving DecidableEq, Repr

/-- What the codec library and the native encoder do during one call of
`DisplayControl::encode`. -/
structure encode_call where
  /-- The value returned by `avcodec_send_frame`. -/
  avcodec_send_frame : Int
  /-- The packets delivered by the successive calls of `avcodec_receive_packet`. -/
  packets : List AVPacket
  /-- The result that ends the receive loop. -/
  last : receive_end
  /-- The SPS rewrite computed by `cbs::make_sps_h264`. -/
  make_sps_h264 : AVCodecContext → AVPacket → nal_t
  /-- The VPS and SPS rewrites computed by `cbs::make_sps_hevc`. -/
  make_sps_hevc : AVCodecContext → AVPacket → nal_t × nal_t
  /-- The call `device->nvenc->encode_frame(frame_index, force_idr)`. -/
  nvenc_encode_frame : Int → Bool → nvenc_encoded_frame

/-- The payload of a packet: the dynamic type of `packet_raw_t`. -/
inductive packet_payload where
  /-- A `packet_raw_avcodec`. -/
  | avcodec (av_packet : AVPacket)
  /-- A `packet_raw_generic` built from `(data, frame_index, idr)`. -/
  | generic (data : List Nat) (frame_index : Int) (idr : Bool)
deriving DecidableEq, Repr

/-- A packet as it is pushed to the packet queue.  `channel_data` is the opaque
routing handle; `replacements` tells whether the pointer to the session's replacement
list is set. -/
structure packet_raw_t where
  payload : packet_payload
  replacements : Bool
  channel_data : Nat
  after_ref_frame_invalidation : Bool
  frame_timestamp : Option Nat
  displayIndex : Int
deriving DecidableEq, Repr

/-- Lines 109-132 of `encode_avcodec`: the SPS / VPS rewrite staged for one packet. -/
def inject_headers (call : encode_call) (session : avcodec_encode_session_t)
    (av_packet : AVPacket) : avcodec_encode_session_t :=
  if session.inject != 0 then
    if session.inject == 1 then
      let sps := call.make_sps_h264 session.avcodec_ctx av_packet
      { session with
        sps := sps
        inject := 0
        replacements := session.replacements ++ [(sps.old, sps._new)] }
    else
      let hevc := call.make_sps_hevc session.avcodec_ctx av_packet
      { session with
        sps := hevc.2
        vps := hevc.1
        inject := 0
        replacements :=
          (session.replacements ++ [(hevc.1.old, hevc.1._new)]) ++ [(hevc.2.old, hevc.2._new)] }
  else session

/-- Lines 134-141 of `encode_avcodec`: the packet that is raised. -/
def stamp_packet (frame_nr : Int) (session : avcodec_encode_session_t) (channel_data : Nat)
    (frame_timestamp : Option Nat) (av_packet : AVPacket) : packet_raw_t :=
  { payload := .avcodec av_packet
    replacements := true
    channel_data := channel_data
    after_ref_frame_invalidation := false
    frame_timestamp := if av_packet.pts = frame_nr then frame_timestamp else none
    displayIndex := session.displayIndex }

/-- Lines 90-142 of `encode_avcodec`: the receive loop over the delivered packets;
the result is the session and the packets raised, oldest first. -/
def drain_packets (call : encode_call) (frame_nr : Int) (channel_data : Nat)
    (frame_timestamp : Option Nat) :
    List AVPacket → avcodec_encode_session_t → avcodec_encode_session_t × List packet_raw_t
  | [], session => (session, [])
  | av_packet :: rest, session =>
    let session := inject_headers call session av_packet
    let packet := stamp_packet frame_nr session channel_data frame_timestamp av_packet
    let later := drain_packets call frame_nr channel_data frame_timestamp rest session
    (later.1, packet :: later.2)

/-- The result of one call of `DisplayControl::encode`: the returned status, the
session after the call and the packets raised, oldest first. -/
structure encode_result (σ : Type) where
  status : Int
  session : σ
  raised : List packet_raw_t

/-- The function `DisplayControl::encode_avcodec`. -/
def encode_avcodec (call : encode_call) (frame_nr : Int) (session : avcodec_encode_session_t)
    (channel_data : Nat) (frame_timestamp : Option Nat) :
    encode_result avcodec_encode_session_t :=
  let session := { session with frame := { session.frame with pts := frame_nr } }
  if call.avcodec_send_frame < 0 then { status := -1, session := session, raised := [] }
  else
    let drained := drain_packets call frame_nr channel_data frame_timestamp call.packets session
    { status :=
        match call.last with
        | .again => 0
        | .eof => 0
        | .error code => code
      session := drained.1
      raised := drained.2 }

/-- The member function `nvenc_encode_session_t::encode_frame`. -/
def nvenc_encode_session_t.encode_frame (call : encode_call) (session : nvenc_encode_session_t)
    (frame_index : Int) : nvenc_encoded_frame × nvenc_encode_session_t :=
  if !session.device.nvenc then (⟨[], 0, false, false⟩, session)
  else
    (call.nvenc_encode_frame frame_index session.force_idr, { session with force_idr := false })

/-- The function `DisplayControl::encode_nvenc`. -/
def encode_nvenc (call : encode_call) (frame_nr : Int) (session : nvenc_encode_session_t)
    (channel_data : Nat) (frame_timestamp : Option Nat) :
    encode_result nvenc_encode_session_t :=
  let encoded := session.encode_frame call frame_nr
  if encoded.1.data.isEmpty then { status := -1, session := encoded.2, raised := [] }
  else
    { status := 0
      session := encoded.2
      raised :=
        [{ payload := .generic encoded.1.data encoded.1.frame_index encoded.1.idr
           replacements := false
           channel_data := channel_data
           after_ref_frame_invalidation := encoded.1.after_ref_frame_invalidation
           frame_timestamp := frame_timestamp
           displayIndex := session.displayIndex }] }

/-- The function `DisplayControl::encode`. -/
def encode (call : encode_call) (frame_nr : Int) (session : encode_session_t)
    (channel_data : Nat) (frame_timestamp : Option Nat) : encode_result encode_session_t :=
  match session with
  | .avcodec s =>
    let r := encode_avcodec call frame_nr s channel_data frame_timestamp
    { status := r.status, session := .avcodec r.session, raised := r.raised }
  | .nvenc s =>
    let r := encode_nvenc call frame_nr s channel_data frame_timestamp
    { status := r.status, session := .nvenc r.session, raised := r.raised }

/-- The member `displayIndex` of the base class `encode_session_t`. -/
def encode_session_t.displayIndex : encode_session_t → Int
  | .avcodec s => s.displayIndex
  | .nvenc s => s.displayIndex

/-- A codec library call that delivers the given packets and then reports `EAGAIN`. -/
def sample_call (packets : List AVPacket) : encode_call where
  avcodec_send_frame := 0
  packets := packets
  last := .again
  make_sps_h264 := fun _ _ => ⟨[1], [0]⟩
  make_sps_hevc := fun _ _ => (⟨[3], [2]⟩, ⟨[1], [0]⟩)
  nvenc_encode_frame := fun frame_index force_idr => ⟨[0], frame_index, force_idr, false⟩

/-- A client config asking for H.264 with SDR 4:2:0 on display 0. -/
def h264_scenario_config : config_t :=
  ⟨1920, 1080, 60, 10000, 1, 0, 1, 0, 0, 0, 0, 0⟩

/-- The probed `software` encoder on a build whose codecs do not write VUI parameters
themselves. -/
def no_vui_software : encoder_t :=
  { probed_software with
    h264 := probed_software.h264.assign .VUI_PARAMETERS false
    hevc := probed_software.hevc.assign .VUI_PARAMETERS false }

/-- The session that `no_vui_software` builds for `h264_scenario_config` in the sample
environment; its inject mode is 1. -/
def h264_inject_session : avcodec_encode_session_t :=
  match make_avcodec_encode_session sample_environment sample_globals sample_display
      no_vui_software h264_scenario_config 1920 1080 sample_device with
  | .ok session => session
  | .error _ => hevc_scenario_session

/-- The session that `no_vui_software` builds for the HEVC scenario in the sample
environment; its inject mode is 2. -/
def hevc_inject_session : avcodec_encode_session_t :=
  match make_avcodec_encode_session sample_environment sample_globals sample_display
      no_vui_software hevc_scenario_config 1920 1080 sample_device with
  | .ok session => session
  | .error _ => hevc_scenario_session

/-- A packet of a frame that is not an IDR frame: `AV_PKT_FLAG_KEY` is not set. -/
def non_idr_packet : AVPacket := ⟨0, 1⟩

/-- A packet of an IDR frame. -/
def idr_packet : AVPacket := ⟨AV_PKT_FLAG_KEY, 2⟩

/-- The HEVC scenario requested for display 2. -/
def second_display_config : config_t :=
  { hevc_scenario_config with displayIndex := 2 }

/-- The session that the probed `software` encoder builds for `second_display_config`
in the sample environment. -/
def second_display_session : encode_session_t :=
  match makeEncodeSession sample_environment sample_globals sample_display probed_software
      second_display_config 1920 1080 (.avcodec sample_device) with
  | .ok session => session
  | .error _ => .avcodec hevc_scenario_session

/-! ## The encode loop (`encodeRun`, `encoding`) -/

/-- The member function `avcodec_encode_session_t::request_idr_frame`. -/
def avcodec_encode_session_t.request_idr_frame (s : avcodec_encode_session_t) :
    avcodec_encode_session_t :=
  { s with
    frame :=
      { s.frame with
        pict_type := AV_PICTURE_TYPE_I
        flags := s.frame.flags ||| AV_FRAME_FLAG_KEY } }

/-- The member function `avcodec_encode_session_t::request_normal_frame`; the flag
`AV_FRAME_FLAG_KEY` is cleared. -/
def avcodec_encode_session_t.request_normal_frame (s : avcodec_encode_session_t) :
    avcodec_encode_session_t :=
  { s with
    frame :=
      { s.frame with
        pict_type := AV_PICTURE_TYPE_NONE
        flags := s.frame.flags ^^^ (s.frame.flags &&& AV_FRAME_FLAG_KEY) } }

/-- The member function `nvenc_encode_session_t::invalidate_ref_frames`; `invalidated`
is the answer of `device->nvenc->invalidate_ref_frames(first_frame, last_frame)`. -/
def nvenc_encode_session_t.invalidate_ref_frames (s : nvenc_encode_session_t)
    (invalidated : Bool) : nvenc_encode_session_t :=
  if !s.device.nvenc then s
  else if !invalidated then { s with force_idr := true }
  else s

/-- The virtual function `encode_session_t::request_idr_frame`. -/
def encode_session_t.request_idr_frame : encode_session_t → encode_session_t
  | .avcodec s => .avcodec s.request_idr_frame
  | .nvenc s => .nvenc { s with force_idr := true }

/-- The virtual function `encode_session_t::request_normal_frame`. -/
def encode_session_t.request_normal_frame : encode_session_t → encode_session_t
  | .avcodec s => .avcodec s.request_normal_frame
  | .nvenc s => .nvenc { s with force_idr := false }

/-- The virtual function `encode_session_t::invalidate_ref_frames`; the AVCODEC
variant requests an IDR frame instead. -/
def encode_session_t.invalidate_ref_frames (invalidated : Bool) :
    encode_session_t → encode_session_t
  | .avcodec s => .avcodec s.request_idr_frame
  | .nvenc s => .nvenc (s.invalidate_ref_frames invalidated)

/-- What one iteration of the frame loop of `encodeRun` (lines 379-428) observes. -/
structure encode_iteration where
  /-- The test `shutdown_event->peek()` of line 387. -/
  shutdown : Bool
  /-- The test `images->running()` of line 387. -/
  images_running : Bool
  /-- The test `reinit_event.peek()` of line 387. -/
  reinit : Bool
  /-- For each reference-frame invalidation popped at lines 392-396, the answer of the
  native encoder. -/
  invalidations : List Bool
  /-- The test `idr_event->peek()` of line 398. -/
  idr : Bool
  /-- The test `images->peek()` of line 410. -/
  images_peek : Bool
  /-- The result of `images->pop(max_frametime)`: `none` is a timeout, otherwise the
  frame timestamp of the image and the status of `session->convert`. -/
  pop : Option (Option Nat × Int)
  /-- The test `images->running()` of line 417. -/
  running_after_pop : Bool
  /-- What the codec library does during the call of `encode`. -/
  call : encode_call

/-- What `encodeRun` does that is visible outside, in order. -/
inductive encode_event where
  /-- The HDR state raised at line 336. -/
  | hdr_info (enabled : Bool)
  /-- A call `DisplayControl::encode(frame_nr, ...)` and the packets it raised. -/
  | encode (frame_nr : Int) (raised : List packet_raw_t)
deriving DecidableEq, Repr

/-- Lines 408-420 of `encodeRun`: `none` when the function is left (the conversion
failed, or the pop timed out on a stopped queue), otherwise the frame timestamp with
which `encode` is called.  A pop that times out while the queue is running falls
through to `encode` without a timestamp. -/
def acquire_image (iteration : encode_iteration) (requested_idr_frame : Bool) :
    Option (Option Nat) :=
  if !requested_idr_frame || iteration.images_peek then
    match iteration.pop with
    | some (frame_timestamp, convert) => if convert != 0 then none else some frame_timestamp
    | none => if !iteration.running_after_pop then none else some none
  else some none

/-- Lines 379-428 of `encodeRun`: the frame loop.  The result is `frameIndex` after the
loop and the log of the `encode` calls.  The increment `frameIndex++` of an `int` equal
to `INT_MAX` is without defined behaviour.  A script that ends stands for a stopped
image queue. -/
def frame_loop (channel_data : Nat) :
    List encode_iteration → encode_session_t → Int → Except failure (Int × List encode_event)
  | [], _, frameIndex => .ok (frameIndex, [])
  | iteration :: rest, session, frameIndex =>
    if iteration.shutdown || !iteration.images_running
        || (iteration.reinit && decide (frameIndex > 1)) then
      .ok (frameIndex, [])
    else
      let session :=
        iteration.invalidations.foldl (fun s invalidated => s.invalidate_ref_frames invalidated)
          session
      let requested_idr_frame := iteration.idr
      let session := if requested_idr_frame then session.request_idr_frame else session
      match acquire_image iteration requested_idr_frame with
      | none => .ok (frameIndex, [])
      | some frame_timestamp =>
        if frameIndex = INT_MAX then .error .undefined
        else
          let r := encode iteration.call frameIndex session channel_data frame_timestamp
          if r.status != 0 then .ok (frameIndex + 1, [.encode frameIndex r.raised])
          else
            match frame_loop channel_data rest r.session.request_normal_frame (frameIndex + 1) with
            | .error e => .error e
            | .ok (last, log) => .ok (last, .encode frameIndex r.raised :: log)

/-- The frame numbers passed to `encode`, in call order. -/
def frame_numbers : List encode_event → List Int
  | [] => []
  | .encode frame_nr _ :: rest => frame_nr :: frame_numbers rest
  | .hdr_info _ :: rest => frame_numbers rest

/-- The accessor `packet_raw_t::frame_index`: the `pts` of an AVCODEC packet, the
stored index of a generic packet. -/
def packet_raw_t.frame_index (p : packet_raw_t) : Int :=
  match p.payload with
  | .avcodec av_packet => av_packet.pts
  | .generic _ frame_index _ => frame_index

/-- The packets raised during a run, in order. -/
def raised_packets : List encode_event → List packet_raw_t
  | [] => []
  | .encode _ raised :: rest => raised ++ raised_packets rest
  | .hdr_info _ :: rest => raised_packets rest

/-- The list `start, start + 1, ...` of the given length. -/
def count_from (start : Int) : Nat → List Int
  | 0 => []
  | n + 1 => start :: count_from (start + 1) n

/-- An iteration of the frame loop in which an image is popped and converted and the
codec library does `call`. -/
def plain_iteration (call : encode_call) : encode_iteration where
  shutdown := false
  images_running := true
  reinit := false
  invalidations := []
  idr := false
  images_peek := true
  pop := some (some 0, 0)
  running_after_pop := true
  call := call

/-- The helper `allow_encoder_probing`; `devices` lists, for each enumerated display
device, whether it has additional info (is active). -/
def allow_encoder_probing (devices : List Bool) : Bool :=
  if devices.isEmpty then true
  else devices.any (fun active => active)

/-- The globals of `video.cpp` that `probe_encoders` reads and writes. -/
structure probe_state where
  /-- The descriptors that the table `encoders` points to, in table order. -/
  encoders : List encoder_t
  /-- The pointer `chosen_encoder`, as a position in the table. -/
  chosen_encoder : Option Nat
  active_hevc_mode : Int
  active_av1_mode : Int
  last_encoder_probe_supported_ref_frames_invalidation : Bool
  /-- The array `last_encoder_probe_supported_yuv444_for_codec`. -/
  last_encoder_probe_supported_yuv444_for_codec : Bool × Bool × Bool

/-- What the platform and the codec library answer during one call of
`validateEncoder`. -/
structure probe_world where
  env : environment
  penv : probe_environment

/-- The globals together with the number of `validateEncoder` calls made so far. -/
structure probe_run where
  state : probe_state
  validations : Nat

/-- The call `DisplayControl::validateEncoder(*encoder, previous_encoder &&
previous_encoder != encoder)` on the encoder at position `pos`: the returned flag, and
the run with the encoder as the call leaves it.  The call with number `n` sees
`worlds n`. -/
def validate_at (worlds : Nat → probe_world) (g : global_config)
    (previous_encoder : Option Nat) (pos : Nat) (run : probe_run) :
    Except failure (Bool × probe_run) :=
  match run.state.encoders[pos]? with
  | none => .error .undefined
  | some encoder =>
    let expect_failure :=
      match previous_encoder with
      | some previous => previous != pos
      | none => false
    match validateEncoder (worlds run.validations).env (worlds run.validations).penv g
        run.state.active_hevc_mode run.state.active_av1_mode encoder expect_failure with
    | .error e => .error e
    | .ok (valid, encoder) =>
      .ok (valid,
        { state := { run.state with encoders := run.state.encoders.set pos encoder }
          validations := run.validations + 1 })

/-- The lambda `adjust_encoder_constraints` (lines 801-818). -/
def adjust_encoder_constraints (encoder : encoder_t) (state : probe_state) : probe_state :=
  let state :=
    if decide (state.active_hevc_mode = 3) && !encoder.hevc.get .DYNAMIC_RANGE then
      { state with active_hevc_mode := 0 }
    else if decide (state.active_hevc_mode = 2) && !encoder.hevc.get .PASSED then
      { state with active_hevc_mode := 0 }
    else state
  if decide (state.active_av1_mode = 3) && !encoder.av1.get .DYNAMIC_RANGE then
    { state with active_av1_mode := 0 }
  else if decide (state.active_av1_mode = 2) && !encoder.av1.get .PASSED then
    { state with active_av1_mode := 0 }
  else state

/-- The statements `adjust_encoder_constraints(encoder); chosen_encoder = encoder;` on
the encoder at position `pos`. -/
def choose_adjusted (pos : Nat) (run : probe_run) : Except failure probe_run :=
  match run.state.encoders[pos]? with
  | none => .error .undefined
  | some encoder =>
    .ok { run with
      state := { adjust_encoder_constraints encoder run.state with chosen_encoder := some pos } }

/-- Lines 822-840: the search for the encoder named in the configuration.  The result
is `encoder_list` and the run after the loop. -/
def named_search (worlds : Nat → probe_world) (g : global_config)
    (previous_encoder : Option Nat) :
    List Nat → probe_run → Except failure (List Nat × probe_run)
  | [], run => .ok ([], run)
  | pos :: rest, run =>
    match run.state.encoders[pos]? with
    | none => .error .undefined
    | some encoder =>
      if encoder.name = g.encoder then
        match validate_at worlds g previous_encoder pos run with
        | .error e => .error e
        | .ok (false, run) => .ok (rest, run)
        | .ok (true, run) =>
          match choose_adjusted pos run with
          | .error e => .error e
          | .ok run => .ok (pos :: rest, run)
      else
        match named_search worlds g previous_encoder rest run with
        | .error e => .error e
        | .ok (encoder_list, run) => .ok (pos :: encoder_list, run)

/-- Lines 861-872: whether the codec-constrained search skips the encoder. -/
def lacks_required_codec (state : probe_state) (encoder : encoder_t) : Bool :=
  ((decide (state.active_hevc_mode ≥ 2) && !encoder.hevc.get .PASSED) ||
      (decide (state.active_av1_mode ≥ 2) && !encoder.av1.get .PASSED)) ||
    ((decide (state.active_hevc_mode = 3) && !encoder.hevc.get .DYNAMIC_RANGE) ||
      (decide (state.active_av1_mode = 3) && !encoder.av1.get .DYNAMIC_RANGE))

/-- Lines 851-876: the search for an encoder with the required codec support. -/
def codec_search (worlds : Nat → probe_world) (g : global_config)
    (previous_encoder : Option Nat) :
    List Nat → probe_run → Except failure (List Nat × probe_run)
  | [], run => .ok ([], run)
  | pos :: rest, run =>
    match validate_at worlds g previous_encoder pos run with
    | .error e => .error e
    | .ok (false, run) => codec_search worlds g previous_encoder rest run
    | .ok (true, run) =>
      match run.state.encoders[pos]? with
      | none => .error .undefined
      | some encoder =>
        if lacks_required_codec run.state encoder then
          match codec_search worlds g previous_encoder rest run with
          | .error e => .error e
          | .ok (encoder_list, run) => .ok (pos :: encoder_list, run)
        else
          .ok (pos :: rest, { run with state := { run.state with chosen_encoder := some pos } })

/-- Lines 886-902: the search for any encoder that passes validation. -/
def fallback_search (worlds : Nat → probe_world) (g : global_config)
    (previous_encoder : Option Nat) :
    List Nat → probe_run → Except failure (List Nat × probe_run)
  | [], run => .ok ([], run)
  | pos :: rest, run =>
    match validate_at worlds g previous_encoder pos run with
    | .error e => .error e
    | .ok (false, run) => fallback_search worlds g previous_encoder rest run
    | .ok (true, run) =>
      match choose_adjusted pos run with
      | .error e => .error e
      | .ok run => .ok (pos :: rest, run)

/-- Lines 920-968: the bookkeeping once an encoder is chosen. -/
def record_chosen (encoder : encoder_t) (state : probe_state) : probe_state :=
  let state :=
    { state with
      last_encoder_probe_supported_ref_frames_invalidation :=
        has_flag encoder.flags REF_FRAMES_INVALIDATION
      last_encoder_probe_supported_yuv444_for_codec :=
        (encoder.h264.get .PASSED && encoder.h264.get .YUV444,
         encoder.hevc.get .PASSED && encoder.hevc.get .YUV444,
         encoder.av1.get .PASSED && encoder.av1.get .YUV444) }
  let state :=
    if state.active_hevc_mode = 0 then
      { state with
        active_hevc_mode :=
          if encoder.hevc.get .PASSED then (if encoder.hevc.get .DYNAMIC_RANGE then 3 else 2)
          else 1 }
    else state
  if state.active_av1_mode = 0 then
    { state with
      active_av1_mode :=
        if encoder.av1.get .PASSED then (if encoder.av1.get .DYNAMIC_RANGE then 3 else 2)
        else 1 }
  else state

/-- Lines 794-968 of `probe_encoders`: the encoder selection is restarted. -/
def reprobe (worlds : Nat → probe_world) (g : global_config) (state : probe_state) :
    Except failure (Int × probe_run) :=
  let encoder_list := List.range state.encoders.length
  let previous_encoder := state.chosen_encoder
  let run : probe_run :=
    { state :=
        { state with
          chosen_encoder := none
          active_hevc_mode := g.hevc_mode
          active_av1_mode := g.av1_mode
          last_encoder_probe_supported_ref_frames_invalidation := false }
      validations := 0 }
  let named : Except failure (List Nat × probe_run) :=
    if g.encoder ≠ "" then named_search worlds g previous_encoder encoder_list run
    else .ok (encoder_list, run)
  match named with
  | .error e => .error e
  | .ok (encoder_list, run) =>
    let constrained : Except failure (List Nat × probe_run) :=
      if run.state.chosen_encoder.isNone
          && (decide (run.state.active_hevc_mode ≥ 2) || decide (run.state.active_av1_mode ≥ 2)) then
        codec_search worlds g previous_encoder encoder_list run
      else .ok (encoder_list, run)
    match constrained with
    | .error e => .error e
    | .ok (encoder_list, run) =>
      let remaining : Except failure (List Nat × probe_run) :=
        if run.state.chosen_encoder.isNone then
          fallback_search worlds g previous_encoder encoder_list run
        else .ok (encoder_list, run)
      match remaining with
      | .error e => .error e
      | .ok (_, run) =>
        match run.state.chosen_encoder with
        | none => .ok (-1, run)
        | some pos =>
          match run.state.encoders[pos]? with
          | none => .error .undefined
          | some encoder => .ok (0, { run with state := record_chosen encoder run.state })

/-- The function `probe_encoders`: the returned status, the globals after the call
and the number of `validateEncoder` calls.  `devices` is the result of
`display_device::enumerate_devices` and `needs_encoder_reenumeration` the answer of
`platf::needs_encoder_reenumeration`. -/
def probe_encoders (devices : List Bool) (needs_encoder_reenumeration : Bool)
    (worlds : Nat → probe_world) (g : global_config) (state : probe_state) :
    Except failure (Int × probe_run) :=
  if !allow_encoder_probing devices then .ok (-1, { state := state, validations := 0 })
  else
    match state.chosen_encoder with
    | none => reprobe worlds g state
    | some chosen =>
      match state.encoders[chosen]? with
      | none => .error .undefined
      | some encoder =>
        if !has_flag encoder.flags ALWAYS_REPROBE && !needs_encoder_reenumeration then
          .ok (0, { state := state, validations := 0 })
        else reprobe worlds g state

/-- The globals at program start with the given encoder table. -/
def initial_probe_state (encoders : List encoder_t) : probe_state where
  encoders := encoders
  chosen_encoder := none
  active_hevc_mode := 0
  active_av1_mode := 0
  last_encoder_probe_supported_ref_frames_invalidation := false
  last_encoder_probe_supported_yuv444_for_codec := (false, false, false)

/-- A display that supports every codec except `libx265`. -/
def no_hevc_display : display_t :=
  { sample_display with is_codec_supported := fun name _ => name != "libx265" }

/-- In every call of `validateEncoder` the display is `no_hevc_display` and every trial
yields an IDR packet with valid VUI parameters. -/
def no_hevc_worlds : Nat → probe_world :=
  fun _ =>
    { env := sample_environment
      penv := { sample_probe with display := fun _ _ _ _ => some no_hevc_display } }

/-- The sample configuration with `hevc_mode = 2`: HEVC is required. -/
def hevc_required_globals : global_config :=
  { sample_globals with hevc_mode := 2 }

/-- The sample configuration with `hevc_mode = 2` and the encoder `software` named. -/
def named_software_globals : global_config :=
  { hevc_required_globals with encoder := "software" }

/-- The globals after `probe_encoders` has run at program start with the table
`[software]`, HEVC required, on a display without HEVC support. -/
def hevc_required_run : probe_run :=
  match probe_encoders [] false no_hevc_worlds hevc_required_globals
      (initial_probe_state [software]) with
  | .ok (_, run) => run
  | .error _ => { state := initial_probe_state [], validations := 0 }

/-- The globals after the same call with the encoder `software` named in the
configuration. -/
def named_software_run : probe_run :=
  match probe_encoders [] false no_hevc_worlds named_software_globals
      (initial_probe_state [software]) with
  | .ok (_, run) => run
  | .error _ => { state := initial_probe_state [], validations := 0 }

/-- In every call of `validateEncoder` the sample display is there and every trial
yields an IDR packet with valid VUI parameters. -/
def sample_worlds : Nat → probe_world :=
  fun _ => { env := sample_environment, penv := sample_probe }

/-- The run on which the codec-constrained search starts at program start with the
table `[software]` and HEVC required. -/
def hevc_search_start : probe_run :=
  { state := { initial_probe_state [software] with active_hevc_mode := 2 }, validations := 0 }

/-- The result of the codec-constrained search from `hevc_search_start` when the
display supports HEVC. -/
def hevc_search_result : List Nat × probe_run :=
  match codec_search sample_worlds hevc_required_globals none [0] hevc_search_start with
  | .ok result => result
  | .error _ => ([], hevc_search_start)

/-- The globals once `vaapi` has been chosen from the table `[vaapi, software]`. -/
def vaapi_chosen_state : probe_state :=
  { initial_probe_state [vaapi, software] with
    chosen_encoder := some 0
    active_hevc_mode := 1
    active_av1_mode := 1 }

/-! ## The coordinator (`capture_async`) -/

/-- A `CaptureSession` as the coordinator loop of `capture_async` sees it. -/
structure capture_session_t where
  sessionIndex : Int
  /-- The flag `getContext()->encodeRunning`. -/
  encodeRunning : Bool
  /-- Whether `end_capture_async` has joined the capture thread. -/
  capture_joined : Bool
  /-- Whether `end_encode_async` has joined the encode thread. -/
  encode_joined : Bool
deriving DecidableEq, Repr

/-- Lines 728-730: the session's pair of tasks is cancelled. -/
def capture_session_t.cancel (session : capture_session_t) : capture_session_t :=
  { session with encodeRunning := false, capture_joined := true, encode_joined := true }

/-- The result of the loop of lines 726-736. -/
structure close_scan (F : Type) where
  sessions : List capture_session_t
  touchPorts : touch_ports F
  /-- The variable `index`. -/
  index : Int
  /-- The touch ports raised on the touch-port event, oldest first. -/
  raised : List (touch_ports F)

/-- Lines 726-736: the loop over the sessions from position `i` on; a session whose
`sessionIndex` equals `displayIndex` is cancelled, its touch port removed and its
position stored in `index`. -/
def stop_matching {F : Type} (displayIndex : Int) :
    List capture_session_t → Nat → touch_ports F → Int → close_scan F
  | [], _, touchPorts, index =>
    { sessions := [], touchPorts := touchPorts, index := index, raised := [] }
  | session :: rest, i, touchPorts, index =>
    if session.sessionIndex = displayIndex then
      let touchPorts := removePort touchPorts displayIndex
      let later := stop_matching displayIndex rest (i + 1) touchPorts i
      { later with sessions := session.cancel :: later.sessions
                   raised := touchPorts :: later.raised }
    else
      let later := stop_matching displayIndex rest (i + 1) touchPorts index
      { later with sessions := session :: later.sessions }

/-- Lines 722-740 of `capture_async`: the handling of one `close_window` event.  The
result is the session list, the touch ports and the touch ports raised.  Line 738
dereferences the iterator that `sessions.erase` returns, the position after the erased
session; when the erased session was the last one that iterator is `end()` and the read
is without defined behaviour. -/
def close_window {F : Type} (displayIndex : Int) (sessions : List capture_session_t)
    (touchPorts : touch_ports F) :
    Except failure (List capture_session_t × touch_ports F × List (touch_ports F)) :=
  if sessions.length > 1 then
    let scan := stop_matching displayIndex sessions 0 touchPorts (-1)
    if scan.index ≥ 0 then
      if scan.index.toNat + 1 < scan.sessions.length then
        .ok (scan.sessions.eraseIdx scan.index.toNat, scan.touchPorts, scan.raised)
      else .error .undefined
    else .ok (scan.sessions, scan.touchPorts, scan.raised)
  else .ok (sessions, touchPorts, [])

/-- Lines 720-743 of `capture_async`: the coordinator loop.  Each element of the script
is one pass: the pending `close_window` event, if any.  A script that ends stands for
the shutdown event. -/
def coordinator_loop {F : Type} :
    List (Option Int) → List capture_session_t → touch_ports F →
      Except failure (List capture_session_t × touch_ports F × List (touch_ports F))
  | [], sessions, touchPorts => .ok (sessions, touchPorts, [])
  | none :: rest, sessions, touchPorts => coordinator_loop rest sessions touchPorts
  | some displayIndex :: rest, sessions, touchPorts =>
    match close_window displayIndex sessions touchPorts with
    | .error e => .error e
    | .ok closed =>
      match coordinator_loop rest closed.1 closed.2.1 with
      | .error e => .error e
      | .ok later => .ok (later.1, later.2.1, closed.2.2 ++ later.2.2)

/-- A running session for the given display. -/
def running_session (sessionIndex : Int) : capture_session_t :=
  ⟨sessionIndex, true, false, false⟩

/-- The touch ports after the ports of displays 0, 1 and 2 have been made. -/
def three_ports : touch_ports ℚ :=
  run_ops exact_floats (touch_ports.empty 0)
    [.make (display_at 0) 1920 1080 0, .make (display_at 1920) 1920 1080 1,
     .make (display_at 3840) 1920 1080 2]

/-- The touch ports after the ports of displays 0 and 1 have been made. -/
def two_ports : touch_ports ℚ :=
  run_ops exact_floats (touch_ports.empty 0)
    [.make (display_at 0) 1920 1080 0, .make (display_at 1920) 1920 1080 1]

/-! ## Inputs for the H.264 stage of `validateEncoder` -/

/-- The config `config_max_ref_frames` of `validateEncoder` (line 768):
`{1920, 1080, 60, 1000, 1, 1, 1, 0, 0, 0}`, with `numRefFrames = 1`. -/
def config_max_ref_frames : config_t :=
  ⟨1920, 1080, 60, 1000, 1, 1, 1, 0, 0, 0, 0, 0⟩

/-- The config `config_autoselect` of `validateEncoder` (line 769):
`{1920, 1080, 60, 1000, 1, 0, 1, 0, 0, 0}`, with `numRefFrames = 0`. -/
def config_autoselect : config_t :=
  ⟨1920, 1080, 60, 1000, 1, 0, 1, 0, 0, 0, 0, 0⟩

/-- Lines 763-765 of `validateEncoder`: every capability bit of the three codecs is
set. -/
def encoder_t.set_all_capabilities (encoder : encoder_t) : encoder_t :=
  let encoder := encoder.set_h264 (encoder.h264.set_capabilities capabilities_t.all)
  let encoder := encoder.set_hevc (encoder.hevc.set_capabilities capabilities_t.all)
  encoder.set_av1 (encoder.av1.set_capabilities capabilities_t.all)

/-- A probe environment in which a trial yields a valid IDR packet exactly when the
config limits the reference frames (`numRefFrames != 0`). -/
def ref_limit_only_probe : probe_environment :=
  { sample_probe with
    trial := fun _ config => if config.numRefFrames = 0 then none else some ⟨true, true, true⟩ }

/-- A probe environment in which every trial fails. -/
def failing_probe : probe_environment :=
  { sample_probe with trial := fun _ _ => none }

/-- The encoder `software` as `validateEncoder` leaves it in `ref_limit_only_probe`. -/
def ref_limit_only_software : encoder_t :=
  match validateEncoder sample_environment ref_limit_only_probe sample_globals 0 0 software
      false with
  | .ok (_, encoder) => encoder
  | .error _ => software

/-! ## Inputs on which a codec probe fails -/

/-- A probe environment in which every HEVC trial fails and every other trial yields
an IDR packet with valid VUI parameters. -/
def hevc_failing_probe : probe_environment :=
  { sample_probe with
    trial := fun _ config => if config.videoFormat = 1 then none else some ⟨true, true, true⟩ }

/-- The encoder `software` as `validateEncoder` leaves it with HEVC requested
(`active_hevc_mode = 2`) in `hevc_failing_probe`. -/
def hevc_failed_software : encoder_t :=
  match validateEncoder sample_environment hevc_failing_probe sample_globals 2 0 software
      false with
  | .ok (_, encoder) => encoder
  | .error _ => software

/-- Every call of `validateEncoder` sees `hevc_failing_probe`. -/
def hevc_failing_worlds : Nat → probe_world :=
  fun _ => { env := sample_environment, penv := hevc_failing_probe }

/-- The sample configuration with `hevc_mode = 3`: HEVC Main10 is required. -/
def hdr_required_globals : global_config :=
  { sample_globals with hevc_mode := 3 }

/-- The globals after `probe_encoders` has run at program start with the table
`[software]` and HEVC Main10 required, while every HEVC trial fails. -/
def hdr_required_run : probe_run :=
  match probe_encoders [] false hevc_failing_worlds hdr_required_globals
      (initial_probe_state [software]) with
  | .ok (_, run) => run
  | .error _ => { state := initial_probe_state [], validations := 0 }

/-- The HEVC scenario at one frame per second. -/
def one_fps_config : config_t :=
  { hevc_scenario_config with framerate := 1 }

/-- An iteration of the frame loop in which no IDR frame is requested and the pop of an
image times out while the image queue keeps running. -/
def timeout_iteration (call : encode_call) : encode_iteration :=
  { plain_iteration call with pop := none }

/-! ## Option lists of `quicksync` (HEVC) and dictionary lookup -/

/-- The library call `av_dict_get(d, key, NULL, 0)`: the value of the first entry
with the key. -/
def av_dict_get (d : AVDictionary) (key : String) : Option dict_value :=
  (d.find? (fun e => e.1 == key)).map (fun e => e.2)

/-- The value `qsv::profile_hevc_e::main`. -/
def qsv.profile_hevc_e.main : Int := 1

/-- The value `qsv::profile_hevc_e::main_10`. -/
def qsv.profile_hevc_e.main_10 : Int := 2

/-- The value `qsv::profile_hevc_e::rext`. -/
def qsv.profile_hevc_e.rext : Int := 4

/-- The HEVC codec of the descriptor `quicksync` of `video.cpp` (lines 304-338);
capability bits start clear. -/
def quicksync_hevc : codec_t where
  common_options :=
    [⟨"preset", .optional_int_ptr (fun g => g.qsv_preset)⟩,
     ⟨"forced_idr", .int 1⟩,
     ⟨"async_depth", .int 1⟩,
     ⟨"low_delay_brc", .int 1⟩,
     ⟨"low_power", .int 1⟩,
     ⟨"recovery_point_sei", .int 0⟩,
     ⟨"pic_timing_sei", .int 0⟩]
  sdr_options := [⟨"profile", .int qsv.profile_hevc_e.main⟩]
  hdr_options := [⟨"profile", .int qsv.profile_hevc_e.main_10⟩]
  sdr444_options := [⟨"profile", .int qsv.profile_hevc_e.rext⟩]
  hdr444_options := [⟨"profile", .int qsv.profile_hevc_e.rext⟩]
  fallback_options := [⟨"low_power", .int_fn (fun g => if g.qsv_slow_hevc then 0 else 1)⟩]
  name := "hevc_qsv"
  capabilities := capabilities_t.none

/-- The sample environment, except that `avcodec_open2` fails on the first attempt of
the retry loop and succeeds on the second. -/
def retry_environment : environment :=
  { sample_environment with avcodec_open2 := fun retries _ _ => if retries = 0 then -1 else 0 }

/-- The context and the options that the given pass of the retry loop sets up in
`retry_environment` for the HEVC scenario with the option lists of `quicksync_hevc`. -/
def retry_setup (retries : Nat) : AVCodecContext × AVDictionary :=
  match setup_codec_context retry_environment sample_globals software software_formats
      quicksync_hevc hevc_scenario_config sample_device .AV_PIX_FMT_YUV420P retries with
  | .ok result => result
  | .error _ => (avcodec_alloc_context3, [])

end video

/-! # Theorems -/

namespace video

/-! ## Touch ports -/

theorem map_find_assign_self {α : Type} (k : Int) (v : α) (m : List (Int × α)) :
    map_find k (map_assign k v m) = some v := by
  induction m with
  | nil => simp [map_assign, map_find]
  | cons b rest ih =>
    obtain ⟨k', v'⟩ := b
    by_cases h1 : k < k'
    · simp [map_assign, map_find, h1]
    · by_cases h2 : k = k'
      · simp [map_assign, map_find, h2]
      · simp [map_assign, map_find, h1, h2, ih]

theorem map_find_assign_other {α : Type} (k k0 : Int) (v : α) (m : List (Int × α))
    (hk : k0 ≠ k) : map_find k0 (map_assign k v m) = map_find k0 m := by
  induction m with
  | nil => simp [map_assign, map_find, hk]
  | cons b rest ih =>
    obtain ⟨k', v'⟩ := b
    by_cases h1 : k < k'
    · simp [map_assign, map_find, h1, hk]
    · by_cases h2 : k = k'
      · subst h2
        simp [map_assign, map_find, hk]
      · simp [map_assign, map_find, h1, h2, ih]

theorem mem_values_assign {α : Type} (k : Int) (v : α) (m : List (Int × α))
    (hk : map_find k m = none) (p : α) :
    p ∈ (map_assign k v m).map Prod.snd ↔ p = v ∨ p ∈ m.map Prod.snd := by
  induction m with
  | nil => simp [map_assign]
  | cons b rest ih =>
    obtain ⟨k', v'⟩ := b
    by_cases h2 : k = k'
    · simp [map_find, h2] at hk
    · have hr : map_find k rest = none := by simpa [map_find, h2] using hk
      by_cases h1 : k < k'
      · simp [map_assign, h1]
      · simp only [map_assign, h1, h2, if_false, List.map_cons, List.mem_cons, ih hr]
        tauto

theorem map_assign_ne_nil {α : Type} (k : Int) (v : α) (m : List (Int × α)) :
    map_assign k v m ≠ [] := by
  cases m with
  | nil => simp [map_assign]
  | cons b rest =>
    obtain ⟨k', v'⟩ := b
    simp only [map_assign]
    split_ifs <;> simp

/-- C1 (the code departs from the claim): from the empty state, after `makePort` for
displays 0, 1 and 2 (1920x1080 each, at x = 0, 1920 and 3840) and `removePort(0)`, the
map holds the ports of displays 1 and 2, whose minimum bounding rectangle is
`(1920, 0, 3840, 1080)`, but `full_touch_port` is `(1920, 0, 1920, 1080)`: the loop of
`removePort` never visits the last port, so the result is not the bounding rectangle
of the ports in the map. -/
theorem removePort_misses_last_port :
    rect_of (run_ops exact_floats (touch_ports.empty 0) three_then_remove).full_touch_port
        = (1920, 0, 1920, 1080) ∧
      (run_ops exact_floats (touch_ports.empty 0) three_then_remove).ports.map Prod.fst
        = [1, 2] ∧
      is_bounding_rect (1920, 0, 3840, 1080)
        (run_ops exact_floats (touch_ports.empty 0) three_then_remove).values ∧
      ¬ is_bounding_rect
        (rect_of (run_ops exact_floats (touch_ports.empty 0) three_then_remove).full_touch_port)
        (run_ops exact_floats (touch_ports.empty 0) three_then_remove).values := by
  decide

/-- C2: when the map holds exactly two ports, `removePort` with either of the two
display indices leaves a map that holds only the other binding, and
`full_touch_port` is that remaining port, equal in every field. -/
theorem removePort_two_ports {F : Type} (touchPorts : touch_ports F) (k1 k2 : Int)
    (p1 p2 : touch_port_t F) (hports : touchPorts.ports = [(k1, p1), (k2, p2)])
    (hk : k1 ≠ k2) :
    removePort touchPorts k1 = ⟨[(k2, p2)], p2⟩ ∧
      removePort touchPorts k2 = ⟨[(k1, p1)], p1⟩ := by
  have hk' : ¬ k2 = k1 := fun h => hk h.symm
  constructor
  · simp [removePort, map_contains, map_find, map_erase, hports]
  · simp [removePort, map_contains, map_find, map_erase, hports, hk']

/-- Witness for C2: displays 0 and 1 side by side, display 1 is closed. -/
theorem removePort_two_ports_witness :
    (0 : Int) ≠ 1 ∧
      removePort
          (⟨[(0, make_port_value exact_floats (display_at 0) 1920 1080),
              (1, make_port_value exact_floats (display_at 1920) 1920 1080)],
            touch_port_t.zero 0⟩ : touch_ports ℚ) 1
        = ⟨[(0, make_port_value exact_floats (display_at 0) 1920 1080)],
            make_port_value exact_floats (display_at 0) 1920 1080⟩ :=
  ⟨by decide, (removePort_two_ports _ 0 1 _ _ rfl (by decide)).2⟩

theorem wrap32_of_fits_int {x : Int} (h : fits_int x) : wrap32 x = x := by
  unfold fits_int at h
  unfold wrap32
  omega

theorem merge_port_of_fits {F : Type} (full port : touch_port_t F)
    (h : merge_fits full port) :
    merge_port full port
      = { full with
          offset_x := min port.offset_x full.offset_x
          offset_y := min port.offset_y full.offset_y
          width := max (port.offset_x + port.width) (full.offset_x + full.width)
            - min port.offset_x full.offset_x
          height := max (port.offset_y + port.height) (full.offset_y + full.height)
            - min port.offset_y full.offset_y } := by
  obtain ⟨h1, h2, h3, h4, h5, h6⟩ := h
  unfold merge_port
  simp only [wrap32_of_fits_int h1, wrap32_of_fits_int h2, wrap32_of_fits_int h3,
    wrap32_of_fits_int h4, wrap32_of_fits_int h5, wrap32_of_fits_int h6]

/-- C3, counterexample: the map holds the port of display 0, whose rectangle
`(0, 0, 1920, 1080)` is the bounding rectangle, and a port of 1920x1080 is made for a
display at `offset_x = 2147483000`.  The right edge of the new port does not fit in an
`int`; `full_touch_port` stays `(0, 0, 1920, 1080)`, which is not the bounding rectangle
of the two ports. -/
theorem makePort_overflow_not_bounding :
    map_contains 1 one_port.ports = false ∧
      is_bounding_rect (rect_of one_port.full_touch_port) one_port.values ∧
      rect_of (makePort exact_floats one_port (display_at 2147483000) 1920 1080 1).full_touch_port
        = (0, 0, 1920, 1080) ∧
      ¬ is_bounding_rect
        (rect_of
          (makePort exact_floats one_port (display_at 2147483000) 1920 1080 1).full_touch_port)
        (makePort exact_floats one_port (display_at 2147483000) 1920 1080 1).values := by
  decide

/-- C3, amended: if `full_touch_port` is the bounding rectangle of the ports in the map
(or the map is empty), then `makePort` with a `displayIndex` that is not yet in the map
stores the new port under that index and leaves the binding of every other index as it
was; when the map was empty, `full_touch_port` is the new port; and when no `int`
operation of the merge overflows, the rectangle of `full_touch_port` is the bounding
rectangle of all ports including the new one. -/
theorem makePort_new_index {F : Type} (fl : float_ops F) (touchPorts : touch_ports F)
    (display : display_geometry) (cfg_width cfg_height displayIndex : Int)
    (hnew : map_contains displayIndex touchPorts.ports = false)
    (hfull : touchPorts.ports = [] ∨
      is_bounding_rect (rect_of touchPorts.full_touch_port) touchPorts.values)
    (hfits : touchPorts.ports = [] ∨
      merge_fits touchPorts.full_touch_port
        (make_port_value fl display cfg_width cfg_height)) :
    map_find displayIndex (makePort fl touchPorts display cfg_width cfg_height displayIndex).ports
        = some (make_port_value fl display cfg_width cfg_height) ∧
      (∀ k, k ≠ displayIndex →
        map_find k (makePort fl touchPorts display cfg_width cfg_height displayIndex).ports
          = map_find k touchPorts.ports) ∧
      is_bounding_rect
        (rect_of (makePort fl touchPorts display cfg_width cfg_height displayIndex).full_touch_port)
        (makePort fl touchPorts display cfg_width cfg_height displayIndex).values ∧
      (touchPorts.ports = [] →
        (makePort fl touchPorts display cfg_width cfg_height displayIndex).full_touch_port
          = make_port_value fl display cfg_width cfg_height) := by
  have hnone : map_find displayIndex touchPorts.ports = none := by
    simpa [map_contains] using hnew
  refine ⟨map_find_assign_self _ _ _, fun k hk => map_find_assign_other _ _ _ _ hk, ?_, ?_⟩
  · set port := make_port_value fl display cfg_width cfg_height with hport
    have hne : ((map_assign displayIndex port touchPorts.ports).map Prod.snd).isEmpty = false := by
      have := map_assign_ne_nil displayIndex port touchPorts.ports
      cases h : map_assign displayIndex port touchPorts.ports with
      | nil => exact absurd h this
      | cons a l => simp
    have hmem := mem_values_assign displayIndex port touchPorts.ports hnone
    by_cases hemp : touchPorts.ports = []
    · simp only [is_bounding_rect, makePort, touch_ports.values, ← hport, hne, hemp,
        List.isEmpty_nil, if_true, rect_of]
      simp [map_assign]
    · have hb : is_bounding_rect (rect_of touchPorts.full_touch_port) touchPorts.values := by
        rcases hfull with h | h
        · exact absurd h hemp
        · exact h
      have hmerge := merge_port_of_fits touchPorts.full_touch_port port
        (by
          rcases hfits with h | h
          · exact absurd h hemp
          · exact h)
      have hne2 : (touchPorts.ports.map Prod.snd).isEmpty = false := by
        cases h : touchPorts.ports with
        | nil => exact absurd h hemp
        | cons a l => simp
      have hne3 : touchPorts.ports.isEmpty = false := by
        cases h : touchPorts.ports with
        | nil => exact absurd h hemp
        | cons a l => simp
      simp only [is_bounding_rect, touch_ports.values, hne2, rect_of] at hb
      obtain ⟨hall, ⟨px, hpx, hx⟩, ⟨py, hpy, hy⟩, ⟨pr, hpr, hr⟩, ⟨pb, hpb, hbt⟩⟩ := hb
      simp only [is_bounding_rect, makePort, touch_ports.values, ← hport, hne, hne3,
        Bool.false_eq_true, if_false, rect_of, hmerge, hmem]
      refine ⟨?_, ?_, ?_, ?_, ?_⟩
      · intro p hp
        rcases hp with rfl | hp
        · refine ⟨min_le_left _ _, min_le_left _ _, ?_, ?_⟩
          · have := le_max_left (port.offset_x + port.width)
              (touchPorts.full_touch_port.offset_x + touchPorts.full_touch_port.width)
            omega
          · have := le_max_left (port.offset_y + port.height)
              (touchPorts.full_touch_port.offset_y + touchPorts.full_touch_port.height)
            omega
        · obtain ⟨h1, h2, h3, h4⟩ := hall p hp
          refine ⟨le_trans (min_le_right _ _) h1, le_trans (min_le_right _ _) h2, ?_, ?_⟩
          · have := le_max_right (port.offset_x + port.width)
              (touchPorts.full_touch_port.offset_x + touchPorts.full_touch_port.width)
            omega
          · have := le_max_right (port.offset_y + port.height)
              (touchPorts.full_touch_port.offset_y + touchPorts.full_touch_port.height)
            omega
      · rcases le_total port.offset_x touchPorts.full_touch_port.offset_x with h | h
        · exact ⟨port, Or.inl rfl, by rw [min_eq_left h]⟩
        · exact ⟨px, Or.inr hpx, by rw [min_eq_right h, hx]⟩
      · rcases le_total port.offset_y touchPorts.full_touch_port.offset_y with h | h
        · exact ⟨port, Or.inl rfl, by rw [min_eq_left h]⟩
        · exact ⟨py, Or.inr hpy, by rw [min_eq_right h, hy]⟩
      · rcases le_total (port.offset_x + port.width)
          (touchPorts.full_touch_port.offset_x + touchPorts.full_touch_port.width) with h | h
        · exact ⟨pr, Or.inr hpr, by rw [max_eq_right h, hr]; omega⟩
        · exact ⟨port, Or.inl rfl, by rw [max_eq_left h]; omega⟩
      · rcases le_total (port.offset_y + port.height)
          (touchPorts.full_touch_port.offset_y + touchPorts.full_touch_port.height) with h | h
        · exact ⟨pb, Or.inr hpb, by rw [max_eq_right h, hbt]; omega⟩
        · exact ⟨port, Or.inl rfl, by rw [max_eq_left h]; omega⟩
  · intro hemp
    simp [makePort, hemp]

/-- Witness for C3: the map holds the port of display 0 and a port is made for
display 1 to its right. -/
theorem makePort_new_index_witness :
    map_contains 1 one_port.ports = false ∧
      is_bounding_rect (rect_of one_port.full_touch_port) one_port.values ∧
      merge_fits one_port.full_touch_port
        (make_port_value exact_floats (display_at 1920) 1920 1080) ∧
      is_bounding_rect
        (rect_of (makePort exact_floats one_port (display_at 1920) 1920 1080 1).full_touch_port)
        (makePort exact_floats one_port (display_at 1920) 1920 1080 1).values :=
  ⟨by decide, by decide, by decide,
    (makePort_new_index exact_floats one_port (display_at 1920) 1920 1080 1 (by decide)
      (Or.inr (by decide)) (Or.inr (by decide))).2.2.1⟩

/-! ## The AVCODEC session factory -/

theorem hardware_setup_ok (env : environment) (platform_formats : encoder_platform_formats_avcodec)
    (encode_device : avcodec_encode_device_t) (config : config_t) (sw_fmt : AVPixelFormat)
    (retries : Nat) (ctx0 ctx : AVCodecContext)
    (h : hardware_setup env platform_formats encode_device config sw_fmt retries ctx0 = .ok ctx) :
    ctx.slices = config.slicesPerFrame ∧ ctx.profile = ctx0.profile ∧
      ctx.rc_min_rate = ctx0.rc_min_rate := by
  unfold hardware_setup at h
  simp only at h
  split_ifs at h
  cases h
  exact ⟨rfl, rfl, rfl⟩

theorem slice_layout_ok (env : environment) (g : global_config) (encoder : encoder_t)
    (platform_formats : encoder_platform_formats_avcodec)
    (encode_device : avcodec_encode_device_t) (config : config_t) (sw_fmt : AVPixelFormat)
    (retries : Nat) (ctx0 ctx : AVCodecContext)
    (h : slice_layout env g encoder platform_formats encode_device config sw_fmt retries ctx0
      = .ok ctx) :
    ctx.slices =
        (if has_flag encoder.flags SINGLE_SLICE_ONLY then 1
          else if platform_formats.avcodec_base_dev_type != .AV_HWDEVICE_TYPE_NONE then
            config.slicesPerFrame
          else max config.slicesPerFrame g.min_threads) ∧
      ctx.thread_count = ctx.slices ∧ ctx.profile = ctx0.profile ∧
      ctx.rc_min_rate = ctx0.rc_min_rate := by
  unfold slice_layout at h
  simp only at h
  by_cases hw : (platform_formats.avcodec_base_dev_type != .AV_HWDEVICE_TYPE_NONE) = true
  · rw [if_pos hw] at h
    cases h1 : hardware_setup env platform_formats encode_device config sw_fmt retries ctx0 with
    | error e => rw [h1] at h; cases h
    | ok ctx1 =>
      rw [h1] at h
      obtain ⟨hs, hp, hm⟩ := hardware_setup_ok _ _ _ _ _ _ _ _ h1
      by_cases hf : has_flag encoder.flags SINGLE_SLICE_ONLY = true
      · simp only [hf, if_true] at h
        cases h
        simp [hf, hp, hm]
      · simp only [hf, if_false] at h
        cases h
        simp [hf, hw, hs, hp, hm]
  · rw [if_neg hw] at h
    by_cases hf : has_flag encoder.flags SINGLE_SLICE_ONLY = true
    · simp only [hf, if_true] at h
      cases h
      simp [hf]
    · simp only [hf, if_false] at h
      cases h
      simp [hf, hw]

theorem rate_control_ok (env : environment) (g : global_config) (encoder : encoder_t)
    (hardware : Bool) (config : config_t) (ctx0 ctx : AVCodecContext)
    (h : rate_control env g encoder hardware config ctx0 = .ok ctx) :
    ctx.slices = ctx0.slices ∧ ctx.thread_count = ctx0.thread_count ∧
      ctx.profile = ctx0.profile ∧
      ctx.rc_max_rate = effective_bitrate g config ∧
      ctx.bit_rate =
        (if has_flag encoder.flags CBR_WITH_VBR then effective_bitrate g config - 1
          else effective_bitrate g config) ∧
      ctx.rc_min_rate =
        (if has_flag encoder.flags CBR_WITH_VBR then ctx0.rc_min_rate
          else some (effective_bitrate g config)) := by
  unfold rate_control at h
  simp only at h
  by_cases hc : has_flag encoder.flags CBR_WITH_VBR = true <;>
  by_cases hr : has_flag encoder.flags RELAXED_COMPLIANCE = true <;>
  simp only [hc, hr, if_true, if_false, Bool.false_eq_true] at h <;>
  split at h
  all_goals try split at h
  all_goals try split at h
  all_goals first
    | (cases h; done)
    | (cases h; simp [hc])

theorem setup_codec_context_ok (env : environment) (g : global_config) (encoder : encoder_t)
    (platform_formats : encoder_platform_formats_avcodec) (video_format : codec_t)
    (config : config_t) (encode_device : avcodec_encode_device_t) (sw_fmt : AVPixelFormat)
    (retries : Nat) (ctx : AVCodecContext) (options : AVDictionary)
    (h : setup_codec_context env g encoder platform_formats video_format config encode_device
      sw_fmt retries = .ok (ctx, options)) :
    ∃ profile ctx1,
      select_profile env config = .ok profile ∧
      slice_layout env g encoder platform_formats encode_device config sw_fmt retries
        (base_context env encoder video_format config encode_device.colorspace sw_fmt profile)
        = .ok ctx1 ∧
      rate_control env g encoder (platform_formats.avcodec_base_dev_type != .AV_HWDEVICE_TYPE_NONE)
        config ctx1 = .ok ctx ∧
      options = build_options g video_format config retries := by
  unfold setup_codec_context at h
  simp only at h
  split at h
  · cases h
  · rename_i profile hp
    split at h
    · cases h
    · rename_i ctx1 hs
      split at h
      · cases h
      · rename_i ctx2 hr
        cases h
        exact ⟨profile, ctx1, hp, hs, hr, rfl⟩

theorem select_profile_ok (env : environment) (config : config_t) (profile : Option AVProfile)
    (h : select_profile env config = .ok profile) :
    (config.videoFormat = 0 →
        profile = some (if config.chromaSamplingType = 1 then .AV_PROFILE_H264_HIGH_444_PREDICTIVE
          else .AV_PROFILE_H264_HIGH)) ∧
      (config.videoFormat = 1 →
        profile = some (if config.chromaSamplingType = 1 then .AV_PROFILE_HEVC_REXT
          else if config.dynamicRange ≠ 0 then .AV_PROFILE_HEVC_MAIN_10
          else .AV_PROFILE_HEVC_MAIN)) ∧
      (config.videoFormat = 2 →
        profile = some (if config.chromaSamplingType = 1 then .AV_PROFILE_AV1_HIGH
          else .AV_PROFILE_AV1_MAIN)) := by
  unfold select_profile at h
  refine ⟨fun h0 => ?_, fun h1 => ?_, fun h2 => ?_⟩
  · rw [if_pos h0] at h
    split_ifs at h <;> cases h <;> simp_all
  · have h0 : ¬ config.videoFormat = 0 := by omega
    rw [if_neg h0, if_pos h1] at h
    split_ifs at h <;> cases h <;> simp_all
  · have h0 : ¬ config.videoFormat = 0 := by omega
    have h1 : ¬ config.videoFormat = 1 := by omega
    rw [if_neg h0, if_neg h1, if_pos h2] at h
    split_ifs at h <;> cases h <;> simp_all

theorem setup_profile (env : environment) (g : global_config) (encoder : encoder_t)
    (platform_formats : encoder_platform_formats_avcodec) (video_format : codec_t)
    (config : config_t) (encode_device : avcodec_encode_device_t) (sw_fmt : AVPixelFormat)
    (retries : Nat) (ctx : AVCodecContext) (options : AVDictionary)
    (h : setup_codec_context env g encoder platform_formats video_format config encode_device
      sw_fmt retries = .ok (ctx, options)) :
    select_profile env config = .ok ctx.profile := by
  obtain ⟨profile, ctx1, hp, hs, hr, -⟩ := setup_codec_context_ok _ _ _ _ _ _ _ _ _ _ _ h
  obtain ⟨-, -, hp1, -⟩ := slice_layout_ok _ _ _ _ _ _ _ _ _ _ hs
  obtain ⟨-, -, hp2, -⟩ := rate_control_ok _ _ _ _ _ _ _ hr
  rw [hp2, hp1]
  exact hp

/-- C4: whenever a pass of the retry loop of `make_avcodec_encode_session` sets up a
codec context, its profile follows the table: H.264 gives HIGH_444_PREDICTIVE for
`chromaSamplingType = 1` and HIGH otherwise; HEVC gives REXT for 4:4:4, otherwise
MAIN_10 when `dynamicRange` is set and MAIN when it is not; AV1 gives HIGH for 4:4:4
and MAIN otherwise.  In particular AV1 with 4:4:4 and `dynamicRange = 1` gives AV1
HIGH, and HEVC with 4:4:4 and `dynamicRange = 0` gives HEVC REXT. -/
theorem profile_selection (env : environment) (g : global_config) (encoder : encoder_t)
    (platform_formats : encoder_platform_formats_avcodec) (video_format : codec_t)
    (config : config_t) (encode_device : avcodec_encode_device_t) (sw_fmt : AVPixelFormat)
    (retries : Nat) (ctx : AVCodecContext) (options : AVDictionary)
    (h : setup_codec_context env g encoder platform_formats video_format config encode_device
      sw_fmt retries = .ok (ctx, options)) :
    (config.videoFormat = 0 →
        ctx.profile = some (if config.chromaSamplingType = 1 then
          .AV_PROFILE_H264_HIGH_444_PREDICTIVE else .AV_PROFILE_H264_HIGH)) ∧
      (config.videoFormat = 1 →
        ctx.profile = some (if config.chromaSamplingType = 1 then .AV_PROFILE_HEVC_REXT
          else if config.dynamicRange ≠ 0 then .AV_PROFILE_HEVC_MAIN_10
          else .AV_PROFILE_HEVC_MAIN)) ∧
      (config.videoFormat = 2 →
        ctx.profile = some (if config.chromaSamplingType = 1 then .AV_PROFILE_AV1_HIGH
          else .AV_PROFILE_AV1_MAIN)) ∧
      (config.videoFormat = 2 → config.chromaSamplingType = 1 → config.dynamicRange = 1 →
        ctx.profile = some .AV_PROFILE_AV1_HIGH) ∧
      (config.videoFormat = 1 → config.chromaSamplingType = 1 → config.dynamicRange = 0 →
        ctx.profile = some .AV_PROFILE_HEVC_REXT) := by
  obtain ⟨h0, h1, h2⟩ := select_profile_ok env config ctx.profile
    (setup_profile _ _ _ _ _ _ _ _ _ _ _ h)
  refine ⟨h0, h1, h2, fun hv hc _ => ?_, fun hv hc _ => ?_⟩
  · rw [h2 hv, if_pos hc]
  · rw [h1 hv, if_pos hc]

/-- Witness for C4: the software HEVC scenario (4:2:0, SDR) is set up with the HEVC
MAIN profile. -/
theorem profile_selection_witness :
    setup_codec_context sample_environment sample_globals software software_formats
        software.hevc hevc_scenario_config sample_device .AV_PIX_FMT_YUV420P 0
        = .ok (hevc_scenario_setup.1, hevc_scenario_setup.2) ∧
      (hevc_scenario_config.videoFormat = 1 →
        hevc_scenario_setup.1.profile =
          some (if hevc_scenario_config.chromaSamplingType = 1 then .AV_PROFILE_HEVC_REXT
            else if hevc_scenario_config.dynamicRange ≠ 0 then .AV_PROFILE_HEVC_MAIN_10
            else .AV_PROFILE_HEVC_MAIN)) :=
  ⟨rfl, (profile_selection sample_environment sample_globals software software_formats
    software.hevc hevc_scenario_config sample_device .AV_PIX_FMT_YUV420P 0
    hevc_scenario_setup.1 hevc_scenario_setup.2 rfl).2.1⟩

/-- C5: for a config with `chromaSamplingType = 1` and an encoder whose flags lack
`YUV444_SUPPORT`, `makeEncodeDevice` returns no device, so the construction done by
`validate_config` (and by the encode task) fails: `validate_config` returns `-1`,
whatever the display, the capability matrix and the environment are. -/
theorem yuv444_without_support_fails (env : environment) (penv : probe_environment)
    (g : global_config) (disp : display_t) (encoder : encoder_t) (config : config_t)
    (hchroma : config.chromaSamplingType = 1)
    (hflag : has_flag encoder.flags YUV444_SUPPORT = false) :
    makeEncodeDevice env disp encoder config = none ∧
      validate_config env penv g disp encoder config = .ok (-1) := by
  have h : makeEncodeDevice env disp encoder config = none := by
    simp [makeEncodeDevice, hchroma, hflag]
  exact ⟨h, by simp [validate_config, h]⟩

/-- Witness for C5: the `vaapi` encoder has no `YUV444_SUPPORT` and is asked for HEVC
with 4:4:4 sampling. -/
theorem yuv444_without_support_fails_witness :
    hevc_yuv444_config.chromaSamplingType = 1 ∧
      has_flag vaapi.flags YUV444_SUPPORT = false ∧
      makeEncodeDevice sample_environment sample_display vaapi hevc_yuv444_config = none ∧
      validate_config sample_environment sample_probe sample_globals sample_display vaapi
        hevc_yuv444_config = .ok (-1) :=
  ⟨rfl, by decide,
    yuv444_without_support_fails sample_environment sample_probe sample_globals sample_display
      vaapi hevc_yuv444_config rfl (by decide)⟩

/-! ## The probe -/

theorem probe_codec_h264 {env : environment} {penv : probe_environment} {g : global_config}
    {disp : display_t} {test : Bool} {get : encoder_t → codec_t}
    {set : encoder_t → codec_t → encoder_t} {c1 c2 : config_t} {m : Int}
    {encoder encoder' : encoder_t}
    (h : probe_codec env penv g disp test get set c1 c2 m encoder = .ok encoder')
    (hset : ∀ e c, (set e c).h264 = e.h264) :
    encoder'.h264 = encoder.h264 := by
  unfold probe_codec at h
  split_ifs at h
  · split at h
    · cases h
    · simp only at h
      split at h
      · cases h
      · cases h
        simp [hset]
  · cases h
    simp [hset]
  · cases h
    simp [hset]

theorem test_hdr_and_yuv444_h264 {env : environment} {penv : probe_environment}
    {g : global_config} {disp : display_t} {c : config_t} {get : encoder_t → codec_t}
    {set : encoder_t → codec_t → encoder_t} {video_format : Int}
    {encoder encoder' : encoder_t}
    (h : test_hdr_and_yuv444 env penv g disp c get set video_format encoder = .ok encoder')
    (hset : ∀ e c, (set e c).h264 = e.h264) :
    encoder'.h264 = encoder.h264 := by
  unfold test_hdr_and_yuv444 at h
  simp only at h
  split_ifs at h
  · cases h; rfl
  · split at h
    · cases h
    · cases h
      simp [hset]
    · split at h
      · cases h
      · cases h
        simp [hset]

theorem validate_hdr_and_yuv444_h264 {env : environment} {penv : probe_environment}
    {g : global_config} {output_name : String} {disp : display_t}
    {encoder encoder' : encoder_t}
    (h : validate_hdr_and_yuv444 env penv g output_name disp encoder = .ok (true, encoder')) :
    encoder'.h264.get .DYNAMIC_RANGE = false := by
  unfold validate_hdr_and_yuv444 at h
  simp only at h
  split at h
  · cases h
  · split at h
    · cases h
    · split at h
      · cases h
      · rename_i e1 h1
        split at h
        · cases h
        · rename_i e2 h2
          have a1 := test_hdr_and_yuv444_h264 h1 (fun _ _ => rfl)
          have a2 := test_hdr_and_yuv444_h264 h2 (fun _ _ => rfl)
          cases h
          simp [encoder_t.set_hevc, encoder_t.set_h264, codec_t.assign, codec_t.get,
            codec_t.set_capabilities, capabilities_t.assign, capabilities_t.get, a1, a2]

theorem validate_codecs_h264 {env : environment} {penv : probe_environment}
    {g : global_config} {test_hevc test_av1 : Bool} {output_name : String} {disp : display_t}
    {c1 c2 : config_t} {m a : Int} {encoder encoder' : encoder_t}
    (h : validate_codecs env penv g test_hevc test_av1 output_name disp c1 c2 m a encoder
      = .ok (true, encoder')) :
    encoder'.h264.get .DYNAMIC_RANGE = false := by
  unfold validate_codecs at h
  simp only at h
  split at h
  · cases h
  · split at h
    · cases h
    · exact validate_hdr_and_yuv444_h264 h

theorem validate_h264_dynamic_range {env : environment} {penv : probe_environment}
    {g : global_config} {test_hevc test_av1 : Bool} {output_name : String}
    {encoder encoder' : encoder_t} {expect_failure : Bool}
    (h : validate_h264 env penv g test_hevc test_av1 output_name encoder expect_failure
      = .ok (true, encoder')) :
    encoder'.h264.get .DYNAMIC_RANGE = false := by
  unfold validate_h264 at h
  simp only at h
  split at h
  · cases h
  · split at h
    · cases h
    · split at h
      · cases h
      · split at h
        · cases h
        · split at h
          · cases h
          · split at h
            · cases h
            · exact validate_codecs_h264 h

theorem validateEncoder_h264_dynamic_range {env : environment} {penv : probe_environment}
    {g : global_config} {active_hevc_mode active_av1_mode : Int}
    {encoder encoder' : encoder_t} {expect_failure : Bool}
    (h : validateEncoder env penv g active_hevc_mode active_av1_mode encoder expect_failure
      = .ok (true, encoder')) :
    encoder'.h264.get .DYNAMIC_RANGE = false :=
  validate_h264_dynamic_range h

/-- C6: after a `validateEncoder` call that returned true, the H.264 codec of the
encoder does not advertise DYNAMIC_RANGE, and `make_avcodec_encode_session` returns
no session for every config with `videoFormat = 0` and `dynamicRange = 1`, whatever
the display, the device and the environment of the later call are. -/
theorem h264_hdr_rejected (env : environment) (penv : probe_environment) (g : global_config)
    (active_hevc_mode active_av1_mode : Int) (encoder encoder' : encoder_t)
    (expect_failure : Bool)
    (hprobe : validateEncoder env penv g active_hevc_mode active_av1_mode encoder expect_failure
      = .ok (true, encoder'))
    (env' : environment) (g' : global_config) (disp : display_t) (config : config_t)
    (width height : Int) (encode_device : avcodec_encode_device_t)
    (hformat : config.videoFormat = 0) (hhdr : config.dynamicRange = 1) :
    encoder'.h264.get .DYNAMIC_RANGE = false ∧
      make_avcodec_encode_session env' g' disp encoder' config width height encode_device
        = .error .null := by
  have hdr := validateEncoder_h264_dynamic_range hprobe
  refine ⟨hdr, ?_⟩
  have hsel : encoder'.codec_from_config config = encoder'.h264 := by
    simp [encoder_t.codec_from_config, hformat]
  unfold make_avcodec_encode_session
  cases hk : encoder'.platform_formats.kind with
  | nvenc => rfl
  | avcodec platform_formats =>
    simp only [hsel]
    by_cases hp : (!encoder'.h264.get .PASSED ||
        !disp.is_codec_supported encoder'.h264.name config) = true
    · rw [if_pos hp]
    · rw [if_neg hp]
      simp [hhdr, hdr]

/-- Witness for C6: the `software` encoder is probed in the sample environment and
then asked for H.264 with HDR. -/
theorem h264_hdr_rejected_witness :
    validateEncoder sample_environment sample_probe sample_globals 2 0 software false
        = .ok (true, probed_software) ∧
      h264_hdr_config.videoFormat = 0 ∧ h264_hdr_config.dynamicRange = 1 ∧
      make_avcodec_encode_session sample_environment sample_globals sample_display
        probed_software h264_hdr_config 1920 1080 sample_device = .error .null :=
  ⟨rfl, rfl, rfl,
    (h264_hdr_rejected sample_environment sample_probe sample_globals 2 0 software
      probed_software false rfl sample_environment sample_globals sample_display
      h264_hdr_config 1920 1080 sample_device rfl rfl).2⟩

/-- C7: `make_avcodec_encode_session` returns no session whenever the codec selected
by `config.videoFormat` has its PASSED bit clear, or the display rejects that codec
for the config, or `config.dynamicRange` is set while the DYNAMIC_RANGE bit of the
codec is clear; this holds for every value of the remaining inputs. -/
theorem session_rejected (env : environment) (g : global_config) (disp : display_t)
    (encoder : encoder_t) (config : config_t) (width height : Int)
    (encode_device : avcodec_encode_device_t)
    (h : (encoder.codec_from_config config).get .PASSED = false ∨
      disp.is_codec_supported (encoder.codec_from_config config).name config = false ∨
      (config.dynamicRange ≠ 0 ∧ (encoder.codec_from_config config).get .DYNAMIC_RANGE = false)) :
    make_avcodec_encode_session env g disp encoder config width height encode_device
      = .error .null := by
  unfold make_avcodec_encode_session
  cases hk : encoder.platform_formats.kind with
  | nvenc => rfl
  | avcodec platform_formats =>
    simp only
    rcases h with h | h | ⟨h1, h2⟩
    · simp [h]
    · simp [h]
    · by_cases hp : (!(encoder.codec_from_config config).get .PASSED ||
          !disp.is_codec_supported (encoder.codec_from_config config).name config) = true
      · rw [if_pos hp]
      · rw [if_neg hp]
        simp [h1, h2]

/-- Witness for C7: the `software` encoder before any probe has no PASSED bit. -/
theorem session_rejected_witness :
    (software.codec_from_config hevc_scenario_config).get .PASSED = false ∧
      make_avcodec_encode_session sample_environment sample_globals sample_display software
        hevc_scenario_config 1920 1080 sample_device = .error .null :=
  ⟨rfl,
    session_rejected sample_environment sample_globals sample_display software
      hevc_scenario_config 1920 1080 sample_device (Or.inl rfl)⟩

/-! ## Rate control and slice layout -/

theorem codec_attempt_context {env : environment} {g : global_config} {encoder : encoder_t}
    {platform_formats : encoder_platform_formats_avcodec} {video_format : codec_t}
    {config : config_t} {encode_device : avcodec_encode_device_t} {sw_fmt : AVPixelFormat}
    {retries : Nat} {r : attempt_t}
    (h : codec_attempt env g encoder platform_formats video_format config encode_device sw_fmt
      retries = .ok r) :
    ∃ ctx options,
      setup_codec_context env g encoder platform_formats video_format config encode_device
        sw_fmt retries = .ok (ctx, options) ∧
      (r = .opened (encode_device.init_codec_options ctx options).1 ∨
        r = .again (encode_device.init_codec_options ctx options).1) := by
  unfold codec_attempt at h
  split at h
  · cases h
  · rename_i ctx options hs
    refine ⟨ctx, options, hs, ?_⟩
    simp only at h
    split_ifs at h
    · cases h; exact Or.inr rfl
    · cases h; exact Or.inl rfl

theorem open_codec_context {env : environment} {g : global_config} {encoder : encoder_t}
    {platform_formats : encoder_platform_formats_avcodec} {video_format : codec_t}
    {config : config_t} {encode_device : avcodec_encode_device_t} {sw_fmt : AVPixelFormat}
    {final : AVCodecContext}
    (h : open_codec env g encoder platform_formats video_format config encode_device sw_fmt
      = .ok final) :
    ∃ retries ctx options,
      setup_codec_context env g encoder platform_formats video_format config encode_device
        sw_fmt retries = .ok (ctx, options) ∧
      final = (encode_device.init_codec_options ctx options).1 := by
  unfold open_codec at h
  split at h
  · cases h
  · rename_i ctx h0
    cases h
    obtain ⟨c, o, hs, hr | hr⟩ := codec_attempt_context h0
    · cases hr; exact ⟨0, c, o, hs, rfl⟩
    · cases hr
  · split at h
    · cases h
    · rename_i ctx h1
      cases h
      obtain ⟨c, o, hs, hr | hr⟩ := codec_attempt_context h1
      · cases hr; exact ⟨1, c, o, hs, rfl⟩
      · cases hr
    · rename_i ctx h1
      cases h
      obtain ⟨c, o, hs, hr | hr⟩ := codec_attempt_context h1
      · cases hr
      · cases hr; exact ⟨1, c, o, hs, rfl⟩

theorem finish_session_ok {env : environment} {disp : display_t} {video_format : codec_t}
    {config : config_t} {width height : Int} {encode_device : avcodec_encode_device_t}
    {sw_fmt : AVPixelFormat} {hardware : Bool} {ctx : AVCodecContext}
    {session : avcodec_encode_session_t}
    (h : finish_session env disp video_format config width height encode_device sw_fmt hardware
      ctx = .ok session) :
    session.avcodec_ctx = ctx ∧ session.inject = initial_inject video_format config ∧
      session.displayIndex = config.displayIndex ∧ session.replacements = [] := by
  unfold finish_session at h
  simp only at h
  split_ifs at h <;> cases h <;> exact ⟨rfl, rfl, rfl, rfl⟩

theorem make_avcodec_encode_session_ok {env : environment} {g : global_config}
    {disp : display_t} {encoder : encoder_t} {config : config_t} {width height : Int}
    {encode_device : avcodec_encode_device_t} {session : avcodec_encode_session_t}
    (h : make_avcodec_encode_session env g disp encoder config width height encode_device
      = .ok session) :
    ∃ platform_formats retries ctx options,
      encoder.platform_formats.kind = .avcodec platform_formats ∧
      setup_codec_context env g encoder platform_formats (encoder.codec_from_config config)
        config encode_device
        (select_sw_fmt platform_formats encode_device.colorspace config) retries
        = .ok (ctx, options) ∧
      session.avcodec_ctx = (encode_device.init_codec_options ctx options).1 ∧
      session.inject = initial_inject (encoder.codec_from_config config) config ∧
      session.displayIndex = config.displayIndex := by
  unfold make_avcodec_encode_session at h
  split at h
  · cases h
  · rename_i platform_formats hk
    simp only at h
    split_ifs at h
    split at h
    · cases h
    · rename_i final ho
      obtain ⟨retries, ctx, options, hs, hf⟩ := open_codec_context ho
      obtain ⟨h1, h2, h3, -⟩ := finish_session_ok h
      exact ⟨platform_formats, retries, ctx, options, hk, hs, by rw [h1, hf], h2, h3⟩

theorem wrap32_of_fits (x : Int) (h1 : -2147483648 ≤ x) (h2 : x ≤ 2147483647) : wrap32 x = x := by
  unfold wrap32
  omega

theorem rate_control_buffer (env : environment) (g : global_config) (encoder : encoder_t)
    (config : config_t) (ctx0 ctx : AVCodecContext)
    (h : rate_control env g encoder false config ctx0 = .ok ctx)
    (hrc : has_flag encoder.flags NO_RC_BUF_LIMIT = false)
    (hcond : ctx0.slices > 1 ∨ config.videoFormat = 1) :
    ctx.rc_buffer_size = some (Int.tdiv (effective_bitrate g config)
      (Int.tdiv (wrap32 (config.framerate * 10)) 15)) ∧
    int_div (effective_bitrate g config) (Int.tdiv (wrap32 (config.framerate * 10)) 15)
      = .ok (Int.tdiv (effective_bitrate g config)
          (Int.tdiv (wrap32 (config.framerate * 10)) 15)) := by
  unfold rate_control at h
  have hc : (decide (ctx0.slices > 1) || decide (config.videoFormat = 1)) = true := by
    rcases hcond with h1 | h1 <;> simp [h1]
  by_cases hv : has_flag encoder.flags CBR_WITH_VBR = true <;>
  by_cases hr : has_flag encoder.flags RELAXED_COMPLIANCE = true <;>
  simp only [hv, hr, hrc, hc, if_true, if_false, Bool.false_eq_true, Bool.not_false,
    Bool.and_self, Bool.true_and] at h <;>
  split at h <;>
  first
    | (cases h; done)
    | (rename_i size hs
       cases h
       have hs' := hs
       unfold int_div at hs
       split_ifs at hs
       cases hs
       exact ⟨rfl, hs'⟩)

theorem software_hevc_scenario_buffer (env : environment) (g : global_config)
    (encode_device : avcodec_encode_device_t) (sw_fmt : AVPixelFormat) (retries : Nat)
    (hcap : g.max_bitrate ≤ 0) :
    (setup_codec_context env g software software_formats software.hevc
      hevc_scenario_config encode_device sw_fmt retries).map
        (fun r => r.1.rc_buffer_size) = .ok (some 250000) := by
  have hcap' : ¬ g.max_bitrate > 0 := by omega
  have hflags : software.flags = 1542 := by decide
  have h1 : has_flag 1542 SINGLE_SLICE_ONLY = false := by decide
  have h2 : has_flag 1542 CBR_WITH_VBR = false := by decide
  have h3 : has_flag 1542 RELAXED_COMPLIANCE = false := by decide
  have h4 : has_flag 1542 NO_RC_BUF_LIMIT = false := by decide
  have hb : effective_bitrate g hevc_scenario_config = 10000000 := by
    simp [effective_bitrate, hcap', hevc_scenario_config, wrap32]
  have hd : Int.tdiv (wrap32 (hevc_scenario_config.framerate * 10)) 15 = 40 := by decide
  have hq : int_div 10000000 40 = .ok 250000 := by rfl
  have hp : select_profile env hevc_scenario_config = .ok (some .AV_PROFILE_HEVC_MAIN) := by
    simp [select_profile, hevc_scenario_config]
  have hv : hevc_scenario_config.videoFormat = 1 := rfl
  simp only [setup_codec_context, hp, slice_layout, software_formats, rate_control, hflags, h1,
    h2, h3, h4, hb, hd, hq, hv, bne_self_eq_false, Bool.false_eq_true, if_false,
    Bool.not_false, decide_True, Bool.or_true, Bool.and_self, if_true, Except.map]

/-- C8: for bitrate values whose product with 1000 fits a 32-bit `int`, a codec
context set up by `make_avcodec_encode_session` has
`rc_max_rate = 1000 * min(client.bitrate, max_bitrate)` when the configured
`max_bitrate` is positive and `1000 * client.bitrate` otherwise; with CBR_WITH_VBR
`bit_rate = rc_max_rate - 1` and `rc_min_rate` is not set, else
`bit_rate = rc_min_rate = rc_max_rate`. -/
theorem rate_control_bitrate (env : environment) (g : global_config) (encoder : encoder_t)
    (platform_formats : encoder_platform_formats_avcodec) (video_format : codec_t)
    (config : config_t) (encode_device : avcodec_encode_device_t) (sw_fmt : AVPixelFormat)
    (retries : Nat) (ctx : AVCodecContext) (options : AVDictionary)
    (h : setup_codec_context env g encoder platform_formats video_format config encode_device
      sw_fmt retries = .ok (ctx, options))
    (hclient : -2147483648 ≤ config.bitrate * 1000 ∧ config.bitrate * 1000 ≤ 2147483647)
    (hmax : -2147483648 ≤ g.max_bitrate * 1000 ∧ g.max_bitrate * 1000 ≤ 2147483647) :
    ctx.rc_max_rate =
        (if g.max_bitrate > 0 then 1000 * min config.bitrate g.max_bitrate
          else 1000 * config.bitrate) ∧
      (has_flag encoder.flags CBR_WITH_VBR = true →
        ctx.bit_rate = ctx.rc_max_rate - 1 ∧ ctx.rc_min_rate = none) ∧
      (has_flag encoder.flags CBR_WITH_VBR = false →
        ctx.bit_rate = ctx.rc_max_rate ∧ ctx.rc_min_rate = some ctx.rc_max_rate) := by
  obtain ⟨profile, ctx1, -, hs, hr, -⟩ := setup_codec_context_ok _ _ _ _ _ _ _ _ _ _ _ h
  obtain ⟨-, -, -, hmin⟩ := slice_layout_ok _ _ _ _ _ _ _ _ _ _ hs
  obtain ⟨-, -, -, hmaxr, hbit, hminr⟩ := rate_control_ok _ _ _ _ _ _ _ hr
  have hnone : ctx1.rc_min_rate = none := by rw [hmin]; rfl
  have heff : effective_bitrate g config =
      (if g.max_bitrate > 0 then 1000 * min config.bitrate g.max_bitrate
        else 1000 * config.bitrate) := by
    unfold effective_bitrate
    split_ifs with hpos
    · rcases le_total config.bitrate g.max_bitrate with hle | hle
      · rw [min_eq_left hle, wrap32_of_fits _ hclient.1 hclient.2]; ring
      · rw [min_eq_right hle, wrap32_of_fits _ hmax.1 hmax.2]; ring
    · rw [wrap32_of_fits _ hclient.1 hclient.2]; ring
  refine ⟨by rw [hmaxr, heff], fun hf => ?_, fun hf => ?_⟩
  · rw [hbit, hminr, hmaxr, hnone]; simp [hf]
  · rw [hbit, hminr, hmaxr]; simp [hf]

/-- Witness for C8: the software HEVC scenario, 10000 kbit/s without a cap. -/
theorem rate_control_bitrate_witness :
    setup_codec_context sample_environment sample_globals software software_formats
        software.hevc hevc_scenario_config sample_device .AV_PIX_FMT_YUV420P 0
        = .ok (hevc_scenario_setup.1, hevc_scenario_setup.2) ∧
      (-2147483648 ≤ hevc_scenario_config.bitrate * 1000 ∧
        hevc_scenario_config.bitrate * 1000 ≤ 2147483647) ∧
      (-2147483648 ≤ sample_globals.max_bitrate * 1000 ∧
        sample_globals.max_bitrate * 1000 ≤ 2147483647) ∧
      hevc_scenario_setup.1.rc_max_rate =
        (if sample_globals.max_bitrate > 0 then
          1000 * min hevc_scenario_config.bitrate sample_globals.max_bitrate
          else 1000 * hevc_scenario_config.bitrate) :=
  ⟨rfl, by decide, by decide,
    (rate_control_bitrate sample_environment sample_globals software software_formats
      software.hevc hevc_scenario_config sample_device .AV_PIX_FMT_YUV420P 0
      hevc_scenario_setup.1 hevc_scenario_setup.2 rfl (by decide) (by decide)).1⟩

/-- C9 (counterexample): in the spec scenario (software encoder, `videoFormat = 1`,
`slicesPerFrame = 4`, `bitrate = 10000`, `framerate = 60`, no cap) the session factory
sets `rc_buffer_size` to `10000 * 1000 / (60 * 10 / 15) = 250000`, both in the context
it sets up and in the session it returns; the value is not 2500000. -/
theorem software_hevc_buffer_is_not_2500000 :
    (setup_codec_context sample_environment sample_globals software software_formats
        software.hevc hevc_scenario_config sample_device .AV_PIX_FMT_YUV420P 0).map
          (fun r => r.1.rc_buffer_size) = .ok (some 250000) ∧
      (make_avcodec_encode_session sample_environment sample_globals sample_display
        probed_software hevc_scenario_config 1920 1080 sample_device).map
          (fun session => session.avcodec_ctx.rc_buffer_size) = .ok (some 250000) ∧
      ¬ ((make_avcodec_encode_session sample_environment sample_globals sample_display
        probed_software hevc_scenario_config 1920 1080 sample_device).map
          (fun session => session.avcodec_ctx.rc_buffer_size) = .ok (some 2500000)) := by
  refine ⟨rfl, rfl, ?_⟩
  have h : (make_avcodec_encode_session sample_environment sample_globals sample_display
      probed_software hevc_scenario_config 1920 1080 sample_device).map
        (fun session => session.avcodec_ctx.rc_buffer_size) = .ok (some 250000) := rfl
  rw [h]
  intro hne
  cases hne

/-- C9 (amended): for an encoder without hardware device type and with
NO_RC_BUF_LIMIT clear, a context set up with more than one slice or for HEVC has
`rc_buffer_size = bitrate / ((framerate * 10) / 15)` in truncating `int` arithmetic,
where `bitrate` is the effective bitrate in bit/s; and for the `software` encoder
with `videoFormat = 1`, `slicesPerFrame = 4`, `bitrate = 10000`, `framerate = 60` and
no `max_bitrate` cap the value is `10000 * 1000 / (60 * 10 / 15) = 250000`, in every
environment. -/
theorem software_rc_buffer_size (env : environment) (g : global_config) (encoder : encoder_t)
    (platform_formats : encoder_platform_formats_avcodec) (video_format : codec_t)
    (config : config_t) (encode_device : avcodec_encode_device_t) (sw_fmt : AVPixelFormat)
    (retries : Nat) (ctx : AVCodecContext) (options : AVDictionary)
    (h : setup_codec_context env g encoder platform_formats video_format config encode_device
      sw_fmt retries = .ok (ctx, options))
    (hsoft : platform_formats.avcodec_base_dev_type = .AV_HWDEVICE_TYPE_NONE)
    (hrc : has_flag encoder.flags NO_RC_BUF_LIMIT = false)
    (hcond : ctx.slices > 1 ∨ config.videoFormat = 1) :
    ctx.rc_buffer_size = some (Int.tdiv (effective_bitrate g config)
        (Int.tdiv (wrap32 (config.framerate * 10)) 15)) ∧
      ∀ (env' : environment) (g' : global_config) (encode_device' : avcodec_encode_device_t)
        (sw_fmt' : AVPixelFormat) (retries' : Nat), g'.max_bitrate ≤ 0 →
        (setup_codec_context env' g' software software_formats software.hevc
          hevc_scenario_config encode_device' sw_fmt' retries').map
            (fun r => r.1.rc_buffer_size) = .ok (some 250000) := by
  refine ⟨?_, fun env' g' encode_device' sw_fmt' retries' hcap =>
    software_hevc_scenario_buffer env' g' encode_device' sw_fmt' retries' hcap⟩
  obtain ⟨profile, ctx1, -, -, hr, -⟩ := setup_codec_context_ok _ _ _ _ _ _ _ _ _ _ _ h
  have hhw : (platform_formats.avcodec_base_dev_type != .AV_HWDEVICE_TYPE_NONE) = false := by
    simp [hsoft]
  rw [hhw] at hr
  obtain ⟨hsl, -⟩ := rate_control_ok _ _ _ _ _ _ _ hr
  exact (rate_control_buffer env g encoder config ctx1 ctx hr hrc (by rw [← hsl]; exact hcond)).1

/-- Witness for C9: the software HEVC scenario in the sample environment. -/
theorem software_rc_buffer_size_witness :
    setup_codec_context sample_environment sample_globals software software_formats
        software.hevc hevc_scenario_config sample_device .AV_PIX_FMT_YUV420P 0
        = .ok (hevc_scenario_setup.1, hevc_scenario_setup.2) ∧
      software_formats.avcodec_base_dev_type = .AV_HWDEVICE_TYPE_NONE ∧
      has_flag software.flags NO_RC_BUF_LIMIT = false ∧
      hevc_scenario_config.videoFormat = 1 ∧
      hevc_scenario_setup.1.rc_buffer_size =
        some (Int.tdiv (effective_bitrate sample_globals hevc_scenario_config)
          (Int.tdiv (wrap32 (hevc_scenario_config.framerate * 10)) 15)) :=
  ⟨rfl, rfl, by decide, rfl,
    (software_rc_buffer_size sample_environment sample_globals software software_formats
      software.hevc hevc_scenario_config sample_device .AV_PIX_FMT_YUV420P 0
      hevc_scenario_setup.1 hevc_scenario_setup.2 rfl rfl (by decide) (Or.inr rfl)).1⟩

/-- C10: in a codec context set up by `make_avcodec_encode_session` the slice count
is 1 if the encoder has SINGLE_SLICE_ONLY; otherwise it is `client.slicesPerFrame`
for a hardware encoder and `max(client.slicesPerFrame, min_threads)` for a software
encoder; and the thread count equals the slice count. -/
theorem slice_and_thread_count (env : environment) (g : global_config) (encoder : encoder_t)
    (platform_formats : encoder_platform_formats_avcodec) (video_format : codec_t)
    (config : config_t) (encode_device : avcodec_encode_device_t) (sw_fmt : AVPixelFormat)
    (retries : Nat) (ctx : AVCodecContext) (options : AVDictionary)
    (h : setup_codec_context env g encoder platform_formats video_format config encode_device
      sw_fmt retries = .ok (ctx, options)) :
    (has_flag encoder.flags SINGLE_SLICE_ONLY = true → ctx.slices = 1) ∧
      (has_flag encoder.flags SINGLE_SLICE_ONLY = false →
        platform_formats.avcodec_base_dev_type ≠ .AV_HWDEVICE_TYPE_NONE →
        ctx.slices = config.slicesPerFrame) ∧
      (has_flag encoder.flags SINGLE_SLICE_ONLY = false →
        platform_formats.avcodec_base_dev_type = .AV_HWDEVICE_TYPE_NONE →
        ctx.slices = max config.slicesPerFrame g.min_threads) ∧
      ctx.thread_count = ctx.slices := by
  obtain ⟨profile, ctx1, -, hs, hr, -⟩ := setup_codec_context_ok _ _ _ _ _ _ _ _ _ _ _ h
  obtain ⟨hsl, htc, -, -⟩ := slice_layout_ok _ _ _ _ _ _ _ _ _ _ hs
  obtain ⟨hsl2, htc2, -⟩ := rate_control_ok _ _ _ _ _ _ _ hr
  refine ⟨fun hf => ?_, fun hf hw => ?_, fun hf hw => ?_, ?_⟩
  · rw [hsl2, hsl]; simp [hf]
  · rw [hsl2, hsl]; simp [hf, hw]
  · rw [hsl2, hsl]; simp [hf, hw]
  · rw [htc2, hsl2, htc]

/-- Witness for C10: the software HEVC scenario asks for four slices with two worker
threads configured. -/
theorem slice_and_thread_count_witness :
    setup_codec_context sample_environment sample_globals software software_formats
        software.hevc hevc_scenario_config sample_device .AV_PIX_FMT_YUV420P 0
        = .ok (hevc_scenario_setup.1, hevc_scenario_setup.2) ∧
      hevc_scenario_setup.1.thread_count = hevc_scenario_setup.1.slices :=
  ⟨rfl,
    (slice_and_thread_count sample_environment sample_globals software software_formats
      software.hevc hevc_scenario_config sample_device .AV_PIX_FMT_YUV420P 0
      hevc_scenario_setup.1 hevc_scenario_setup.2 rfl).2.2.2⟩

/-! ## Inject mode and the HDR / YUV 4:4:4 probe -/

/-- C11: for every AVCODEC session that `make_avcodec_encode_session` returns, the
initial inject mode is 0 if the VUI_PARAMETERS bit of the codec is set; otherwise it
is 1 for `videoFormat = 0` (H.264) and 2 for `videoFormat = 1` (HEVC); and it is 0
for `videoFormat = 2` (AV1) whatever the VUI_PARAMETERS bit is. -/
theorem initial_inject_mode (env : environment) (g : global_config) (disp : display_t)
    (encoder : encoder_t) (config : config_t) (width height : Int)
    (encode_device : avcodec_encode_device_t) (session : avcodec_encode_session_t)
    (h : make_avcodec_encode_session env g disp encoder config width height encode_device
      = .ok session) :
    (config.videoFormat = 0 →
        session.inject = if encoder.h264.get .VUI_PARAMETERS then 0 else 1) ∧
      (config.videoFormat = 1 →
        session.inject = if encoder.hevc.get .VUI_PARAMETERS then 0 else 2) ∧
      (config.videoFormat = 2 → session.inject = 0) := by
  obtain ⟨-, -, -, -, -, -, -, hinj, -⟩ := make_avcodec_encode_session_ok h
  rw [hinj]
  refine ⟨fun hv => ?_, fun hv => ?_, fun hv => ?_⟩
  · by_cases hvui : encoder.h264.get .VUI_PARAMETERS = true <;>
      simp [initial_inject, encoder_t.codec_from_config, hv, hvui]
  · by_cases hvui : encoder.hevc.get .VUI_PARAMETERS = true <;>
      simp [initial_inject, encoder_t.codec_from_config, hv, hvui]
  · simp [initial_inject, hv]

/-- Witness for C11: the `software` encoder without VUI support builds a session for
the HEVC scenario; its inject mode is 2. -/
theorem initial_inject_mode_witness :
    make_avcodec_encode_session sample_environment sample_globals sample_display
        no_vui_software hevc_scenario_config 1920 1080 sample_device
        = .ok hevc_inject_session ∧
      hevc_scenario_config.videoFormat = 1 ∧
      no_vui_software.hevc.get .VUI_PARAMETERS = false ∧
      hevc_inject_session.inject
        = if no_vui_software.hevc.get .VUI_PARAMETERS then 0 else 2 :=
  ⟨rfl, rfl, rfl,
    (initial_inject_mode sample_environment sample_globals sample_display no_vui_software
      hevc_scenario_config 1920 1080 sample_device hevc_inject_session rfl).2.1 rfl⟩

theorem first_index_some {name : String} {names : List String} {i : Nat}
    (h : first_index name names = some i) :
    i < names.length ∧ names.getD i "" = name := by
  induction names generalizing i with
  | nil => simp [first_index] at h
  | cons n rest ih =>
    by_cases hn : n = name
    · simp [first_index, hn] at h
      subst h
      simp [hn]
    · simp only [first_index, hn, if_false, Option.map_eq_some'] at h
      obtain ⟨j, hj, rfl⟩ := h
      obtain ⟨h1, h2⟩ := ih hj
      exact ⟨by simp; omega, by simpa using h2⟩

theorem first_index_of_mem {name : String} {names : List String} (h : name ∈ names) :
    ∃ i, first_index name names = some i := by
  induction names with
  | nil => simp at h
  | cons n rest ih =>
    by_cases hn : n = name
    · exact ⟨0, by simp [first_index, hn]⟩
    · have hr : name ∈ rest := by
        rcases List.mem_cons.mp h with h | h
        · exact absurd h.symm hn
        · exact h
      obtain ⟨i, hi⟩ := ih hr
      exact ⟨i + 1, by simp [first_index, hn, hi]⟩

/-- C18: for every name list and every index within it whose name is non-empty, if
the re-enumerated list contains that name, then after `refreshDisplays` the
`display_names` parameter is the re-enumerated list and `current_display_index` is the
index of the first occurrence of that name in it, so
`display_names[current_display_index]` is that name. -/
theorem refreshDisplays_keeps_display (enumerated : List String) (output_name : String)
    (display_names : List String) (current_display_index : Int) (name : String)
    (hidx : 0 ≤ current_display_index ∧ current_display_index < display_names.length)
    (hname : display_names.getD current_display_index.toNat "" = name)
    (hne : name ≠ "") (hmem : name ∈ enumerated) :
    (refreshDisplays enumerated output_name display_names current_display_index).1 = enumerated ∧
      first_index name enumerated =
        some (refreshDisplays enumerated output_name display_names current_display_index).2.toNat ∧
      0 ≤ (refreshDisplays enumerated output_name display_names current_display_index).2 ∧
      vector_at enumerated
        (refreshDisplays enumerated output_name display_names current_display_index).2
        = .ok name := by
  obtain ⟨i, hi⟩ := first_index_of_mem hmem
  obtain ⟨hlt, hget⟩ := first_index_some hi
  have hnonempty : enumerated.isEmpty = false := by
    cases enumerated with
    | nil => simp at hmem
    | cons a l => rfl
  have hr : refreshDisplays enumerated output_name display_names current_display_index
      = (enumerated, (i : Int)) := by
    unfold refreshDisplays
    simp only [hidx.1, hidx.2, ge_iff_le, and_self, if_true, hname, hnonempty,
      Bool.false_and, Bool.false_eq_true, if_false, ne_eq, hne, not_false_eq_true, hi]
  rw [hr]
  refine ⟨rfl, by simp [hi], by simp, ?_⟩
  have hget' : enumerated[i] = name := by
    rw [← hget, List.getD_eq_getElem _ _ hlt]
  simp [vector_at, hlt, hget']

/-- Witness for C18: display `B` is selected in `[A, B]` and the displays are
re-enumerated as `[B, A]`. -/
theorem refreshDisplays_keeps_display_witness :
    ((0 : Int) ≤ 1 ∧ (1 : Int) < (["A", "B"] : List String).length) ∧
      (["A", "B"] : List String).getD (1 : Int).toNat "" = "B" ∧
      "B" ≠ "" ∧ "B" ∈ ["B", "A"] ∧
      (refreshDisplays ["B", "A"] "" ["A", "B"] 1).1 = ["B", "A"] ∧
      vector_at ["B", "A"] (refreshDisplays ["B", "A"] "" ["A", "B"] 1).2 = .ok "B" :=
  ⟨by decide, rfl, by decide, by decide,
    (refreshDisplays_keeps_display ["B", "A"] "" ["A", "B"] 1 "B" (by decide) rfl (by decide)
      (by decide)).1,
    (refreshDisplays_keeps_display ["B", "A"] "" ["A", "B"] 1 "B" (by decide) rfl (by decide)
      (by decide)).2.2.2⟩

/-- C19 (counterexample): `capture` returns ok with no switch-display pending while
the queue keeps running and a further round is available; the task makes that one
capture call and ends, it does not call `capture` again. -/
theorem capture_ok_terminates :
    capture_loop "" two_ok_rounds ⟨["A"], "A"⟩ = .ok [.capture "A"] ∧
      capture_loop "" two_ok_rounds ⟨["A"], "A"⟩ ≠ .ok [.capture "A", .capture "A"] := by
  have h : capture_loop "" two_ok_rounds ⟨["A"], "A"⟩ = .ok [.capture "A"] := rfl
  refine ⟨h, ?_⟩
  rw [h]
  intro hne
  cases hne

/-- C19 (amended): in the main loop of the capture task, when `capture` returns ok,
timeout or interrupted with no switch-display pending, or returns error, the task
terminates after that call, whatever would follow; the task loops and calls `capture`
again only after a reinit (a reinit status, or a pending switch-display together with
a status other than error) whose reinit loop leaves it with a display. -/
theorem capture_status_handling (output_name : String) (round : capture_round)
    (rest : List capture_round) (s : capture_state) (hrun : round.queue_running = true) :
    (round.artificial_reinit = false →
        round.status = .ok ∨ round.status = .timeout ∨ round.status = .interrupted →
        capture_loop output_name (round :: rest) s = .ok [.capture s.current_display_name]) ∧
      (round.status = .error →
        capture_loop output_name (round :: rest) s = .ok [.capture s.current_display_name]) ∧
      (round.status = .reinit ∨ (round.artificial_reinit = true ∧ round.status ≠ .error) →
        ∀ log s', reinit_loop output_name round.reinit_rounds true s = .ok (log, some s') →
        capture_loop output_name (round :: rest) s =
          (capture_loop output_name rest s').map
            (fun more => .capture s.current_display_name :: log ++ more)) := by
  refine ⟨fun ha hs => ?_, fun hs => ?_, fun hs log s' hl => ?_⟩
  · rcases hs with hs | hs | hs <;>
      simp [capture_loop, hrun, effective_status, ha, hs]
  · simp [capture_loop, hrun, effective_status, hs]
  · have he : effective_status round = .reinit := by
      rcases hs with hs | ⟨ha, hs⟩
      · simp [effective_status, hs]
      · simp [effective_status, ha, hs]
    simp only [capture_loop, hrun, Bool.not_true, Bool.false_eq_true, if_false, he, hl]
    cases capture_loop output_name rest s' <;> rfl

/-- Witness for C19: the first of two rounds that both return ok. -/
theorem capture_status_handling_witness :
    (⟨true, .ok, false, []⟩ : capture_round).queue_running = true ∧
      capture_loop "" (⟨true, .ok, false, []⟩ :: [⟨true, .ok, false, []⟩]) ⟨["A"], "A"⟩
        = .ok [.capture "A"] :=
  ⟨rfl,
    (capture_status_handling "" ⟨true, .ok, false, []⟩ [⟨true, .ok, false, []⟩] ⟨["A"], "A"⟩
      rfl).1 rfl (Or.inl rfl)⟩

/-- C20 (the code departs from the claim): display `C` of `[A, B, C]` is captured, a
reinit occurs with no switch-display pending and the displays are re-enumerated as
`[A, C]`.  The previous name `C` is found at index 1 of the new list, but line 266
reads index 1 of the old list, so the display is requested under the name `B`. -/
theorem reinit_requests_other_display :
    first_index "C" ["A", "C"] = some 1 ∧
      reinit_select ⟨["A", "C"], [], none⟩ "" ⟨["A", "B", "C"], "C"⟩
        = .ok ⟨["A", "B", "C"], "B"⟩ ∧
      capture_loop "" unplugged_reinit ⟨["A", "B", "C"], "C"⟩
        = .ok [.capture "C", .request_display "B"] :=
  ⟨rfl, rfl, rfl⟩

/-! ## Encoding one frame -/

theorem inject_headers_zero {call : encode_call} {session : avcodec_encode_session_t}
    {av_packet : AVPacket} (h : session.inject = 0) :
    inject_headers call session av_packet = session := by
  simp [inject_headers, h]

theorem inject_headers_fields (call : encode_call) (session : avcodec_encode_session_t)
    (av_packet : AVPacket) :
    (inject_headers call session av_packet).inject = 0 ∧
      (inject_headers call session av_packet).displayIndex = session.displayIndex ∧
      (inject_headers call session av_packet).avcodec_ctx = session.avcodec_ctx := by
  unfold inject_headers
  by_cases h0 : session.inject = 0
  · simp [h0]
  · by_cases h1 : session.inject = 1
    · simp [h1]
    · simp [h0, h1]

theorem drain_packets_zero (call : encode_call) (frame_nr : Int) (channel_data : Nat)
    (frame_timestamp : Option Nat) (packets : List AVPacket)
    (session : avcodec_encode_session_t) (h : session.inject = 0) :
    (drain_packets call frame_nr channel_data frame_timestamp packets session).1 = session := by
  induction packets with
  | nil => rfl
  | cons p rest ih =>
    simp only [drain_packets, inject_headers_zero h]
    exact ih

theorem drain_packets_stamps (call : encode_call) (frame_nr : Int) (channel_data : Nat)
    (frame_timestamp : Option Nat) (packets : List AVPacket)
    (session : avcodec_encode_session_t) :
    (drain_packets call frame_nr channel_data frame_timestamp packets session).1.displayIndex
        = session.displayIndex ∧
      ∀ p ∈ (drain_packets call frame_nr channel_data frame_timestamp packets session).2,
        p.displayIndex = session.displayIndex ∧ p.channel_data = channel_data := by
  induction packets generalizing session with
  | nil => simp [drain_packets]
  | cons q rest ih =>
    obtain ⟨-, hd, -⟩ := inject_headers_fields call session q
    obtain ⟨h1, h2⟩ := ih (inject_headers call session q)
    simp only [drain_packets]
    refine ⟨by rw [h1, hd], ?_⟩
    intro p hp
    rcases List.mem_cons.mp hp with hp | hp
    · subst hp
      exact ⟨by simp [stamp_packet, hd], by simp [stamp_packet]⟩
    · obtain ⟨a, b⟩ := h2 p hp
      exact ⟨by rw [a, hd], b⟩

theorem encode_stamps (call : encode_call) (frame_nr : Int) (session : encode_session_t)
    (channel_data : Nat) (frame_timestamp : Option Nat) :
    (encode call frame_nr session channel_data frame_timestamp).session.displayIndex
        = session.displayIndex ∧
      ∀ p ∈ (encode call frame_nr session channel_data frame_timestamp).raised,
        p.displayIndex = session.displayIndex ∧ p.channel_data = channel_data := by
  cases session with
  | avcodec s =>
    simp only [encode, encode_session_t.displayIndex, encode_avcodec]
    split_ifs
    · simp
    · exact drain_packets_stamps call frame_nr channel_data frame_timestamp call.packets _
  | nvenc s =>
    simp only [encode, encode_session_t.displayIndex, encode_nvenc,
      nvenc_encode_session_t.encode_frame]
    split_ifs <;> simp

theorem makeEncodeSession_displayIndex {env : environment} {g : global_config}
    {disp : display_t} {encoder : encoder_t} {config : config_t} {width height : Int}
    {encode_device : encode_device_t} {session : encode_session_t}
    (h : makeEncodeSession env g disp encoder config width height encode_device = .ok session) :
    session.displayIndex = config.displayIndex := by
  unfold makeEncodeSession at h
  cases encode_device with
  | avcodec d =>
    simp only at h
    cases hm : make_avcodec_encode_session env g disp encoder config width height d with
    | error e => rw [hm] at h; cases h
    | ok s =>
      rw [hm] at h
      cases h
      obtain ⟨-, -, -, -, -, -, -, -, hd⟩ := make_avcodec_encode_session_ok hm
      exact hd
  | nvenc d =>
    simp only at h
    unfold make_nvenc_encode_session at h
    split_ifs at h
    · cases h
    · cases h
      rfl

/-- C12: for a session whose inject mode is not 0, the call of `encode_avcodec` in which
the session receives its first packet, an IDR packet, appends for that packet exactly
the SPS entry (inject mode 1) or the VPS entry and the SPS entry (any other mode, that
is mode 2 for HEVC) and clears the inject mode, whatever packets follow in the same
call; a call that receives no packet leaves the mode and the list unchanged; once the
inject mode is 0 no call adds an entry.  (`validate_config` admits only encoders whose
first packet is an IDR packet.) -/
theorem inject_once_per_idr_packet (call : encode_call) (frame_nr : Int)
    (session : avcodec_encode_session_t) (channel_data : Nat) (frame_timestamp : Option Nat) :
    (session.inject = 0 →
        (encode_avcodec call frame_nr session channel_data frame_timestamp).session.inject = 0 ∧
        (encode_avcodec call frame_nr session channel_data frame_timestamp).session.replacements
          = session.replacements) ∧
      (call.avcodec_send_frame < 0 ∨ call.packets = [] →
        (encode_avcodec call frame_nr session channel_data frame_timestamp).session.inject
          = session.inject ∧
        (encode_avcodec call frame_nr session channel_data frame_timestamp).session.replacements
          = session.replacements) ∧
      (∀ first rest, 0 ≤ call.avcodec_send_frame → call.packets = first :: rest →
        first.flags &&& AV_PKT_FLAG_KEY ≠ 0 → session.inject ≠ 0 →
        (encode_avcodec call frame_nr session channel_data frame_timestamp).session.inject = 0 ∧
        (encode_avcodec call frame_nr session channel_data frame_timestamp).session.replacements
          = if session.inject = 1 then
              session.replacements ++
                [((call.make_sps_h264 session.avcodec_ctx first).old,
                  (call.make_sps_h264 session.avcodec_ctx first)._new)]
            else
              session.replacements ++
                [((call.make_sps_hevc session.avcodec_ctx first).1.old,
                  (call.make_sps_hevc session.avcodec_ctx first).1._new),
                 ((call.make_sps_hevc session.avcodec_ctx first).2.old,
                  (call.make_sps_hevc session.avcodec_ctx first).2._new)]) := by
  refine ⟨fun h0 => ?_, fun hn => ?_, fun first rest hsend hp _ hinj => ?_⟩
  · have key := drain_packets_zero call frame_nr channel_data frame_timestamp call.packets
      { session with frame := { session.frame with pts := frame_nr } } h0
    unfold encode_avcodec
    simp only
    split_ifs
    · exact ⟨h0, rfl⟩
    · rw [key]
      exact ⟨h0, rfl⟩
  · unfold encode_avcodec
    simp only
    split_ifs with hs
    · exact ⟨rfl, rfl⟩
    · rcases hn with hn | hn
      · exact absurd hn hs
      · rw [hn]
        exact ⟨rfl, rfl⟩
  · unfold encode_avcodec
    simp only [not_lt.mpr hsend, if_false, hp, drain_packets]
    rw [drain_packets_zero call frame_nr channel_data frame_timestamp rest _
      (inject_headers_fields call _ first).1]
    refine ⟨(inject_headers_fields call _ first).1, ?_⟩
    unfold inject_headers
    by_cases h1 : session.inject = 1
    · simp [h1]
    · simp [hinj, h1]

/-- Witness for C12: the HEVC session with inject mode 2 receives an IDR packet followed
by another packet; the VPS and the SPS entry are appended once. -/
theorem inject_once_per_idr_packet_witness :
    (0 : Int) ≤ (sample_call [idr_packet, non_idr_packet]).avcodec_send_frame ∧
      (sample_call [idr_packet, non_idr_packet]).packets = idr_packet :: [non_idr_packet] ∧
      idr_packet.flags &&& AV_PKT_FLAG_KEY ≠ 0 ∧
      hevc_inject_session.inject = 2 ∧
      hevc_inject_session.replacements = [] ∧
      (encode_avcodec (sample_call [idr_packet, non_idr_packet]) 1 hevc_inject_session 0
          none).session.inject = 0 ∧
      (encode_avcodec (sample_call [idr_packet, non_idr_packet]) 1 hevc_inject_session 0
          none).session.replacements = [([2], [3]), ([0], [1])] :=
  ⟨by decide, rfl, by decide, rfl, rfl,
    ((inject_once_per_idr_packet (sample_call [idr_packet, non_idr_packet]) 1
      hevc_inject_session 0 none).2.2
      idr_packet [non_idr_packet] (by decide) rfl (by decide) (by decide)).1,
    ((inject_once_per_idr_packet (sample_call [idr_packet, non_idr_packet]) 1
      hevc_inject_session 0 none).2.2
      idr_packet [non_idr_packet] (by decide) rfl (by decide) (by decide)).2⟩

/-- C14: a session built by `makeEncodeSession` has the `displayIndex` of the client
config; every call of `encode` on a session with that `displayIndex`, of either variant,
keeps it and raises only packets that carry it together with the `channel_data` passed
to the call. -/
theorem packets_carry_display_index (env : environment) (g : global_config)
    (disp : display_t) (encoder : encoder_t) (config : config_t) (width height : Int)
    (encode_device : encode_device_t) (built : encode_session_t)
    (h : makeEncodeSession env g disp encoder config width height encode_device = .ok built)
    (session : encode_session_t) (hs : session.displayIndex = built.displayIndex)
    (call : encode_call) (frame_nr : Int) (channel_data : Nat)
    (frame_timestamp : Option Nat) :
    built.displayIndex = config.displayIndex ∧
      (encode call frame_nr session channel_data frame_timestamp).session.displayIndex
        = config.displayIndex ∧
      ∀ p ∈ (encode call frame_nr session channel_data frame_timestamp).raised,
        p.displayIndex = config.displayIndex ∧ p.channel_data = channel_data := by
  have hb := makeEncodeSession_displayIndex h
  obtain ⟨h1, h2⟩ := encode_stamps call frame_nr session channel_data frame_timestamp
  rw [hs, hb] at h1 h2
  exact ⟨hb, h1, h2⟩

/-- Witness for C14: the session built for display 2 encodes a frame that yields two
packets; both carry display index 2 and the channel data 7 of the call. -/
theorem packets_carry_display_index_witness :
    makeEncodeSession sample_environment sample_globals sample_display probed_software
        second_display_config 1920 1080 (.avcodec sample_device) = .ok second_display_session ∧
      second_display_config.displayIndex = 2 ∧
      (encode (sample_call [idr_packet, non_idr_packet]) 2 second_display_session 7
          none).raised.length = 2 ∧
      ∀ p ∈ (encode (sample_call [idr_packet, non_idr_packet]) 2 second_display_session 7
          none).raised,
        p.displayIndex = second_display_config.displayIndex ∧ p.channel_data = 7 :=
  ⟨rfl, rfl, rfl,
    (packets_carry_display_index sample_environment sample_globals sample_display
      probed_software second_display_config 1920 1080 (.avcodec sample_device)
      second_display_session rfl second_display_session rfl
      (sample_call [idr_packet, non_idr_packet]) 2 7 none).2.2⟩

/-! ## The encode loop -/

theorem count_from_length (start : Int) (n : Nat) : (count_from start n).length = n := by
  induction n generalizing start with
  | zero => rfl
  | succ n ih => simp [count_from, ih]

theorem frame_loop_numbers {channel_data : Nat} {iterations : List encode_iteration}
    {session : encode_session_t} {frameIndex last : Int} {log : List encode_event}
    (h : frame_loop channel_data iterations session frameIndex = .ok (last, log)) :
    frame_numbers log = count_from frameIndex (frame_numbers log).length ∧
      last = frameIndex + (frame_numbers log).length := by
  induction iterations generalizing session frameIndex last log with
  | nil =>
    simp only [frame_loop, Except.ok.injEq, Prod.mk.injEq] at h
    obtain ⟨rfl, rfl⟩ := h
    simp [frame_numbers, count_from]
  | cons iteration rest ih =>
    unfold frame_loop at h
    simp only at h
    repeat' split at h
    all_goals first
      | (cases h; done)
      | (simp only [Except.ok.injEq, Prod.mk.injEq] at h
         obtain ⟨rfl, rfl⟩ := h
         simp [frame_numbers, count_from]
         done)
      | (rename_i hrec
         simp only [Except.ok.injEq, Prod.mk.injEq] at h
         obtain ⟨rfl, rfl⟩ := h
         obtain ⟨h1, h2⟩ := ih hrec
         simp only [frame_numbers, List.length_cons, count_from]
         refine ⟨by rw [← h1], ?_⟩
         rw [h2]
         push_cast
         ring)

theorem raised_packets_index_mem {log : List encode_event}
    (hlib : ∀ frame_nr raised, encode_event.encode frame_nr raised ∈ log →
      raised.length ≤ 1 ∧ ∀ p ∈ raised, p.frame_index = frame_nr)
    {p : packet_raw_t} (hp : p ∈ raised_packets log) :
    p.frame_index ∈ frame_numbers log := by
  induction log with
  | nil => simp [raised_packets] at hp
  | cons e rest ih =>
    have hrest : ∀ frame_nr raised, encode_event.encode frame_nr raised ∈ rest →
        raised.length ≤ 1 ∧ ∀ p ∈ raised, p.frame_index = frame_nr :=
      fun n r hm => hlib n r (List.mem_cons_of_mem _ hm)
    cases e with
    | hdr_info enabled =>
      simp only [raised_packets] at hp
      simp only [frame_numbers]
      exact ih hrest hp
    | encode frame_nr raised =>
      simp only [raised_packets, List.mem_append] at hp
      simp only [frame_numbers, List.mem_cons]
      rcases hp with hp | hp
      · exact Or.inl ((hlib frame_nr raised (List.mem_cons_self _ _)).2 p hp)
      · exact Or.inr (ih hrest hp)

theorem raised_packets_pairwise {log : List encode_event}
    (hlib : ∀ frame_nr raised, encode_event.encode frame_nr raised ∈ log →
      raised.length ≤ 1 ∧ ∀ p ∈ raised, p.frame_index = frame_nr)
    (hnum : (frame_numbers log).Pairwise (· < ·)) :
    ((raised_packets log).map packet_raw_t.frame_index).Pairwise (· < ·) := by
  induction log with
  | nil => simp [raised_packets]
  | cons e rest ih =>
    have hrest : ∀ frame_nr raised, encode_event.encode frame_nr raised ∈ rest →
        raised.length ≤ 1 ∧ ∀ p ∈ raised, p.frame_index = frame_nr :=
      fun n r hm => hlib n r (List.mem_cons_of_mem _ hm)
    cases e with
    | hdr_info enabled =>
      simp only [raised_packets]
      simp only [frame_numbers] at hnum
      exact ih hrest hnum
    | encode frame_nr raised =>
      simp only [frame_numbers, List.pairwise_cons] at hnum
      obtain ⟨hlen, hidx⟩ := hlib frame_nr raised (List.mem_cons_self _ _)
      simp only [raised_packets, List.map_append]
      rw [List.pairwise_append]
      refine ⟨?_, ih hrest hnum.2, ?_⟩
      · match raised, hlen with
        | [], _ => simp
        | [_], _ => simp
      · intro a ha b hb
        obtain ⟨p, hp, rfl⟩ := List.mem_map.mp ha
        obtain ⟨q, hq, rfl⟩ := List.mem_map.mp hb
        rw [hidx p hp]
        exact hnum.1 _ (raised_packets_index_mem hrest hq)

theorem validate_at_keeps {worlds : Nat → probe_world} {g : global_config}
    {previous_encoder : Option Nat} {pos : Nat} {run result : probe_run} {valid : Bool}
    (h : validate_at worlds g previous_encoder pos run = .ok (valid, result)) :
    result.state.active_hevc_mode = run.state.active_hevc_mode ∧
      result.state.active_av1_mode = run.state.active_av1_mode ∧
      result.state.chosen_encoder = run.state.chosen_encoder := by
  unfold validate_at at h
  simp only at h
  repeat' split at h
  all_goals first
    | (cases h; done)
    | (simp only [Except.ok.injEq, Prod.mk.injEq] at h
       obtain ⟨-, rfl⟩ := h
       exact ⟨rfl, rfl, rfl⟩)

theorem codec_search_chosen {worlds : Nat → probe_world} {g : global_config}
    {previous_encoder : Option Nat} {encoder_list remaining : List Nat}
    {run result : probe_run} {pos : Nat} {encoder : encoder_t}
    (hnone : run.state.chosen_encoder = none)
    (h : codec_search worlds g previous_encoder encoder_list run = .ok (remaining, result))
    (hpos : result.state.chosen_encoder = some pos)
    (hencoder : result.state.encoders[pos]? = some encoder) :
    lacks_required_codec run.state encoder = false := by
  induction encoder_list generalizing run remaining with
  | nil =>
    simp only [codec_search, Except.ok.injEq, Prod.mk.injEq] at h
    obtain ⟨-, rfl⟩ := h
    rw [hnone] at hpos
    cases hpos
  | cons p rest ih =>
    unfold codec_search at h
    cases hv : validate_at worlds g previous_encoder p run with
    | error e => rw [hv] at h; cases h
    | ok vr =>
      obtain ⟨valid, run1⟩ := vr
      obtain ⟨hh, ha, hc⟩ := validate_at_keeps hv
      have hlacks : ∀ e, lacks_required_codec run.state e = lacks_required_codec run1.state e := by
        intro e
        simp only [lacks_required_codec, hh, ha]
      rw [hv] at h
      cases valid with
      | false =>
        simp only at h
        rw [hlacks]
        exact ih (hc.trans hnone) h
      | true =>
        simp only at h
        cases he : run1.state.encoders[p]? with
        | none => rw [he] at h; cases h
        | some enc =>
          rw [he] at h
          simp only at h
          by_cases hl : lacks_required_codec run1.state enc = true
          · rw [if_pos hl] at h
            cases hr : codec_search worlds g previous_encoder rest run1 with
            | error e => rw [hr] at h; cases h
            | ok r =>
              obtain ⟨l, r2⟩ := r
              rw [hr] at h
              simp only [Except.ok.injEq, Prod.mk.injEq] at h
              obtain ⟨-, rfl⟩ := h
              rw [hlacks]
              exact ih (hc.trans hnone) hr
          · rw [if_neg hl] at h
            simp only [Except.ok.injEq, Prod.mk.injEq] at h
            obtain ⟨-, rfl⟩ := h
            simp only [Option.some.injEq] at hpos
            subst hpos
            simp only at hencoder
            rw [he] at hencoder
            cases hencoder
            rw [hlacks]
            simpa using hl

theorem lacks_required_codec_false {state : probe_state} {encoder : encoder_t}
    (h : lacks_required_codec state encoder = false) :
    (state.active_hevc_mode ≥ 2 → encoder.hevc.get .PASSED = true) ∧
      (state.active_av1_mode ≥ 2 → encoder.av1.get .PASSED = true) := by
  simp only [lacks_required_codec, Bool.or_eq_false_iff, Bool.and_eq_false_iff,
    decide_eq_false_iff_not, Bool.not_eq_false_eq_eq_true, Bool.not_eq_eq_eq_not,
    Bool.not_false, Bool.not_true] at h
  obtain ⟨⟨h1, h2⟩, -⟩ := h
  refine ⟨fun hm => ?_, fun hm => ?_⟩
  · rcases h1 with h1 | h1
    · exact absurd hm h1
    · simpa using h1
  · rcases h2 with h2 | h2
    · exact absurd hm h2
    · simpa using h2

theorem named_search_keeps_modes {worlds : Nat → probe_world} {g : global_config}
    {previous_encoder : Option Nat} {encoder_list remaining : List Nat}
    {run result : probe_run}
    (h : named_search worlds g previous_encoder encoder_list run = .ok (remaining, result))
    (hnone : result.state.chosen_encoder = none) :
    result.state.active_hevc_mode = run.state.active_hevc_mode ∧
      result.state.active_av1_mode = run.state.active_av1_mode := by
  induction encoder_list generalizing remaining with
  | nil =>
    simp only [named_search, Except.ok.injEq, Prod.mk.injEq] at h
    obtain ⟨-, rfl⟩ := h
    exact ⟨rfl, rfl⟩
  | cons p rest ih =>
    unfold named_search at h
    cases he : run.state.encoders[p]? with
    | none => rw [he] at h; cases h
    | some enc =>
      rw [he] at h
      simp only at h
      by_cases hn : enc.name = g.encoder
      · rw [if_pos hn] at h
        cases hv : validate_at worlds g previous_encoder p run with
        | error e => rw [hv] at h; cases h
        | ok vr =>
          obtain ⟨valid, run1⟩ := vr
          obtain ⟨hh, ha, -⟩ := validate_at_keeps hv
          rw [hv] at h
          cases valid with
          | false =>
            simp only [Except.ok.injEq, Prod.mk.injEq] at h
            obtain ⟨-, rfl⟩ := h
            exact ⟨hh, ha⟩
          | true =>
            simp only at h
            unfold choose_adjusted at h
            cases he1 : run1.state.encoders[p]? with
            | none => rw [he1] at h; cases h
            | some enc1 =>
              rw [he1] at h
              simp only [Except.ok.injEq, Prod.mk.injEq] at h
              obtain ⟨-, rfl⟩ := h
              cases hnone
      · rw [if_neg hn] at h
        cases hr : named_search worlds g previous_encoder rest run with
        | error e => rw [hr] at h; cases h
        | ok r =>
          obtain ⟨l, r2⟩ := r
          rw [hr] at h
          simp only [Except.ok.injEq, Prod.mk.injEq] at h
          obtain ⟨-, rfl⟩ := h
          exact ih hr

/-- C15, counterexample: HEVC is required (`hevc_mode = 2`), the table holds the
encoder `software`, and the display does not support HEVC.  The codec-constrained
search skips the encoder, the fallback search selects it: `probe_encoders` returns 0
with `software` chosen although its HEVC `PASSED` bit is clear.  The same happens when
`software` is named in the configuration. -/
theorem probe_selects_encoder_without_hevc :
    hevc_required_globals.hevc_mode = 2 ∧
      probe_encoders [] false no_hevc_worlds hevc_required_globals
          (initial_probe_state [software]) = .ok (0, hevc_required_run) ∧
      hevc_required_run.state.chosen_encoder = some 0 ∧
      hevc_required_run.state.encoders.map (fun e => e.hevc.get .PASSED) = [false] ∧
      named_software_globals.hevc_mode = 2 ∧
      probe_encoders [] false no_hevc_worlds named_software_globals
          (initial_probe_state [software]) = .ok (0, named_software_run) ∧
      named_software_run.state.chosen_encoder = some 0 ∧
      named_software_run.state.encoders.map (fun e => e.hevc.get .PASSED) = [false] :=
  ⟨rfl, rfl, rfl, rfl, rfl, rfl, rfl, rfl⟩

/-- C15, amended: the codec-constrained search of `probe_encoders` (lines 850-876),
started with no encoder chosen and the active modes equal to the configured ones,
selects only an encoder whose `PASSED` bit is set for every codec that the configured
mode requires (`hevc_mode >= 2` for HEVC, `av1_mode >= 2` for AV1). -/
theorem codec_search_requires_codec (worlds : Nat → probe_world) (g : global_config)
    (previous_encoder : Option Nat) (encoder_list remaining : List Nat)
    (run result : probe_run) (pos : Nat) (encoder : encoder_t)
    (hnone : run.state.chosen_encoder = none)
    (hhevc : run.state.active_hevc_mode = g.hevc_mode)
    (hav1 : run.state.active_av1_mode = g.av1_mode)
    (h : codec_search worlds g previous_encoder encoder_list run = .ok (remaining, result))
    (hpos : result.state.chosen_encoder = some pos)
    (hencoder : result.state.encoders[pos]? = some encoder) :
    (g.hevc_mode ≥ 2 → encoder.hevc.get .PASSED = true) ∧
      (g.av1_mode ≥ 2 → encoder.av1.get .PASSED = true) := by
  have := lacks_required_codec_false (codec_search_chosen hnone h hpos hencoder)
  rw [hhevc, hav1] at this
  exact this

/-- Witness for C15: with HEVC required and a display that supports it, the
codec-constrained search selects `software` with its HEVC `PASSED` bit set. -/
theorem codec_search_requires_codec_witness :
    hevc_search_start.state.chosen_encoder = none ∧
      hevc_search_start.state.active_hevc_mode = hevc_required_globals.hevc_mode ∧
      hevc_search_start.state.active_av1_mode = hevc_required_globals.av1_mode ∧
      codec_search sample_worlds hevc_required_globals none [0] hevc_search_start
        = .ok hevc_search_result ∧
      hevc_search_result.2.state.chosen_encoder = some 0 ∧
      hevc_search_result.2.state.encoders[0]? = some probed_software ∧
      hevc_required_globals.hevc_mode ≥ 2 ∧
      probed_software.hevc.get .PASSED = true :=
  ⟨rfl, rfl, rfl, rfl, rfl, rfl, by decide,
    (codec_search_requires_codec sample_worlds hevc_required_globals none [0]
      hevc_search_result.1 hevc_search_start hevc_search_result.2 0 probed_software
      rfl rfl rfl rfl rfl rfl).1 (by decide)⟩

/-- C17: when probing is allowed, an encoder is chosen, that encoder lacks
`ALWAYS_REPROBE` and the platform reports no change of the device set,
`probe_encoders` returns 0 without a single `validateEncoder` call and leaves every
global unchanged: the chosen encoder, both active modes and every encoder descriptor
with its capability matrices. -/
theorem probe_encoders_keeps_encoder (devices : List Bool)
    (needs_encoder_reenumeration : Bool) (worlds : Nat → probe_world) (g : global_config)
    (state : probe_state) (chosen : Nat) (encoder : encoder_t)
    (hallow : allow_encoder_probing devices = true)
    (hchosen : state.chosen_encoder = some chosen)
    (hencoder : state.encoders[chosen]? = some encoder)
    (hflag : has_flag encoder.flags ALWAYS_REPROBE = false)
    (hsame : needs_encoder_reenumeration = false) :
    probe_encoders devices needs_encoder_reenumeration worlds g state
      = .ok (0, { state := state, validations := 0 }) := by
  unfold probe_encoders
  simp [hallow, hchosen, hencoder, hflag, hsame]

/-- Witness for C17: `vaapi` is chosen from the table `[vaapi, software]` and one
display device is active. -/
theorem probe_encoders_keeps_encoder_witness :
    allow_encoder_probing [true] = true ∧
      vaapi_chosen_state.chosen_encoder = some 0 ∧
      vaapi_chosen_state.encoders[0]? = some vaapi ∧
      has_flag vaapi.flags ALWAYS_REPROBE = false ∧
      probe_encoders [true] false sample_worlds hevc_required_globals vaapi_chosen_state
        = .ok (0, { state := vaapi_chosen_state, validations := 0 }) :=
  ⟨rfl, rfl, rfl, by decide,
    probe_encoders_keeps_encoder [true] false sample_worlds hevc_required_globals
      vaapi_chosen_state 0 vaapi rfl rfl rfl (by decide) rfl⟩

/-! ## Switching displays during reinit -/

theorem refreshDisplays_ne_nil (enumerated : List String) (output_name : String)
    (display_names : List String) (current_display_index : Int) :
    (refreshDisplays enumerated output_name display_names current_display_index).1 ≠ [] := by
  unfold refreshDisplays
  simp only
  cases enumerated with
  | nil =>
    cases display_names with
    | nil =>
      simp
      repeat' split
      all_goals simp
    | cons a l => simp
  | cons a l =>
    simp
    repeat' split
    all_goals simp

theorem clamp_eq_max_min (v hi : Int) (h : 0 ≤ hi) : clamp v 0 hi = max 0 (min v hi) := by
  unfold clamp
  split_ifs <;> omega

theorem vector_at_clamped (names : List String) (v : Int) (h : names ≠ []) :
    vector_at names (clamp v 0 ((names.length : Int) - 1))
      = .ok (names.getD (clamp v 0 ((names.length : Int) - 1)).toNat "") := by
  have hlen : 0 < names.length := List.length_pos.mpr h
  unfold vector_at
  rw [if_pos]
  unfold clamp
  split_ifs <;> omega

/-- C21: when a switch-display request is pending in a round of the reinit loop, the
index used is the request clamped to the bounds of `display_names`,
`max(0, min(requested, size - 1))`, for every requested value, and the display chosen is
the name at that index. -/
theorem switch_display_clamped (obs : reinit_observation) (output_name : String)
    (s : capture_state) (requested : Int)
    (hswitch : obs.switch_display = some requested) (hnames : s.display_names ≠ []) :
    ∃ chosen : capture_state,
      reinit_select obs output_name s = .ok chosen ∧
      0 ≤ max 0 (min requested ((chosen.display_names.length : Int) - 1)) ∧
      max 0 (min requested ((chosen.display_names.length : Int) - 1))
        < chosen.display_names.length ∧
      vector_at chosen.display_names
          (max 0 (min requested ((chosen.display_names.length : Int) - 1)))
        = .ok chosen.current_display_name := by
  have key : ∀ names : List String, names ≠ [] →
      ∃ chosen : capture_state,
        (match vector_at names (clamp requested 0 ((names.length : Int) - 1)) with
          | .error e => (Except.error e : Except failure capture_state)
          | .ok name => Except.ok ⟨names, name⟩)
          = .ok chosen ∧
        0 ≤ max 0 (min requested ((chosen.display_names.length : Int) - 1)) ∧
        max 0 (min requested ((chosen.display_names.length : Int) - 1))
          < chosen.display_names.length ∧
        vector_at chosen.display_names
            (max 0 (min requested ((chosen.display_names.length : Int) - 1)))
          = .ok chosen.current_display_name := by
    intro names hne
    have hlen : 0 < names.length := List.length_pos.mpr hne
    refine ⟨⟨names, names.getD (clamp requested 0 ((names.length : Int) - 1)).toNat ""⟩, ?_, ?_, ?_, ?_⟩
    · rw [vector_at_clamped names requested hne]
    · omega
    · simp only
      omega
    · simp only
      rw [← clamp_eq_max_min requested _ (by omega)]
      exact vector_at_clamped names requested hne
  unfold reinit_select
  simp only [hswitch]
  split_ifs with hfound
  · exact key _ (refreshDisplays_ne_nil _ _ _ _)
  · exact key _ hnames

/-- Witness for C21: displays `[A, B]` with `A` active and the request
`switch_display(1)`; the chosen display is `B`. -/
theorem switch_display_clamped_witness :
    (⟨["A", "B"], [], some 1⟩ : reinit_observation).switch_display = some 1 ∧
      (⟨["A", "B"], "A"⟩ : capture_state).display_names ≠ [] ∧
      reinit_select ⟨["A", "B"], [], some 1⟩ "" ⟨["A", "B"], "A"⟩ = .ok ⟨["A", "B"], "B"⟩ ∧
      ∃ chosen : capture_state,
        reinit_select ⟨["A", "B"], [], some 1⟩ "" ⟨["A", "B"], "A"⟩ = .ok chosen ∧
        0 ≤ max 0 (min 1 ((chosen.display_names.length : Int) - 1)) ∧
        max 0 (min 1 ((chosen.display_names.length : Int) - 1))
          < chosen.display_names.length ∧
        vector_at chosen.display_names
            (max 0 (min 1 ((chosen.display_names.length : Int) - 1)))
          = .ok chosen.current_display_name :=
  ⟨rfl, by decide, rfl,
    switch_display_clamped ⟨["A", "B"], [], some 1⟩ "" ⟨["A", "B"], "A"⟩ 1 rfl (by decide)⟩

/-! ## The coordinator -/

theorem removePort_ports {F : Type} (touchPorts : touch_ports F) (displayIndex : Int) :
    (removePort touchPorts displayIndex).ports = map_erase displayIndex touchPorts.ports := by
  have habsent : ∀ m : List (Int × touch_port_t F),
      map_find displayIndex m = none → map_erase displayIndex m = m := by
    intro m
    induction m with
    | nil => intro _; rfl
    | cons b rest ih =>
      obtain ⟨k, v⟩ := b
      intro h
      simp only [map_find] at h
      simp only [map_erase]
      split_ifs at h with hk
      · rw [if_neg hk, ih h]
  unfold removePort
  by_cases hc : map_contains displayIndex touchPorts.ports = true
  · rw [if_pos hc]
    simp only
    split <;> simp_all
  · rw [if_neg hc]
    simp only [map_contains, Option.isSome_iff_ne_none, ne_eq, not_not] at hc
    exact (habsent _ hc).symm

theorem stop_matching_none {F : Type} (displayIndex : Int) (sessions : List capture_session_t)
    (i : Nat) (touchPorts : touch_ports F) (index : Int)
    (h : ∀ s ∈ sessions, s.sessionIndex ≠ displayIndex) :
    stop_matching displayIndex sessions i touchPorts index
      = { sessions := sessions, touchPorts := touchPorts, index := index, raised := [] } := by
  induction sessions generalizing i with
  | nil => rfl
  | cons s rest ih =>
    have hs := h s (List.mem_cons_self _ _)
    simp only [stop_matching, if_neg hs]
    rw [ih (i + 1) (fun x hx => h x (List.mem_cons_of_mem _ hx))]

theorem filter_of_none (displayIndex : Int) (sessions : List capture_session_t)
    (h : ∀ s ∈ sessions, s.sessionIndex ≠ displayIndex) :
    sessions.filter (fun s => s.sessionIndex != displayIndex) = sessions := by
  rw [List.filter_eq_self]
  intro s hs
  simpa using h s hs

theorem stop_matching_some {F : Type} (displayIndex : Int) (sessions : List capture_session_t)
    (i : Nat) (touchPorts : touch_ports F) (index : Int)
    (hdistinct : (sessions.map (fun s => s.sessionIndex)).Nodup)
    (h : ∃ s ∈ sessions, s.sessionIndex = displayIndex) :
    (i : Int) ≤ (stop_matching displayIndex sessions i touchPorts index).index ∧
      (stop_matching displayIndex sessions i touchPorts index).sessions.eraseIdx
          ((stop_matching displayIndex sessions i touchPorts index).index - i).toNat
        = sessions.filter (fun s => s.sessionIndex != displayIndex) ∧
      (stop_matching displayIndex sessions i touchPorts index).touchPorts
        = removePort touchPorts displayIndex ∧
      (stop_matching displayIndex sessions i touchPorts index).raised
        = [removePort touchPorts displayIndex] := by
  induction sessions generalizing i index with
  | nil => obtain ⟨s, hs, -⟩ := h; cases hs
  | cons s rest ih =>
    simp only [List.map_cons, List.nodup_cons, List.mem_map, not_exists, not_and] at hdistinct
    obtain ⟨hhead, hrest⟩ := hdistinct
    by_cases hs : s.sessionIndex = displayIndex
    · have hnone : ∀ x ∈ rest, x.sessionIndex ≠ displayIndex :=
        fun x hx hxe => hhead x hx (hxe.trans hs.symm)
      simp only [stop_matching, if_pos hs]
      rw [stop_matching_none displayIndex rest (i + 1) _ i hnone]
      simp only [sub_self, Int.toNat_zero, List.eraseIdx_cons_zero, le_refl, true_and, and_true]
      rw [List.filter_cons_of_neg (by simpa using hs), filter_of_none displayIndex rest hnone]
    · have hin : ∃ x ∈ rest, x.sessionIndex = displayIndex := by
        obtain ⟨x, hx, hxe⟩ := h
        rcases List.mem_cons.mp hx with rfl | hx
        · exact absurd hxe hs
        · exact ⟨x, hx, hxe⟩
      obtain ⟨h1, h2, h3, h4⟩ := ih (i + 1) index hrest hin
      simp only [stop_matching, if_neg hs]
      push_cast at h1
      refine ⟨by omega, ?_, h3, h4⟩
      have hidx : ((stop_matching displayIndex rest (i + 1) touchPorts index).index - (i : Int)).toNat
          = ((stop_matching displayIndex rest (i + 1) touchPorts index).index
              - ((i + 1 : Nat) : Int)).toNat + 1 := by
        push_cast
        omega
      rw [hidx, List.eraseIdx_cons_succ, h2, List.filter_cons_of_pos (by simpa using hs)]

/-- C22: two sessions, for displays 0 and 1, and the event `close_window(1)`.  The
session of display 1 is cancelled and its touch port removed, but it is the last of the
list: `sessions.erase` returns `end()` and line 738 dereferences it, so the handling of
the event has no defined result.  The same holds for the last of three sessions, while
closing the first or the middle one leaves the two others. -/
theorem close_window_last_session_undefined :
    [running_session 0, running_session 1].length > 1 ∧
      ([running_session 0, running_session 1].map (fun s => s.sessionIndex)).Nodup ∧
      (stop_matching 1 [running_session 0, running_session 1] 0 two_ports (-1)).index = 1 ∧
      (stop_matching 1 [running_session 0, running_session 1] 0 two_ports (-1)).sessions
        = [running_session 0, (running_session 1).cancel] ∧
      close_window 1 [running_session 0, running_session 1] two_ports = .error .undefined ∧
      close_window 2 [running_session 0, running_session 1, running_session 2] three_ports
        = .error .undefined ∧
      (close_window 1 [running_session 0, running_session 1, running_session 2]
          three_ports).map (fun r => r.1) = .ok [running_session 0, running_session 2] :=
  ⟨by decide, by decide, by decide, by decide, rfl, rfl, rfl⟩

/-! ## The H.264 stage of validateEncoder -/

/-- C23, counterexample: the ref-limit trial of H.264 succeeds and the autoselect trial
would fail; `validateEncoder` does not make the autoselect trial and accepts the
encoder. -/
theorem ref_limit_success_skips_autoselect :
    config_max_ref_frames.numRefFrames = 1 ∧ config_autoselect.numRefFrames = 0 ∧
      validate_config sample_environment ref_limit_only_probe sample_globals sample_display
          software.set_all_capabilities config_max_ref_frames = .ok 1 ∧
      validate_config sample_environment ref_limit_only_probe sample_globals sample_display
          software.set_all_capabilities config_autoselect = .ok (-1) ∧
      validateEncoder sample_environment ref_limit_only_probe sample_globals 0 0 software false
        = .ok (true, ref_limit_only_software) :=
  ⟨rfl, rfl, rfl, rfl, rfl⟩

/-- C23, amended: with the display acquired and H.264 supported, `validateEncoder`
probes H.264 with the ref-limit config (`numRefFrames = 1`) first and with the
autoselect config (`numRefFrames = 0`) only when that trial fails; with `expect_failure`
the autoselect config is probed first and the ref-limit config after it succeeded.  For
both values of `expect_failure` the encoder is rejected when the autoselect trial is
made and fails.  When the ref-limit trial succeeds first, the autoselect config is not
probed: its result is taken to be that of the ref-limit trial. -/
theorem h264_probe_order (env : environment) (penv : probe_environment) (g : global_config)
    (active_hevc_mode active_av1_mode : Int) (encoder : encoder_t) (expect_failure : Bool)
    (disp : display_t) (max_ref_frames autoselect : Int)
    (hdisp : resetDisplay penv encoder.platform_formats.dev_type
      (penv.map_output_name g.output_name) config_autoselect = some disp)
    (hsupported : disp.is_codec_supported encoder.h264.name config_autoselect = true)
    (href : validate_config env penv g disp encoder.set_all_capabilities config_max_ref_frames
      = .ok max_ref_frames)
    (hauto : validate_config env penv g disp encoder.set_all_capabilities config_autoselect
      = .ok autoselect) :
    (expect_failure = true → autoselect < 0 →
        validateEncoder env penv g active_hevc_mode active_av1_mode encoder expect_failure
          = .ok (false, encoder.set_all_capabilities)) ∧
      (expect_failure = false → max_ref_frames < 0 → autoselect < 0 →
        validateEncoder env penv g active_hevc_mode active_av1_mode encoder expect_failure
          = .ok (false, encoder.set_all_capabilities)) ∧
      ((expect_failure = true ∨ max_ref_frames < 0) → autoselect ≥ 0 →
        validateEncoder env penv g active_hevc_mode active_av1_mode encoder expect_failure
          = validate_codecs env penv g
              (decide (active_hevc_mode ≥ 2) ||
                (decide (active_hevc_mode = 0) && !has_flag encoder.flags H264_ONLY))
              (decide (active_av1_mode ≥ 2) ||
                (decide (active_av1_mode = 0) && !has_flag encoder.flags H264_ONLY))
              (penv.map_output_name g.output_name) disp config_max_ref_frames
              config_autoselect max_ref_frames autoselect encoder.set_all_capabilities) ∧
      (expect_failure = false → max_ref_frames ≥ 0 →
        validateEncoder env penv g active_hevc_mode active_av1_mode encoder expect_failure
          = validate_codecs env penv g
              (decide (active_hevc_mode ≥ 2) ||
                (decide (active_hevc_mode = 0) && !has_flag encoder.flags H264_ONLY))
              (decide (active_av1_mode ≥ 2) ||
                (decide (active_av1_mode = 0) && !has_flag encoder.flags H264_ONLY))
              (penv.map_output_name g.output_name) disp config_max_ref_frames
              config_autoselect max_ref_frames max_ref_frames encoder.set_all_capabilities) := by
  have hplat : encoder.set_all_capabilities.platform_formats = encoder.platform_formats := rfl
  have hname : encoder.set_all_capabilities.h264.name = encoder.h264.name := rfl
  have hflags : encoder.set_all_capabilities.flags = encoder.flags := rfl
  have hunfold : validateEncoder env penv g active_hevc_mode active_av1_mode encoder
      expect_failure
      = validate_h264 env penv g
          (decide (active_hevc_mode ≥ 2) ||
            (decide (active_hevc_mode = 0) && !has_flag encoder.flags H264_ONLY))
          (decide (active_av1_mode ≥ 2) ||
            (decide (active_av1_mode = 0) && !has_flag encoder.flags H264_ONLY))
          (penv.map_output_name g.output_name) encoder.set_all_capabilities expect_failure := rfl
  rw [hunfold]
  unfold validate_h264
  simp only [config_autoselect, config_max_ref_frames] at hdisp hsupported href hauto ⊢
  simp only [hplat, hname, hdisp, hsupported, Bool.not_true, Bool.false_eq_true, if_false]
  cases expect_failure with
  | true =>
    simp only [if_true, hauto, href, true_or, forall_const, false_imp_iff, and_true,
      Bool.true_eq_false, show ¬((-1 : Int) ≥ 0) by decide, if_false, reduceCtorEq]
    refine ⟨fun h => ?_, trivial, fun h => ?_⟩
    · rw [if_pos h]
    · rw [if_neg (not_lt.mpr h)]
  | false =>
    simp only [Bool.false_eq_true, if_false, href, false_imp_iff, true_and, forall_const,
      false_or]
    refine ⟨fun h1 h2 => ?_, fun h1 h2 => ?_, fun h1 => ?_⟩
    · rw [if_neg (not_le.mpr h1)]
      simp only [hauto, if_pos h2]
    · rw [if_neg (not_le.mpr h1)]
      simp only [hauto, if_neg (not_lt.mpr h2)]
    · rw [if_pos h1]
      simp only [if_neg (not_lt.mpr h1)]

/-- Witness for C23: in `failing_probe` both H.264 trials of `software` fail and the
encoder is rejected. -/
theorem h264_probe_order_witness :
    resetDisplay failing_probe software.platform_formats.dev_type
        (failing_probe.map_output_name sample_globals.output_name) config_autoselect
        = some sample_display ∧
      sample_display.is_codec_supported software.h264.name config_autoselect = true ∧
      validate_config sample_environment failing_probe sample_globals sample_display
          software.set_all_capabilities config_max_ref_frames = .ok (-1) ∧
      validate_config sample_environment failing_probe sample_globals sample_display
          software.set_all_capabilities config_autoselect = .ok (-1) ∧
      validateEncoder sample_environment failing_probe sample_globals 0 0 software false
        = .ok (false, software.set_all_capabilities) :=
  ⟨rfl, rfl, rfl, rfl,
    (h264_probe_order sample_environment failing_probe sample_globals 0 0 software false
      sample_display (-1) (-1) rfl rfl rfl rfl).2.1 rfl (by decide) (by decide)⟩

/-! ## Failing probes, the frame-rate divisor, stale display indices and pop timeouts -/

/-- C24: HEVC is probed on a display that supports it and both trials fail.
`validateEncoder` returns true with the HEVC `PASSED` and `REF_FRAMES_RESTRICT` bits
clear, but the bits `DYNAMIC_RANGE`, `YUV444` and `VUI_PARAMETERS` are still set. -/
theorem failed_probe_keeps_capabilities :
    sample_display.is_codec_supported software.hevc.name
        { config_autoselect with videoFormat := 1 } = true ∧
      validate_config sample_environment hevc_failing_probe sample_globals sample_display
          software.set_all_capabilities { config_max_ref_frames with videoFormat := 1 }
        = .ok (-1) ∧
      validate_config sample_environment hevc_failing_probe sample_globals sample_display
          software.set_all_capabilities { config_autoselect with videoFormat := 1 }
        = .ok (-1) ∧
      validateEncoder sample_environment hevc_failing_probe sample_globals 2 0 software false
        = .ok (true, hevc_failed_software) ∧
      hevc_failed_software.hevc.get .PASSED = false ∧
      hevc_failed_software.hevc.get .REF_FRAMES_RESTRICT = false ∧
      hevc_failed_software.hevc.get .DYNAMIC_RANGE = true ∧
      hevc_failed_software.hevc.get .YUV444 = true ∧
      hevc_failed_software.hevc.get .VUI_PARAMETERS = true :=
  ⟨rfl, rfl, rfl, rfl, rfl, rfl, rfl, rfl, rfl⟩

/-- C30: with `hevc_mode = 3`, the table `[software]` and every HEVC trial failing,
`probe_encoders` returns 0 with `software` chosen and `active_hevc_mode = 3` although
the HEVC `PASSED` bit of `software` is clear: its `DYNAMIC_RANGE` bit is still set, so
`adjust_encoder_constraints` does not lower the mode. -/
theorem active_mode_without_codec :
    hdr_required_globals.hevc_mode = 3 ∧ hdr_required_globals.av1_mode = 0 ∧
      probe_encoders [] false hevc_failing_worlds hdr_required_globals
          (initial_probe_state [software]) = .ok (0, hdr_required_run) ∧
      hdr_required_run.state.chosen_encoder = some 0 ∧
      hdr_required_run.state.active_hevc_mode = 3 ∧
      hdr_required_run.state.active_av1_mode = 1 ∧
      hdr_required_run.state.encoders.map (fun e => e.hevc.get .PASSED) = [false] ∧
      hdr_required_run.state.encoders.map (fun e => e.hevc.get .DYNAMIC_RANGE) = [true] :=
  ⟨rfl, rfl, rfl, rfl, rfl, rfl, rfl, rfl⟩

/-- C28: the encoder `software` lacks `NO_RC_BUF_LIMIT` and the client asks for HEVC at
one frame per second; `(config.framerate * 10) / 15` is 0 and the session factory
divides the bitrate by it. -/
theorem one_fps_divides_by_zero :
    one_fps_config.framerate > 0 ∧
      has_flag probed_software.flags NO_RC_BUF_LIMIT = false ∧
      Int.tdiv (wrap32 (one_fps_config.framerate * 10)) 15 = 0 ∧
      int_div (effective_bitrate sample_globals one_fps_config)
          (Int.tdiv (wrap32 (one_fps_config.framerate * 10)) 15) = .error .undefined ∧
      make_avcodec_encode_session sample_environment sample_globals sample_display
          probed_software one_fps_config 1920 1080 sample_device = .error .undefined :=
  ⟨by decide, by decide, by decide, rfl, rfl⟩

/-- C29: with the name list `[A]`, an index outside the list (-1, or 1) and an empty
re-enumeration, `refreshDisplays` puts the old list back and returns without touching
the index; the caller's `display_names[current_display_index]` is then outside the
list, in the reinit loop (index -1) as well as at the start of `captureThread`. -/
theorem refreshDisplays_keeps_invalid_index :
    refreshDisplays [] "" ["A"] (-1) = (["A"], -1) ∧
      refreshDisplays [] "" ["A"] 1 = (["A"], 1) ∧
      vector_at (refreshDisplays [] "" ["A"] (-1)).1 (refreshDisplays [] "" ["A"] (-1)).2
        = .error .undefined ∧
      reinit_select ⟨["B"], [], none⟩ "" ⟨["A"], "A"⟩ = .error .undefined ∧
      captureThread "" ⟨true, ["A"], [], true⟩ 1 [] = .error .undefined :=
  ⟨by decide, by decide, rfl, rfl, rfl⟩

/-- C27, counterexample: no IDR frame is requested and the pop times out while the
image queue keeps running; the loop still calls `encode` with frame number 5, a packet
is raised, and the frame index advances to 6. -/
theorem timeout_still_encodes :
    (timeout_iteration (sample_call [non_idr_packet])).idr = false ∧
      (timeout_iteration (sample_call [non_idr_packet])).pop = none ∧
      (timeout_iteration (sample_call [non_idr_packet])).running_after_pop = true ∧
      frame_loop 7 [timeout_iteration (sample_call [non_idr_packet])]
          (.avcodec hevc_scenario_session) 5
        = .ok (6, [.encode 5 [⟨.avcodec non_idr_packet, true, 7, false, none, 0⟩]]) :=
  ⟨rfl, rfl, rfl, rfl⟩

/-- C27, amended: in an iteration that is not left at its head, with no IDR frame
requested and a pop that times out while the image queue keeps running, the loop goes
on to call `encode` with the current frame index and without a frame timestamp; the
packets of that call are raised and the frame index is advanced, whether or not the
call succeeds. -/
theorem timeout_falls_through_to_encode (channel_data : Nat) (iteration : encode_iteration)
    (rest : List encode_iteration) (session : encode_session_t) (frameIndex : Int)
    (hhead : (iteration.shutdown || !iteration.images_running
      || (iteration.reinit && decide (frameIndex > 1))) = false)
    (hidr : iteration.idr = false) (hpop : iteration.pop = none)
    (hrunning : iteration.running_after_pop = true) (hmax : frameIndex ≠ INT_MAX) :
    acquire_image iteration false = some none ∧
      frame_loop channel_data (iteration :: rest) session frameIndex
        = (if (encode iteration.call frameIndex
                (iteration.invalidations.foldl
                  (fun s invalidated => s.invalidate_ref_frames invalidated) session)
                channel_data none).status != 0 then
            .ok (frameIndex + 1,
              [.encode frameIndex
                (encode iteration.call frameIndex
                  (iteration.invalidations.foldl
                    (fun s invalidated => s.invalidate_ref_frames invalidated) session)
                  channel_data none).raised])
          else
            match frame_loop channel_data rest
                (encode iteration.call frameIndex
                  (iteration.invalidations.foldl
                    (fun s invalidated => s.invalidate_ref_frames invalidated) session)
                  channel_data none).session.request_normal_frame (frameIndex + 1) with
            | .error e => .error e
            | .ok (last, log) =>
              .ok (last,
                .encode frameIndex
                  (encode iteration.call frameIndex
                    (iteration.invalidations.foldl
                      (fun s invalidated => s.invalidate_ref_frames invalidated) session)
                    channel_data none).raised :: log)) ∧
      ∀ last log,
        frame_loop channel_data (iteration :: rest) session frameIndex = .ok (last, log) →
        frameIndex + 1 ≤ last ∧
        log.head? = some (.encode frameIndex
          (encode iteration.call frameIndex
            (iteration.invalidations.foldl
              (fun s invalidated => s.invalidate_ref_frames invalidated) session)
            channel_data none).raised) := by
  have hacq : acquire_image iteration false = some none := by
    simp [acquire_image, hpop, hrunning]
  have heq : frame_loop channel_data (iteration :: rest) session frameIndex
      = (if (encode iteration.call frameIndex
                (iteration.invalidations.foldl
                  (fun s invalidated => s.invalidate_ref_frames invalidated) session)
                channel_data none).status != 0 then
            .ok (frameIndex + 1,
              [.encode frameIndex
                (encode iteration.call frameIndex
                  (iteration.invalidations.foldl
                    (fun s invalidated => s.invalidate_ref_frames invalidated) session)
                  channel_data none).raised])
          else
            match frame_loop channel_data rest
                (encode iteration.call frameIndex
                  (iteration.invalidations.foldl
                    (fun s invalidated => s.invalidate_ref_frames invalidated) session)
                  channel_data none).session.request_normal_frame (frameIndex + 1) with
            | .error e => .error e
            | .ok (last, log) =>
              .ok (last,
                .encode frameIndex
                  (encode iteration.call frameIndex
                    (iteration.invalidations.foldl
                      (fun s invalidated => s.invalidate_ref_frames invalidated) session)
                    channel_data none).raised :: log)) := by
    rw [frame_loop]
    simp only [hhead, Bool.false_eq_true, if_false, hidr, hacq, if_neg hmax]
  refine ⟨hacq, heq, fun last log h => ?_⟩
  rw [heq] at h
  split_ifs at h with hs
  · simp only [Except.ok.injEq, Prod.mk.injEq] at h
    obtain ⟨rfl, rfl⟩ := h
    exact ⟨le_refl _, rfl⟩
  · split at h
    · cases h
    · rename_i hrec
      simp only [Except.ok.injEq, Prod.mk.injEq] at h
      obtain ⟨rfl, rfl⟩ := h
      obtain ⟨-, h2⟩ := frame_loop_numbers hrec
      refine ⟨?_, rfl⟩
      rw [h2]
      omega

/-- Witness for C27: the timed-out iteration on the HEVC session at frame index 5. -/
theorem timeout_falls_through_to_encode_witness :
    ((timeout_iteration (sample_call [non_idr_packet])).shutdown
        || !(timeout_iteration (sample_call [non_idr_packet])).images_running
        || ((timeout_iteration (sample_call [non_idr_packet])).reinit
            && decide ((5 : Int) > 1))) = false ∧
      (5 : Int) ≠ INT_MAX ∧
      acquire_image (timeout_iteration (sample_call [non_idr_packet])) false = some none ∧
      ∀ last log,
        frame_loop 7 [timeout_iteration (sample_call [non_idr_packet])]
          (.avcodec hevc_scenario_session) 5 = .ok (last, log) →
        (5 : Int) + 1 ≤ last ∧
        log.head? = some (.encode 5
          (encode (sample_call [non_idr_packet]) 5 (.avcodec hevc_scenario_session) 7
            none).raised) :=
  ⟨rfl, by decide,
    (timeout_falls_through_to_encode 7 (timeout_iteration (sample_call [non_idr_packet])) []
      (.avcodec hevc_scenario_session) 5 rfl rfl rfl rfl (by decide)).1,
    (timeout_falls_through_to_encode 7 (timeout_iteration (sample_call [non_idr_packet])) []
      (.avcodec hevc_scenario_session) 5 rfl rfl rfl rfl (by decide)).2.2⟩

/-! ## The option dictionary -/

theorem build_options_retry (g : global_config) (video_format : codec_t) (config : config_t) :
    build_options g video_format config 1
      = video_format.fallback_options.foldl (handle_option g config)
          (build_options g video_format config 0) := by
  unfold build_options
  simp

/-- C26: the retry loop of the session factory makes at most two attempts.  When the
first attempt is set up, its dictionary holds no fallback option; if the codec opens,
that context is used and no second attempt is made; if the open fails and the fallback
list is empty, no session is returned; if the open fails and the fallback list is not
empty, the second attempt is made with the fallback options applied on top, and its
open decides: success gives the context, failure gives no session.  Whenever the loop
yields no context, the factory returns no session. -/
theorem codec_opened_at_most_twice (env : environment) (g : global_config)
    (encoder : encoder_t) (platform_formats : encoder_platform_formats_avcodec)
    (video_format : codec_t) (config : config_t) (encode_device : avcodec_encode_device_t)
    (sw_fmt : AVPixelFormat) (ctx0 : AVCodecContext) (options0 : AVDictionary)
    (hsetup : setup_codec_context env g encoder platform_formats video_format config
      encode_device sw_fmt 0 = .ok (ctx0, options0)) :
    options0 = build_options g video_format config 0 ∧
      (env.avcodec_open2 0 (encode_device.init_codec_options ctx0 options0).1
          (encode_device.init_codec_options ctx0 options0).2 = 0 →
        open_codec env g encoder platform_formats video_format config encode_device sw_fmt
          = .ok (encode_device.init_codec_options ctx0 options0).1) ∧
      (env.avcodec_open2 0 (encode_device.init_codec_options ctx0 options0).1
          (encode_device.init_codec_options ctx0 options0).2 ≠ 0 →
        video_format.fallback_options = [] →
        open_codec env g encoder platform_formats video_format config encode_device sw_fmt
          = .error .null) ∧
      (env.avcodec_open2 0 (encode_device.init_codec_options ctx0 options0).1
          (encode_device.init_codec_options ctx0 options0).2 ≠ 0 →
        video_format.fallback_options ≠ [] →
        ∀ ctx1 options1,
          setup_codec_context env g encoder platform_formats video_format config
            encode_device sw_fmt 1 = .ok (ctx1, options1) →
          options1 = video_format.fallback_options.foldl (handle_option g config) options0 ∧
          (env.avcodec_open2 1 (encode_device.init_codec_options ctx1 options1).1
              (encode_device.init_codec_options ctx1 options1).2 = 0 →
            open_codec env g encoder platform_formats video_format config encode_device sw_fmt
              = .ok (encode_device.init_codec_options ctx1 options1).1) ∧
          (env.avcodec_open2 1 (encode_device.init_codec_options ctx1 options1).1
              (encode_device.init_codec_options ctx1 options1).2 ≠ 0 →
            open_codec env g encoder platform_formats video_format config encode_device sw_fmt
              = .error .null)) ∧
      (∀ (disp : display_t) (width height : Int) e,
        encoder.platform_formats.kind = .avcodec platform_formats →
        video_format = encoder.codec_from_config config →
        sw_fmt = select_sw_fmt platform_formats encode_device.colorspace config →
        open_codec env g encoder platform_formats video_format config encode_device sw_fmt
          = .error e →
        ∃ e', make_avcodec_encode_session env g disp encoder config width height encode_device
          = .error e') := by
  obtain ⟨-, -, -, -, -, hopt0⟩ :=
    setup_codec_context_ok env g encoder platform_formats video_format config encode_device
      sw_fmt 0 ctx0 options0 hsetup
  refine ⟨hopt0, fun hopen => ?_, fun hopen hfb => ?_, fun hopen hfb ctx1 options1 hsetup1 => ?_,
    fun disp width height e hkind hvf hsw herr => ?_⟩
  · unfold open_codec codec_attempt
    simp [hsetup, hopen]
  · unfold open_codec codec_attempt
    simp [hsetup, hopen, hfb]
  · obtain ⟨-, -, -, -, -, hopt1⟩ :=
      setup_codec_context_ok env g encoder platform_formats video_format config encode_device
        sw_fmt 1 ctx1 options1 hsetup1
    have hne : video_format.fallback_options.isEmpty = false := by
      cases hl : video_format.fallback_options with
      | nil => exact absurd hl hfb
      | cons a l => rfl
    refine ⟨by rw [hopt1, hopt0, build_options_retry], fun hopen1 => ?_, fun hopen1 => ?_⟩
    · unfold open_codec codec_attempt
      simp [hsetup, hopen, hne, hsetup1, hopen1]
    · unfold open_codec codec_attempt
      simp [hsetup, hopen, hne, hsetup1, hopen1]
  · subst hvf hsw
    unfold make_avcodec_encode_session
    simp only [hkind]
    split_ifs
    · exact ⟨_, rfl⟩
    · exact ⟨_, rfl⟩
    · exact ⟨_, rfl⟩
    · exact ⟨_, rfl⟩
    · rw [herr]
      exact ⟨_, rfl⟩

/-- Witness for C26: in `retry_environment` the first open fails, the fallback list of
`quicksync_hevc` is not empty, and the second attempt opens the codec with the
fallback option `low_power` applied. -/
theorem codec_opened_at_most_twice_witness :
    setup_codec_context retry_environment sample_globals software software_formats
        quicksync_hevc hevc_scenario_config sample_device .AV_PIX_FMT_YUV420P 0
        = .ok ((retry_setup 0).1, (retry_setup 0).2) ∧
      retry_environment.avcodec_open2 0
          (sample_device.init_codec_options (retry_setup 0).1 (retry_setup 0).2).1
          (sample_device.init_codec_options (retry_setup 0).1 (retry_setup 0).2).2 ≠ 0 ∧
      quicksync_hevc.fallback_options ≠ [] ∧
      setup_codec_context retry_environment sample_globals software software_formats
        quicksync_hevc hevc_scenario_config sample_device .AV_PIX_FMT_YUV420P 1
        = .ok ((retry_setup 1).1, (retry_setup 1).2) ∧
      av_dict_get (retry_setup 0).2 "low_power" = some (.int 1) ∧
      (retry_setup 1).2
        = quicksync_hevc.fallback_options.foldl
            (handle_option sample_globals hevc_scenario_config) (retry_setup 0).2 ∧
      open_codec retry_environment sample_globals software software_formats quicksync_hevc
          hevc_scenario_config sample_device .AV_PIX_FMT_YUV420P
        = .ok (sample_device.init_codec_options (retry_setup 1).1 (retry_setup 1).2).1 :=
  ⟨rfl, by decide, by simp [quicksync_hevc], rfl, by decide,
    ((codec_opened_at_most_twice retry_environment sample_globals software software_formats
      quicksync_hevc hevc_scenario_config sample_device .AV_PIX_FMT_YUV420P
      (retry_setup 0).1 (retry_setup 0).2 rfl).2.2.2.1 (by decide) (by simp [quicksync_hevc])
      (retry_setup 1).1 (retry_setup 1).2 rfl).1,
    ((codec_opened_at_most_twice retry_environment sample_globals software software_formats
      quicksync_hevc hevc_scenario_config sample_device .AV_PIX_FMT_YUV420P
      (retry_setup 0).1 (retry_setup 0).2 rfl).2.2.2.1 (by decide) (by simp [quicksync_hevc])
      (retry_setup 1).1 (retry_setup 1).2 rfl).2.1 (by decide)⟩

end video
